import Mathlib

/-!
Shallow embedding of the translation-and-speech relay server
(`server.js`, Express endpoints `/api/translate` and `/api/audio`).

JavaScript strings are modelled as Lean `String`s, JS object literals as
association lists interpreted with JS semantics (`objOfList`: first-insertion
key order, last assigned value wins), the word-boundary regular-expression
test as `wbTest`, and `String.prototype.includes` as `includes`.
-/

namespace MediTranslator

/-- A JSON error response: HTTP status plus the `error` and `details` fields. -/
structure ErrResponse where
  status : Nat
  error : String
  details : String
deriving Repr, DecidableEq

/-- Body of a POST `/api/translate` request after JS destructuring defaults
(`targetLanguage = 'mandarin'`, `currentSpeaker = 'doctor'`). -/
structure TranslateRequest where
  text : String
  targetLanguage : String
  currentSpeaker : String
deriving Repr, DecidableEq

/-- Body of a POST `/api/audio` request after JS destructuring defaults. -/
structure AudioRequest where
  text : String
  targetLanguage : String
deriving Repr, DecidableEq

def validTextErr : ErrResponse :=
  ⟨400, "Valid text is required", "Please provide non-empty text to translate"⟩

def textTooLongErr : ErrResponse :=
  ⟨400, "Text too long", "Please limit input to 2000 characters or less"⟩

def invalidLanguageErr : ErrResponse :=
  ⟨400, "Invalid target language", "Supported languages: mandarin, cantonese"⟩

def audioValidTextErr : ErrResponse :=
  ⟨400, "Valid text is required for audio generation",
    "Please provide non-empty text to convert to speech"⟩

def audioTooLongErr : ErrResponse :=
  ⟨400, "Text too long for audio generation", "Please limit text to 1000 characters or less"⟩

def audioInvalidLanguageErr : ErrResponse :=
  ⟨400, "Invalid target language for audio", "Supported languages: mandarin, cantonese"⟩

/-- JS `String.prototype.trim`: strip leading and trailing whitespace. -/
def jsTrim (s : String) : String :=
  String.mk (((s.data.dropWhile Char.isWhitespace).reverse.dropWhile Char.isWhitespace).reverse)

/-- JS `String.prototype.toLowerCase` (the phrase-table keys are ASCII, so the
ASCII mapping suffices). -/
def jsToLower (s : String) : String :=
  String.mk (s.data.map Char.toLower)

/-- The input-validation prefix of the `/api/translate` handler: empty/blank
text, then the 2000-character bound, then the language enum. `currentSpeaker`
is never inspected by validation. -/
def validateTranslate (req : TranslateRequest) : Option ErrResponse :=
  if (jsTrim req.text).length = 0 then some validTextErr
  else if req.text.length > 2000 then some textTooLongErr
  else if req.targetLanguage = "mandarin" ∨ req.targetLanguage = "cantonese" then none
  else some invalidLanguageErr

/-- The input-validation prefix of the `/api/audio` handler (1000-character bound). -/
def validateAudio (req : AudioRequest) : Option ErrResponse :=
  if (jsTrim req.text).length = 0 then some audioValidTextErr
  else if req.text.length > 1000 then some audioTooLongErr
  else if req.targetLanguage = "mandarin" ∨ req.targetLanguage = "cantonese" then none
  else some audioInvalidLanguageErr

/-! ### JS object-literal semantics

A JS object literal built from a sequence of `key: value` entries keeps keys in
first-insertion order and, for a duplicated key, the last assigned value.
`Object.entries` enumerates exactly that. -/

def objAssign (acc : List (String × String)) (kv : String × String) :
    List (String × String) :=
  if acc.any (fun p => p.1 == kv.1)
  then acc.map (fun p => if p.1 == kv.1 then (p.1, kv.2) else p)
  else acc ++ [kv]

def objOfList (l : List (String × String)) : List (String × String) :=
  l.foldl objAssign []

/-- JS property read `obj[k]` on an object literal (`undefined` ↦ `none`). -/
def objGet (l : List (String × String)) (k : String) : Option String :=
  ((objOfList l).find? (fun p => p.1 == k)).map Prod.snd

/-! ### The word-boundary regex test

`new RegExp('\\b' + escaped(phrase) + '\\b', 'i').test(lowerText)`: a
case-insensitive literal occurrence of the phrase delimited by `\b` word
boundaries (the phrases contain no regex metacharacters after escaping). -/

/-- JS regex word character class `\w = [A-Za-z0-9_]`. -/
def isWordChar (c : Char) : Bool :=
  ('a' ≤ c && c ≤ 'z') || ('A' ≤ c && c ≤ 'Z') || ('0' ≤ c && c ≤ '9') || c == '_'

def isWordOpt : Option Char → Bool
  | none => false
  | some c => isWordChar c

/-- Strip `p` from the front of `t`, comparing characters case-insensitively;
returns the remaining text on success. -/
def ciStrip : List Char → List Char → Option (List Char)
  | [], t => some t
  | _ :: _, [] => none
  | c :: p, d :: t => if c.toLower == d.toLower then ciStrip p t else none

/-- Does `\b p \b` match exactly at the current position, where `prev` is the
character just before the position (if any)? A `\b` holds where exactly one of
the two adjacent characters is a word character. -/
def wbMatchAt (p : List Char) (prev : Option Char) (t : List Char) : Bool :=
  match ciStrip p t with
  | none => false
  | some rest =>
    (isWordOpt prev != isWordOpt (match p with | [] => t.head? | c :: _ => some c)) &&
    (isWordOpt (match p.getLast? with | some c => some c | none => prev) != isWordOpt rest.head?)

def wbSearch (p : List Char) : Option Char → List Char → Bool
  | prev, [] => wbMatchAt p prev []
  | prev, c :: rest => wbMatchAt p prev (c :: rest) || wbSearch p (some c) rest

/-- `RegExp('\\b…\\b','i').test text` for a literal pattern. -/
def wbTest (pat text : String) : Bool :=
  wbSearch pat.data none text.data

/-! ### `String.prototype.includes` -/

def hasSubstr (t pat : List Char) : Bool :=
  pat.isPrefixOf t ||
    (match t with
     | [] => false
     | _ :: rest => hasSubstr rest pat)

/-- JS `s.includes pat`. -/
def includes (s pat : String) : Bool :=
  hasSubstr s.data pat.data

/-! ### `Array.prototype.sort` by descending key length

`entries.sort(([a],[b]) => b.length - a.length)` is a stable sort putting
longer keys first; modelled as a stable insertion sort. -/

def insertByLen (x : String × String) : List (String × String) → List (String × String)
  | [] => [x]
  | y :: ys => if x.1.length < y.1.length then y :: insertByLen x ys else x :: y :: ys

def sortByLenDesc (l : List (String × String)) : List (String × String) :=
  l.foldr insertByLen []

def mandarinPhrases : List (String × String) :=
  [
   ("hello", "你好"),
   ("hi", "您好"),
   ("how are you", "您好吗？"),
   ("how are you feeling", "您感觉怎么样？"),
   ("what is your name", "您叫什么名字？"),
   ("how do you feel", "您感觉怎么样？"),
   ("where does it hurt", "哪里疼？"),
   ("where is the pain", "疼痛在哪里？"),
   ("can you tell me where the pain is", "您能告诉我疼痛在哪里吗？"),
   ("what kind of pain", "什么样的疼痛？"),
   ("when did this start", "这是什么时候开始的？"),
   ("when did this pain start", "这个疼痛是什么时候开始的？"),
   ("how long have you had this", "您有这个症状多长时间了？"),
   ("on a scale of 1 to 10", "从1到10分"),
   ("take this medication", "服用这个药物"),
   ("take this medication twice daily", "每天服用这个药物两次"),
   ("take this medication twice daily with food", "每天随餐服用这个药物两次"),
   ("with food", "随餐服用"),
   ("before meals", "饭前服用"),
   ("after meals", "饭后服用"),
   ("thank you", "谢谢"),
   ("goodbye", "再见"),
   ("please sit down", "请坐"),
   ("open your mouth", "请张开嘴"),
   ("take a deep breath", "请深呼吸")
  ]

def cantonesePhrases : List (String × String) :=
  [
   ("hello", "你好"),
   ("hi", "你好"),
   ("how are you", "你好嗎？"),
   ("how are you feeling", "你感覺點樣？"),
   ("what is your name", "你叫咩名？"),
   ("how do you feel", "你覺得點樣？"),
   ("where does it hurt", "邊度痛？"),
   ("where is the pain", "痛喺邊度？"),
   ("can you tell me where the pain is", "你可以話我知痛喺邊度嗎？"),
   ("what kind of pain", "咩種痛？"),
   ("when did this start", "幾時開始嘅？"),
   ("when did this pain start", "呢個痛幾時開始嘅？"),
   ("how long have you had this", "你有呢個症狀幾耐？"),
   ("on a scale of 1 to 10", "由1到10分"),
   ("take this medication", "食呢隻藥"),
   ("take this medication twice daily", "呢隻藥一日食兩次"),
   ("take this medication twice daily with food", "呢隻藥要一日食兩次，記住要同食物一齊食"),
   ("with food", "同食物一齊食"),
   ("before meals", "飯前食"),
   ("after meals", "飯後食"),
   ("thank you", "多謝"),
   ("goodbye", "再見"),
   ("please sit down", "請坐"),
   ("open your mouth", "請張開口"),
   ("take a deep breath", "請深呼吸")
  ]

def mockChineseToEnglish : List (String × String) :=
  [
   ("你好", "Hello"),
   ("我很好", "I am fine"),
   ("我不舒服", "I don\x27t feel well"),
   ("我不好", "I am not well"),
   ("我病了", "I am sick"),
   ("我感觉不好", "I don\x27t feel good"),
   ("这里疼", "It hurts here"),
   ("那里疼", "It hurts there"),
   ("头疼", "I have a headache"),
   ("头痛", "I have a headache"),
   ("偏头痛", "I have a migraine"),
   ("肚子疼", "My stomach hurts"),
   ("胃疼", "My stomach hurts"),
   ("肚子痛", "My stomach hurts"),
   ("喉咙疼", "My throat hurts"),
   ("嗓子疼", "My throat hurts"),
   ("扁桃体发炎", "My tonsils are inflamed"),
   ("背疼", "My back hurts"),
   ("腰疼", "My lower back hurts"),
   ("脖子疼", "My neck hurts"),
   ("肩膀疼", "My shoulder hurts"),
   ("胸疼", "My chest hurts"),
   ("胸口疼", "My chest hurts"),
   ("心脏疼", "My heart hurts"),
   ("膝盖疼", "My knee hurts"),
   ("腿疼", "My leg hurts"),
   ("脚疼", "My foot hurts"),
   ("手疼", "My hand hurts"),
   ("胳膊疼", "My arm hurts"),
   ("眼睛疼", "My eyes hurt"),
   ("耳朵疼", "My ear hurts"),
   ("牙疼", "I have a toothache"),
   ("牙痛", "I have a toothache"),
   ("发烧", "I have a fever"),
   ("发热", "I have a fever"),
   ("高烧", "I have a high fever"),
   ("低烧", "I have a low fever"),
   ("咳嗽", "I am coughing"),
   ("干咳", "I have a dry cough"),
   ("咳痰", "I am coughing up phlegm"),
   ("流鼻涕", "I have a runny nose"),
   ("鼻塞", "My nose is blocked"),
   ("打喷嚏", "I am sneezing"),
   ("感冒", "I have a cold"),
   ("感冒了", "I have a cold"),
   ("流感", "I have the flu"),
   ("恶心", "I feel nauseous"),
   ("想吐", "I feel like vomiting"),
   ("呕吐", "I am vomiting"),
   ("拉肚子", "I have diarrhea"),
   ("腹泻", "I have diarrhea"),
   ("便秘", "I am constipated"),
   ("头晕", "I feel dizzy"),
   ("头昏", "I feel dizzy"),
   ("晕", "I feel dizzy"),
   ("疲倦", "I feel tired"),
   ("累", "I am tired"),
   ("乏力", "I feel weak"),
   ("没力气", "I have no energy"),
   ("失眠", "I have insomnia"),
   ("睡不着", "Can\x27t sleep"),
   ("睡不好", "Can\x27t sleep well"),
   ("食欲不振", "Loss of appetite"),
   ("吃不下", "Can\x27t eat"),
   ("没胃口", "No appetite"),
   ("心跳快", "Fast heartbeat"),
   ("心慌", "Heart palpitations"),
   ("气短", "Shortness of breath"),
   ("呼吸困难", "Difficulty breathing"),
   ("过敏", "I am allergic"),
   ("过敏反应", "Allergic reaction"),
   ("皮疹", "I have a rash"),
   ("发痒", "It\x27s itchy"),
   ("痒", "It\x27s itchy"),
   ("红肿", "Red and swollen"),
   ("肿胀", "Swelling"),
   ("疼", "It hurts"),
   ("痛", "It\x27s painful"),
   ("很疼", "It hurts a lot"),
   ("非常疼", "It hurts very much"),
   ("剧痛", "Severe pain"),
   ("隐痛", "Dull pain"),
   ("有点疼", "It hurts a little"),
   ("一直疼", "It hurts all the time"),
   ("有时候疼", "It hurts sometimes"),
   ("刺痛", "Sharp pain"),
   ("针扎一样疼", "Like needle pricks"),
   ("闷痛", "Dull pain"),
   ("胀痛", "Bloating pain"),
   ("酸痛", "Aching pain"),
   ("隐隐作痛", "Dull aching"),
   ("一阵一阵的疼", "Comes and goes"),
   ("越来越疼", "Getting worse"),
   ("没那么疼了", "Not as painful now"),
   ("疼得厉害", "Very painful"),
   ("火辣辣的疼", "Burning pain"),
   ("麻木", "Numbness"),
   ("发麻", "Tingling"),
   ("僵硬", "Stiffness"),
   ("发紧", "Tightness"),
   ("很疼", "It hurts a lot"),
   ("有点疼", "It hurts a little"),
   ("一直疼", "It hurts all the time"),
   ("有时候疼", "It hurts sometimes"),
   ("刺痛", "Sharp pain"),
   ("闷痛", "Dull pain"),
   ("胀痛", "Bloating pain"),
   ("酸痛", "Aching pain"),
   ("隐隐作痛", "Dull aching"),
   ("一阵一阵的疼", "Comes and goes"),
   ("越来越疼", "Getting worse"),
   ("没那么疼了", "Not as painful now"),
   ("睡不着", "Can\x27t sleep"),
   ("吃不下", "Can\x27t eat"),
   ("没胃口", "No appetite"),
   ("从昨天开始", "Since yesterday"),
   ("从今天早上开始", "Since this morning"),
   ("两天了", "For two days"),
   ("一个星期了", "For a week"),
   ("一个月了", "For a month"),
   ("大概一个月", "About a month"),
   ("大概一個月", "About a month"),
   ("几天了", "For a few days"),
   ("很久了", "For a long time"),
   ("刚开始", "Just started"),
   ("昨天", "Yesterday"),
   ("今天", "Today"),
   ("上周", "Last week"),
   ("上个月", "Last month"),
   ("一周", "One week"),
   ("两周", "Two weeks"),
   ("三天", "Three days"),
   ("五天", "Five days"),
   ("十天", "Ten days"),
   ("半个月", "Half a month"),
   ("两个月", "Two months"),
   ("很多年了", "For many years"),
   ("以前有过", "I had it before"),
   ("第一次", "First time"),
   ("家族史", "Family history"),
   ("遗传", "Hereditary"),
   ("高血压", "High blood pressure"),
   ("糖尿病", "Diabetes"),
   ("心脏病", "Heart disease"),
   ("哮喘", "Asthma"),
   ("过敏史", "Allergy history"),
   ("药物过敏", "Drug allergy"),
   ("食物过敏", "Food allergy"),
   ("怀孕", "Pregnant"),
   ("怀孕了", "I am pregnant"),
   ("月经", "Menstruation"),
   ("生理期", "Menstrual period"),
   ("吃药", "Taking medication"),
   ("正在吃药", "Currently taking medication"),
   ("没吃药", "Not taking medication"),
   ("按时吃药", "Taking medication on time"),
   ("忘记吃药", "Forgot to take medication"),
   ("手术", "Surgery"),
   ("做过手术", "Had surgery"),
   ("住院", "Hospitalized"),
   ("住过院", "Was hospitalized"),
   ("体检", "Physical examination"),
   ("检查", "Examination"),
   ("化验", "Lab test"),
   ("拍片", "X-ray"),
   ("CT", "CT scan"),
   ("B超", "Ultrasound"),
   ("谢谢", "Thank you"),
   ("再见", "Goodbye"),
   ("是的", "Yes"),
   ("不是", "No"),
   ("我不知道", "I don\x27t know"),
   ("我好好", "I am fine"),
   ("我唔舒服", "I don\x27t feel well"),
   ("我唔好", "I am not well"),
   ("我病咗", "I am sick"),
   ("我感覺唔好", "I don\x27t feel good"),
   ("呢度痛", "It hurts here"),
   ("嗰度痛", "It hurts there"),
   ("頭痛", "I have a headache"),
   ("頭疼", "I have a headache"),
   ("偏頭痛", "I have a migraine"),
   ("肚痛", "My stomach hurts"),
   ("胃痛", "My stomach hurts"),
   ("肚仔痛", "My stomach hurts"),
   ("喉嚨痛", "My throat hurts"),
   ("扁桃腺發炎", "My tonsils are inflamed"),
   ("背脊痛", "My back hurts"),
   ("腰痛", "My lower back hurts"),
   ("頸痛", "My neck hurts"),
   ("膊頭痛", "My shoulder hurts"),
   ("胸口痛", "My chest hurts"),
   ("心口痛", "My chest hurts"),
   ("心臟痛", "My heart hurts"),
   ("膝頭痛", "My knee hurts"),
   ("腳痛", "My leg hurts"),
   ("腳板痛", "My foot hurts"),
   ("手痛", "My hand hurts"),
   ("手臂痛", "My arm hurts"),
   ("眼痛", "My eyes hurt"),
   ("耳仔痛", "My ear hurts"),
   ("牙痛", "I have a toothache"),
   ("牙齒痛", "I have a toothache"),
   ("發燒", "I have a fever"),
   ("發熱", "I have a fever"),
   ("高燒", "I have a high fever"),
   ("低燒", "I have a low fever"),
   ("咳", "I am coughing"),
   ("咳嗽", "I am coughing"),
   ("乾咳", "I have a dry cough"),
   ("咳痰", "I am coughing up phlegm"),
   ("流鼻水", "I have a runny nose"),
   ("鼻塞", "My nose is blocked"),
   ("打乞嗤", "I am sneezing"),
   ("感冒", "I have a cold"),
   ("感冒咗", "I have a cold"),
   ("流感", "I have the flu"),
   ("想嘔", "I feel nauseous"),
   ("想吐", "I feel like vomiting"),
   ("嘔吐", "I am vomiting"),
   ("肚瀉", "I have diarrhea"),
   ("腹瀉", "I have diarrhea"),
   ("便秘", "I am constipated"),
   ("頭暈", "I feel dizzy"),
   ("頭昏", "I feel dizzy"),
   ("暈", "I feel dizzy"),
   ("攰", "I am tired"),
   ("好攰", "I am very tired"),
   ("冇力", "I feel weak"),
   ("冇氣力", "I have no energy"),
   ("失眠", "I have insomnia"),
   ("瞓唔著", "Can\x27t sleep"),
   ("瞓唔好", "Can\x27t sleep well"),
   ("冇胃口", "Loss of appetite"),
   ("食唔落", "Can\x27t eat"),
   ("冇食慾", "No appetite"),
   ("心跳快", "Fast heartbeat"),
   ("心慌", "Heart palpitations"),
   ("氣促", "Shortness of breath"),
   ("呼吸困難", "Difficulty breathing"),
   ("過敏", "I am allergic"),
   ("過敏反應", "Allergic reaction"),
   ("皮疹", "I have a rash"),
   ("痕癢", "It\x27s itchy"),
   ("痕", "It\x27s itchy"),
   ("紅腫", "Red and swollen"),
   ("腫脹", "Swelling"),
   ("痛", "It hurts"),
   ("好痛", "It hurts a lot"),
   ("非常痛", "It hurts very much"),
   ("劇痛", "Severe pain"),
   ("隱痛", "Dull pain"),
   ("有啲痛", "It hurts a little"),
   ("一直痛", "It hurts all the time"),
   ("有時痛", "It hurts sometimes"),
   ("刺痛", "Sharp pain"),
   ("好似針拮咁痛", "Like needle pricks"),
   ("悶痛", "Dull pain"),
   ("脹痛", "Bloating pain"),
   ("酸痛", "Aching pain"),
   ("隱隱作痛", "Dull aching"),
   ("一陣一陣咁痛", "Comes and goes"),
   ("越嚟越痛", "Getting worse"),
   ("冇咁痛喇", "Not as painful now"),
   ("痛到好犀利", "Very painful"),
   ("火辣辣咁痛", "Burning pain"),
   ("麻痺", "Numbness"),
   ("發麻", "Tingling"),
   ("僵硬", "Stiffness"),
   ("發緊", "Tightness"),
   ("好痛", "It hurts a lot"),
   ("有啲痛", "It hurts a little"),
   ("一直痛", "It hurts all the time"),
   ("有時痛", "It hurts sometimes"),
   ("刺痛", "Sharp pain"),
   ("悶痛", "Dull pain"),
   ("脹痛", "Bloating pain"),
   ("酸痛", "Aching pain"),
   ("隱隱作痛", "Dull aching"),
   ("一陣一陣咁痛", "Comes and goes"),
   ("越嚟越痛", "Getting worse"),
   ("冇咁痛喇", "Not as painful now"),
   ("瞓唔著", "Can\x27t sleep"),
   ("食唔落", "Can\x27t eat"),
   ("冇胃口", "No appetite"),
   ("從琴日開始", "Since yesterday"),
   ("從今朝開始", "Since this morning"),
   ("兩日喇", "For two days"),
   ("一個禮拜喇", "For a week"),
   ("一個月喇", "For a month"),
   ("大概一個月", "About a month"),
   ("幾日喇", "For a few days"),
   ("好耐喇", "For a long time"),
   ("啱啱開始", "Just started"),
   ("琴日", "Yesterday"),
   ("今日", "Today"),
   ("上星期", "Last week"),
   ("上個月", "Last month"),
   ("一星期", "One week"),
   ("兩星期", "Two weeks"),
   ("三日", "Three days"),
   ("五日", "Five days"),
   ("十日", "Ten days"),
   ("半個月", "Half a month"),
   ("兩個月", "Two months"),
   ("好多年喇", "For many years"),
   ("以前有過", "I had it before"),
   ("第一次", "First time"),
   ("家族史", "Family history"),
   ("遺傳", "Hereditary"),
   ("高血壓", "High blood pressure"),
   ("糖尿病", "Diabetes"),
   ("心臟病", "Heart disease"),
   ("哮喘", "Asthma"),
   ("過敏史", "Allergy history"),
   ("藥物過敏", "Drug allergy"),
   ("食物過敏", "Food allergy"),
   ("懷孕", "Pregnant"),
   ("懷孕咗", "I am pregnant"),
   ("嚟M", "Menstruation"),
   ("生理期", "Menstrual period"),
   ("食藥", "Taking medication"),
   ("而家食緊藥", "Currently taking medication"),
   ("冇食藥", "Not taking medication"),
   ("準時食藥", "Taking medication on time"),
   ("唔記得食藥", "Forgot to take medication"),
   ("手術", "Surgery"),
   ("做過手術", "Had surgery"),
   ("住院", "Hospitalized"),
   ("住過院", "Was hospitalized"),
   ("身體檢查", "Physical examination"),
   ("檢查", "Examination"),
   ("化驗", "Lab test"),
   ("照X光", "X-ray"),
   ("CT", "CT scan"),
   ("B超", "Ultrasound"),
   ("多謝", "Thank you"),
   ("再見", "Goodbye"),
   ("係", "Yes"),
   ("唔係", "No"),
   ("我唔知", "I don\x27t know"),
   ("唔舒服", "Not feeling well"),
   ("好辛苦", "Very uncomfortable"),
   ("儿歌喉痛", "My throat hurts")
  ]

def chineseEntries : List (String × String) :=
  [
   ("你好", "Hello"),
   ("我很好", "I am fine"),
   ("我不舒服", "I don\x27t feel well"),
   ("我不好", "I am not well"),
   ("我病了", "I am sick"),
   ("我感觉不好", "I don\x27t feel good"),
   ("这里疼", "It hurts here"),
   ("那里疼", "It hurts there"),
   ("头疼", "I have a headache"),
   ("头痛", "I have a headache"),
   ("偏头痛", "I have a migraine"),
   ("肚子疼", "My stomach hurts"),
   ("胃疼", "My stomach hurts"),
   ("肚子痛", "My stomach hurts"),
   ("喉咙疼", "My throat hurts"),
   ("嗓子疼", "My throat hurts"),
   ("扁桃体发炎", "My tonsils are inflamed"),
   ("背疼", "My back hurts"),
   ("腰疼", "My lower back hurts"),
   ("脖子疼", "My neck hurts"),
   ("肩膀疼", "My shoulder hurts"),
   ("胸疼", "My chest hurts"),
   ("胸口疼", "My chest hurts"),
   ("心脏疼", "My heart hurts"),
   ("膝盖疼", "My knee hurts"),
   ("腿疼", "My leg hurts"),
   ("脚疼", "My foot hurts"),
   ("手疼", "My hand hurts"),
   ("胳膊疼", "My arm hurts"),
   ("眼睛疼", "My eyes hurt"),
   ("耳朵疼", "My ear hurts"),
   ("牙疼", "I have a toothache"),
   ("牙痛", "I have a toothache"),
   ("发烧", "I have a fever"),
   ("发热", "I have a fever"),
   ("高烧", "I have a high fever"),
   ("低烧", "I have a low fever"),
   ("咳嗽", "I am coughing"),
   ("干咳", "I have a dry cough"),
   ("咳痰", "I am coughing up phlegm"),
   ("流鼻涕", "I have a runny nose"),
   ("鼻塞", "My nose is blocked"),
   ("打喷嚏", "I am sneezing"),
   ("感冒", "I have a cold"),
   ("感冒了", "I have a cold"),
   ("流感", "I have the flu"),
   ("恶心", "I feel nauseous"),
   ("想吐", "I feel like vomiting"),
   ("呕吐", "I am vomiting"),
   ("拉肚子", "I have diarrhea"),
   ("腹泻", "I have diarrhea"),
   ("便秘", "I am constipated"),
   ("头晕", "I feel dizzy"),
   ("头昏", "I feel dizzy"),
   ("晕", "I feel dizzy"),
   ("疲倦", "I feel tired"),
   ("累", "I am tired"),
   ("乏力", "I feel weak"),
   ("没力气", "I have no energy"),
   ("失眠", "I have insomnia"),
   ("睡不着", "Can\x27t sleep"),
   ("睡不好", "Can\x27t sleep well"),
   ("食欲不振", "Loss of appetite"),
   ("吃不下", "Can\x27t eat"),
   ("没胃口", "No appetite"),
   ("心跳快", "Fast heartbeat"),
   ("心慌", "Heart palpitations"),
   ("气短", "Shortness of breath"),
   ("呼吸困难", "Difficulty breathing"),
   ("过敏", "I am allergic"),
   ("过敏反应", "Allergic reaction"),
   ("皮疹", "I have a rash"),
   ("发痒", "It\x27s itchy"),
   ("痒", "It\x27s itchy"),
   ("红肿", "Red and swollen"),
   ("肿胀", "Swelling"),
   ("疼", "It hurts"),
   ("痛", "It hurts"),
   ("很疼", "It hurts a lot"),
   ("非常疼", "It hurts very much"),
   ("剧痛", "Severe pain"),
   ("隐痛", "Dull pain"),
   ("有点疼", "It hurts a little"),
   ("一直疼", "It hurts all the time"),
   ("有时候疼", "It hurts sometimes"),
   ("刺痛", "Sharp pain"),
   ("针扎一样疼", "Like needle pricks"),
   ("闷痛", "Dull pain"),
   ("胀痛", "Bloating pain"),
   ("酸痛", "Aching pain"),
   ("隐隐作痛", "Dull aching"),
   ("一阵一阵的疼", "Comes and goes"),
   ("越来越疼", "Getting worse"),
   ("没那么疼了", "Not as painful now"),
   ("疼得厉害", "Very painful"),
   ("火辣辣的疼", "Burning pain"),
   ("麻木", "Numbness"),
   ("发麻", "Tingling"),
   ("僵硬", "Stiffness"),
   ("发紧", "Tightness"),
   ("从昨天开始", "Since yesterday"),
   ("从今天早上开始", "Since this morning"),
   ("两天了", "For two days"),
   ("一个星期了", "For a week"),
   ("一个月了", "For a month"),
   ("大概一个月", "About a month"),
   ("大概一個月", "About a month"),
   ("几天了", "For a few days"),
   ("很久了", "For a long time"),
   ("刚开始", "Just started"),
   ("昨天", "Yesterday"),
   ("今天", "Today"),
   ("上周", "Last week"),
   ("上个月", "Last month"),
   ("一周", "One week"),
   ("两周", "Two weeks"),
   ("三天", "Three days"),
   ("五天", "Five days"),
   ("十天", "Ten days"),
   ("半个月", "Half a month"),
   ("两个月", "Two months"),
   ("很多年了", "For many years"),
   ("以前有过", "I had it before"),
   ("第一次", "First time"),
   ("家族史", "Family history"),
   ("遗传", "Hereditary"),
   ("高血压", "High blood pressure"),
   ("糖尿病", "Diabetes"),
   ("心脏病", "Heart disease"),
   ("哮喘", "Asthma"),
   ("过敏史", "Allergy history"),
   ("药物过敏", "Drug allergy"),
   ("食物过敏", "Food allergy"),
   ("怀孕", "Pregnant"),
   ("怀孕了", "I am pregnant"),
   ("月经", "Menstruation"),
   ("生理期", "Menstrual period"),
   ("吃药", "Taking medication"),
   ("正在吃药", "Currently taking medication"),
   ("没吃药", "Not taking medication"),
   ("按时吃药", "Taking medication on time"),
   ("忘记吃药", "Forgot to take medication"),
   ("手术", "Surgery"),
   ("做过手术", "Had surgery"),
   ("住院", "Hospitalized"),
   ("住过院", "Was hospitalized"),
   ("体检", "Physical examination"),
   ("检查", "Examination"),
   ("化验", "Lab test"),
   ("拍片", "X-ray"),
   ("CT", "CT scan"),
   ("B超", "Ultrasound"),
   ("谢谢", "Thank you"),
   ("再见", "Goodbye"),
   ("是的", "Yes"),
   ("不是", "No"),
   ("我不知道", "I don\x27t know"),
   ("我好好", "I am fine"),
   ("我唔舒服", "I don\x27t feel well"),
   ("我唔好", "I am not well"),
   ("我病咗", "I am sick"),
   ("我感覺唔好", "I don\x27t feel good"),
   ("呢度痛", "It hurts here"),
   ("嗰度痛", "It hurts there"),
   ("頭痛", "I have a headache"),
   ("頭疼", "I have a headache"),
   ("偏頭痛", "I have a migraine"),
   ("肚痛", "My stomach hurts"),
   ("胃痛", "My stomach hurts"),
   ("肚仔痛", "My stomach hurts"),
   ("喉嚨痛", "My throat hurts"),
   ("扁桃腺發炎", "My tonsils are inflamed"),
   ("背脊痛", "My back hurts"),
   ("腰痛", "My lower back hurts"),
   ("頸痛", "My neck hurts"),
   ("膊頭痛", "My shoulder hurts"),
   ("胸口痛", "My chest hurts"),
   ("心口痛", "My chest hurts"),
   ("心臟痛", "My heart hurts"),
   ("膝頭痛", "My knee hurts"),
   ("腳痛", "My leg hurts"),
   ("腳板痛", "My foot hurts"),
   ("手痛", "My hand hurts"),
   ("手臂痛", "My arm hurts"),
   ("眼痛", "My eyes hurt"),
   ("耳仔痛", "My ear hurts"),
   ("牙齒痛", "I have a toothache"),
   ("發燒", "I have a fever"),
   ("發熱", "I have a fever"),
   ("高燒", "I have a high fever"),
   ("低燒", "I have a low fever"),
   ("咳", "I am coughing"),
   ("乾咳", "I have a dry cough"),
   ("流鼻水", "I have a runny nose"),
   ("打乞嗤", "I am sneezing"),
   ("感冒咗", "I have a cold"),
   ("想嘔", "I feel nauseous"),
   ("嘔吐", "I am vomiting"),
   ("肚瀉", "I have diarrhea"),
   ("腹瀉", "I have diarrhea"),
   ("頭暈", "I feel dizzy"),
   ("頭昏", "I feel dizzy"),
   ("暈", "I feel dizzy"),
   ("攰", "I am tired"),
   ("好攰", "I am very tired"),
   ("冇力", "I feel weak"),
   ("冇氣力", "I have no energy"),
   ("瞓唔著", "Can\x27t sleep"),
   ("瞓唔好", "Can\x27t sleep well"),
   ("冇胃口", "No appetite"),
   ("食唔落", "Can\x27t eat"),
   ("冇食慾", "No appetite"),
   ("氣促", "Shortness of breath"),
   ("呼吸困難", "Difficulty breathing"),
   ("過敏", "I am allergic"),
   ("過敏反應", "Allergic reaction"),
   ("痕癢", "It\x27s itchy"),
   ("痕", "It\x27s itchy"),
   ("紅腫", "Red and swollen"),
   ("腫脹", "Swelling"),
   ("好痛", "It hurts a lot"),
   ("非常痛", "It hurts very much"),
   ("劇痛", "Severe pain"),
   ("隱痛", "Dull pain"),
   ("有啲痛", "It hurts a little"),
   ("一直痛", "It hurts all the time"),
   ("有時痛", "It hurts sometimes"),
   ("好似針拮咁痛", "Like needle pricks"),
   ("悶痛", "Dull pain"),
   ("脹痛", "Bloating pain"),
   ("隱隱作痛", "Dull aching"),
   ("一陣一陣咁痛", "Comes and goes"),
   ("越嚟越痛", "Getting worse"),
   ("冇咁痛喇", "Not as painful now"),
   ("痛到好犀利", "Very painful"),
   ("火辣辣咁痛", "Burning pain"),
   ("麻痺", "Numbness"),
   ("發麻", "Tingling"),
   ("發緊", "Tightness"),
   ("從琴日開始", "Since yesterday"),
   ("從今朝開始", "Since this morning"),
   ("兩日喇", "For two days"),
   ("一個禮拜喇", "For a week"),
   ("一個月喇", "For a month"),
   ("幾日喇", "For a few days"),
   ("好耐喇", "For a long time"),
   ("啱啱開始", "Just started"),
   ("琴日", "Yesterday"),
   ("今日", "Today"),
   ("上星期", "Last week"),
   ("上個月", "Last month"),
   ("一星期", "One week"),
   ("兩星期", "Two weeks"),
   ("三日", "Three days"),
   ("五日", "Five days"),
   ("十日", "Ten days"),
   ("半個月", "Half a month"),
   ("兩個月", "Two months"),
   ("好多年喇", "For many years"),
   ("以前有過", "I had it before"),
   ("遺傳", "Hereditary"),
   ("高血壓", "High blood pressure"),
   ("心臟病", "Heart disease"),
   ("過敏史", "Allergy history"),
   ("藥物過敏", "Drug allergy"),
   ("食物過敏", "Food allergy"),
   ("懷孕", "Pregnant"),
   ("懷孕咗", "I am pregnant"),
   ("嚟M", "Menstruation"),
   ("食藥", "Taking medication"),
   ("而家食緊藥", "Currently taking medication"),
   ("冇食藥", "Not taking medication"),
   ("準時食藥", "Taking medication on time"),
   ("唔記得食藥", "Forgot to take medication"),
   ("手術", "Surgery"),
   ("做過手術", "Had surgery"),
   ("住過院", "Was hospitalized"),
   ("身體檢查", "Physical examination"),
   ("檢查", "Examination"),
   ("化驗", "Lab test"),
   ("照X光", "X-ray"),
   ("多謝", "Thank you"),
   ("再見", "Goodbye"),
   ("係", "Yes"),
   ("唔係", "No"),
   ("我唔知", "I don\x27t know"),
   ("唔舒服", "Not feeling well"),
   ("好辛苦", "Very uncomfortable"),
   ("儿歌喉痛", "My throat hurts")
  ]

def chineseSorted : List (String × String) :=
  [
   ("从今天早上开始", "Since this morning"),
   ("一阵一阵的疼", "Comes and goes"),
   ("好似針拮咁痛", "Like needle pricks"),
   ("一陣一陣咁痛", "Comes and goes"),
   ("我感觉不好", "I don\x27t feel good"),
   ("扁桃体发炎", "My tonsils are inflamed"),
   ("针扎一样疼", "Like needle pricks"),
   ("没那么疼了", "Not as painful now"),
   ("火辣辣的疼", "Burning pain"),
   ("从昨天开始", "Since yesterday"),
   ("一个星期了", "For a week"),
   ("大概一个月", "About a month"),
   ("大概一個月", "About a month"),
   ("我感覺唔好", "I don\x27t feel good"),
   ("扁桃腺發炎", "My tonsils are inflamed"),
   ("痛到好犀利", "Very painful"),
   ("火辣辣咁痛", "Burning pain"),
   ("從琴日開始", "Since yesterday"),
   ("從今朝開始", "Since this morning"),
   ("一個禮拜喇", "For a week"),
   ("而家食緊藥", "Currently taking medication"),
   ("唔記得食藥", "Forgot to take medication"),
   ("我不舒服", "I don\x27t feel well"),
   ("食欲不振", "Loss of appetite"),
   ("呼吸困难", "Difficulty breathing"),
   ("过敏反应", "Allergic reaction"),
   ("有时候疼", "It hurts sometimes"),
   ("隐隐作痛", "Dull aching"),
   ("越来越疼", "Getting worse"),
   ("疼得厉害", "Very painful"),
   ("一个月了", "For a month"),
   ("很多年了", "For many years"),
   ("以前有过", "I had it before"),
   ("药物过敏", "Drug allergy"),
   ("食物过敏", "Food allergy"),
   ("正在吃药", "Currently taking medication"),
   ("按时吃药", "Taking medication on time"),
   ("忘记吃药", "Forgot to take medication"),
   ("做过手术", "Had surgery"),
   ("我不知道", "I don\x27t know"),
   ("我唔舒服", "I don\x27t feel well"),
   ("呼吸困難", "Difficulty breathing"),
   ("過敏反應", "Allergic reaction"),
   ("隱隱作痛", "Dull aching"),
   ("越嚟越痛", "Getting worse"),
   ("冇咁痛喇", "Not as painful now"),
   ("一個月喇", "For a month"),
   ("啱啱開始", "Just started"),
   ("好多年喇", "For many years"),
   ("以前有過", "I had it before"),
   ("藥物過敏", "Drug allergy"),
   ("食物過敏", "Food allergy"),
   ("準時食藥", "Taking medication on time"),
   ("做過手術", "Had surgery"),
   ("身體檢查", "Physical examination"),
   ("儿歌喉痛", "My throat hurts"),
   ("我很好", "I am fine"),
   ("我不好", "I am not well"),
   ("我病了", "I am sick"),
   ("这里疼", "It hurts here"),
   ("那里疼", "It hurts there"),
   ("偏头痛", "I have a migraine"),
   ("肚子疼", "My stomach hurts"),
   ("肚子痛", "My stomach hurts"),
   ("喉咙疼", "My throat hurts"),
   ("嗓子疼", "My throat hurts"),
   ("脖子疼", "My neck hurts"),
   ("肩膀疼", "My shoulder hurts"),
   ("胸口疼", "My chest hurts"),
   ("心脏疼", "My heart hurts"),
   ("膝盖疼", "My knee hurts"),
   ("胳膊疼", "My arm hurts"),
   ("眼睛疼", "My eyes hurt"),
   ("耳朵疼", "My ear hurts"),
   ("流鼻涕", "I have a runny nose"),
   ("打喷嚏", "I am sneezing"),
   ("感冒了", "I have a cold"),
   ("拉肚子", "I have diarrhea"),
   ("没力气", "I have no energy"),
   ("睡不着", "Can\x27t sleep"),
   ("睡不好", "Can\x27t sleep well"),
   ("吃不下", "Can\x27t eat"),
   ("没胃口", "No appetite"),
   ("心跳快", "Fast heartbeat"),
   ("非常疼", "It hurts very much"),
   ("有点疼", "It hurts a little"),
   ("一直疼", "It hurts all the time"),
   ("两天了", "For two days"),
   ("几天了", "For a few days"),
   ("很久了", "For a long time"),
   ("刚开始", "Just started"),
   ("上个月", "Last month"),
   ("半个月", "Half a month"),
   ("两个月", "Two months"),
   ("第一次", "First time"),
   ("家族史", "Family history"),
   ("高血压", "High blood pressure"),
   ("糖尿病", "Diabetes"),
   ("心脏病", "Heart disease"),
   ("过敏史", "Allergy history"),
   ("怀孕了", "I am pregnant"),
   ("生理期", "Menstrual period"),
   ("没吃药", "Not taking medication"),
   ("住过院", "Was hospitalized"),
   ("我好好", "I am fine"),
   ("我唔好", "I am not well"),
   ("我病咗", "I am sick"),
   ("呢度痛", "It hurts here"),
   ("嗰度痛", "It hurts there"),
   ("偏頭痛", "I have a migraine"),
   ("肚仔痛", "My stomach hurts"),
   ("喉嚨痛", "My throat hurts"),
   ("背脊痛", "My back hurts"),
   ("膊頭痛", "My shoulder hurts"),
   ("胸口痛", "My chest hurts"),
   ("心口痛", "My chest hurts"),
   ("心臟痛", "My heart hurts"),
   ("膝頭痛", "My knee hurts"),
   ("腳板痛", "My foot hurts"),
   ("手臂痛", "My arm hurts"),
   ("耳仔痛", "My ear hurts"),
   ("牙齒痛", "I have a toothache"),
   ("流鼻水", "I have a runny nose"),
   ("打乞嗤", "I am sneezing"),
   ("感冒咗", "I have a cold"),
   ("冇氣力", "I have no energy"),
   ("瞓唔著", "Can\x27t sleep"),
   ("瞓唔好", "Can\x27t sleep well"),
   ("冇胃口", "No appetite"),
   ("食唔落", "Can\x27t eat"),
   ("冇食慾", "No appetite"),
   ("非常痛", "It hurts very much"),
   ("有啲痛", "It hurts a little"),
   ("一直痛", "It hurts all the time"),
   ("有時痛", "It hurts sometimes"),
   ("兩日喇", "For two days"),
   ("幾日喇", "For a few days"),
   ("好耐喇", "For a long time"),
   ("上星期", "Last week"),
   ("上個月", "Last month"),
   ("一星期", "One week"),
   ("兩星期", "Two weeks"),
   ("半個月", "Half a month"),
   ("兩個月", "Two months"),
   ("高血壓", "High blood pressure"),
   ("心臟病", "Heart disease"),
   ("過敏史", "Allergy history"),
   ("懷孕咗", "I am pregnant"),
   ("冇食藥", "Not taking medication"),
   ("住過院", "Was hospitalized"),
   ("照X光", "X-ray"),
   ("我唔知", "I don\x27t know"),
   ("唔舒服", "Not feeling well"),
   ("好辛苦", "Very uncomfortable"),
   ("你好", "Hello"),
   ("头疼", "I have a headache"),
   ("头痛", "I have a headache"),
   ("胃疼", "My stomach hurts"),
   ("背疼", "My back hurts"),
   ("腰疼", "My lower back hurts"),
   ("胸疼", "My chest hurts"),
   ("腿疼", "My leg hurts"),
   ("脚疼", "My foot hurts"),
   ("手疼", "My hand hurts"),
   ("牙疼", "I have a toothache"),
   ("牙痛", "I have a toothache"),
   ("发烧", "I have a fever"),
   ("发热", "I have a fever"),
   ("高烧", "I have a high fever"),
   ("低烧", "I have a low fever"),
   ("咳嗽", "I am coughing"),
   ("干咳", "I have a dry cough"),
   ("咳痰", "I am coughing up phlegm"),
   ("鼻塞", "My nose is blocked"),
   ("感冒", "I have a cold"),
   ("流感", "I have the flu"),
   ("恶心", "I feel nauseous"),
   ("想吐", "I feel like vomiting"),
   ("呕吐", "I am vomiting"),
   ("腹泻", "I have diarrhea"),
   ("便秘", "I am constipated"),
   ("头晕", "I feel dizzy"),
   ("头昏", "I feel dizzy"),
   ("疲倦", "I feel tired"),
   ("乏力", "I feel weak"),
   ("失眠", "I have insomnia"),
   ("心慌", "Heart palpitations"),
   ("气短", "Shortness of breath"),
   ("过敏", "I am allergic"),
   ("皮疹", "I have a rash"),
   ("发痒", "It\x27s itchy"),
   ("红肿", "Red and swollen"),
   ("肿胀", "Swelling"),
   ("很疼", "It hurts a lot"),
   ("剧痛", "Severe pain"),
   ("隐痛", "Dull pain"),
   ("刺痛", "Sharp pain"),
   ("闷痛", "Dull pain"),
   ("胀痛", "Bloating pain"),
   ("酸痛", "Aching pain"),
   ("麻木", "Numbness"),
   ("发麻", "Tingling"),
   ("僵硬", "Stiffness"),
   ("发紧", "Tightness"),
   ("昨天", "Yesterday"),
   ("今天", "Today"),
   ("上周", "Last week"),
   ("一周", "One week"),
   ("两周", "Two weeks"),
   ("三天", "Three days"),
   ("五天", "Five days"),
   ("十天", "Ten days"),
   ("遗传", "Hereditary"),
   ("哮喘", "Asthma"),
   ("怀孕", "Pregnant"),
   ("月经", "Menstruation"),
   ("吃药", "Taking medication"),
   ("手术", "Surgery"),
   ("住院", "Hospitalized"),
   ("体检", "Physical examination"),
   ("检查", "Examination"),
   ("化验", "Lab test"),
   ("拍片", "X-ray"),
   ("CT", "CT scan"),
   ("B超", "Ultrasound"),
   ("谢谢", "Thank you"),
   ("再见", "Goodbye"),
   ("是的", "Yes"),
   ("不是", "No"),
   ("頭痛", "I have a headache"),
   ("頭疼", "I have a headache"),
   ("肚痛", "My stomach hurts"),
   ("胃痛", "My stomach hurts"),
   ("腰痛", "My lower back hurts"),
   ("頸痛", "My neck hurts"),
   ("腳痛", "My leg hurts"),
   ("手痛", "My hand hurts"),
   ("眼痛", "My eyes hurt"),
   ("發燒", "I have a fever"),
   ("發熱", "I have a fever"),
   ("高燒", "I have a high fever"),
   ("低燒", "I have a low fever"),
   ("乾咳", "I have a dry cough"),
   ("想嘔", "I feel nauseous"),
   ("嘔吐", "I am vomiting"),
   ("肚瀉", "I have diarrhea"),
   ("腹瀉", "I have diarrhea"),
   ("頭暈", "I feel dizzy"),
   ("頭昏", "I feel dizzy"),
   ("好攰", "I am very tired"),
   ("冇力", "I feel weak"),
   ("氣促", "Shortness of breath"),
   ("過敏", "I am allergic"),
   ("痕癢", "It\x27s itchy"),
   ("紅腫", "Red and swollen"),
   ("腫脹", "Swelling"),
   ("好痛", "It hurts a lot"),
   ("劇痛", "Severe pain"),
   ("隱痛", "Dull pain"),
   ("悶痛", "Dull pain"),
   ("脹痛", "Bloating pain"),
   ("麻痺", "Numbness"),
   ("發麻", "Tingling"),
   ("發緊", "Tightness"),
   ("琴日", "Yesterday"),
   ("今日", "Today"),
   ("三日", "Three days"),
   ("五日", "Five days"),
   ("十日", "Ten days"),
   ("遺傳", "Hereditary"),
   ("懷孕", "Pregnant"),
   ("嚟M", "Menstruation"),
   ("食藥", "Taking medication"),
   ("手術", "Surgery"),
   ("檢查", "Examination"),
   ("化驗", "Lab test"),
   ("多謝", "Thank you"),
   ("再見", "Goodbye"),
   ("唔係", "No"),
   ("晕", "I feel dizzy"),
   ("累", "I am tired"),
   ("痒", "It\x27s itchy"),
   ("疼", "It hurts"),
   ("痛", "It hurts"),
   ("咳", "I am coughing"),
   ("暈", "I feel dizzy"),
   ("攰", "I am tired"),
   ("痕", "It\x27s itchy"),
   ("係", "Yes")
  ]


/-! Segment decomposition of the Chinese table for incremental evaluation. -/

def chineseSeg1 : List (String × String) :=
  [
   ("你好", "Hello"),
   ("我很好", "I am fine"),
   ("我不舒服", "I don\x27t feel well"),
   ("我不好", "I am not well"),
   ("我病了", "I am sick"),
   ("我感觉不好", "I don\x27t feel good"),
   ("这里疼", "It hurts here"),
   ("那里疼", "It hurts there"),
   ("头疼", "I have a headache"),
   ("头痛", "I have a headache"),
   ("偏头痛", "I have a migraine"),
   ("肚子疼", "My stomach hurts"),
   ("胃疼", "My stomach hurts"),
   ("肚子痛", "My stomach hurts"),
   ("喉咙疼", "My throat hurts"),
   ("嗓子疼", "My throat hurts"),
   ("扁桃体发炎", "My tonsils are inflamed"),
   ("背疼", "My back hurts"),
   ("腰疼", "My lower back hurts"),
   ("脖子疼", "My neck hurts"),
   ("肩膀疼", "My shoulder hurts"),
   ("胸疼", "My chest hurts"),
   ("胸口疼", "My chest hurts"),
   ("心脏疼", "My heart hurts"),
   ("膝盖疼", "My knee hurts"),
   ("腿疼", "My leg hurts"),
   ("脚疼", "My foot hurts"),
   ("手疼", "My hand hurts"),
   ("胳膊疼", "My arm hurts"),
   ("眼睛疼", "My eyes hurt"),
   ("耳朵疼", "My ear hurts"),
   ("牙疼", "I have a toothache"),
   ("牙痛", "I have a toothache"),
   ("发烧", "I have a fever"),
   ("发热", "I have a fever"),
   ("高烧", "I have a high fever"),
   ("低烧", "I have a low fever"),
   ("咳嗽", "I am coughing"),
   ("干咳", "I have a dry cough"),
   ("咳痰", "I am coughing up phlegm")
  ]

def chineseSeg2 : List (String × String) :=
  [
   ("流鼻涕", "I have a runny nose"),
   ("鼻塞", "My nose is blocked"),
   ("打喷嚏", "I am sneezing"),
   ("感冒", "I have a cold"),
   ("感冒了", "I have a cold"),
   ("流感", "I have the flu"),
   ("恶心", "I feel nauseous"),
   ("想吐", "I feel like vomiting"),
   ("呕吐", "I am vomiting"),
   ("拉肚子", "I have diarrhea"),
   ("腹泻", "I have diarrhea"),
   ("便秘", "I am constipated"),
   ("头晕", "I feel dizzy"),
   ("头昏", "I feel dizzy"),
   ("晕", "I feel dizzy"),
   ("疲倦", "I feel tired"),
   ("累", "I am tired"),
   ("乏力", "I feel weak"),
   ("没力气", "I have no energy"),
   ("失眠", "I have insomnia"),
   ("睡不着", "Can\x27t sleep"),
   ("睡不好", "Can\x27t sleep well"),
   ("食欲不振", "Loss of appetite"),
   ("吃不下", "Can\x27t eat"),
   ("没胃口", "No appetite"),
   ("心跳快", "Fast heartbeat"),
   ("心慌", "Heart palpitations"),
   ("气短", "Shortness of breath"),
   ("呼吸困难", "Difficulty breathing"),
   ("过敏", "I am allergic"),
   ("过敏反应", "Allergic reaction"),
   ("皮疹", "I have a rash"),
   ("发痒", "It\x27s itchy"),
   ("痒", "It\x27s itchy"),
   ("红肿", "Red and swollen"),
   ("肿胀", "Swelling"),
   ("疼", "It hurts"),
   ("痛", "It\x27s painful"),
   ("很疼", "It hurts a lot"),
   ("非常疼", "It hurts very much")
  ]

def chineseSeg3 : List (String × String) :=
  [
   ("剧痛", "Severe pain"),
   ("隐痛", "Dull pain"),
   ("有点疼", "It hurts a little"),
   ("一直疼", "It hurts all the time"),
   ("有时候疼", "It hurts sometimes"),
   ("刺痛", "Sharp pain"),
   ("针扎一样疼", "Like needle pricks"),
   ("闷痛", "Dull pain"),
   ("胀痛", "Bloating pain"),
   ("酸痛", "Aching pain"),
   ("隐隐作痛", "Dull aching"),
   ("一阵一阵的疼", "Comes and goes"),
   ("越来越疼", "Getting worse"),
   ("没那么疼了", "Not as painful now"),
   ("疼得厉害", "Very painful"),
   ("火辣辣的疼", "Burning pain"),
   ("麻木", "Numbness"),
   ("发麻", "Tingling"),
   ("僵硬", "Stiffness"),
   ("发紧", "Tightness"),
   ("很疼", "It hurts a lot"),
   ("有点疼", "It hurts a little"),
   ("一直疼", "It hurts all the time"),
   ("有时候疼", "It hurts sometimes"),
   ("刺痛", "Sharp pain"),
   ("闷痛", "Dull pain"),
   ("胀痛", "Bloating pain"),
   ("酸痛", "Aching pain"),
   ("隐隐作痛", "Dull aching"),
   ("一阵一阵的疼", "Comes and goes"),
   ("越来越疼", "Getting worse"),
   ("没那么疼了", "Not as painful now"),
   ("睡不着", "Can\x27t sleep"),
   ("吃不下", "Can\x27t eat"),
   ("没胃口", "No appetite"),
   ("从昨天开始", "Since yesterday"),
   ("从今天早上开始", "Since this morning"),
   ("两天了", "For two days"),
   ("一个星期了", "For a week"),
   ("一个月了", "For a month")
  ]

def chineseSeg4 : List (String × String) :=
  [
   ("大概一个月", "About a month"),
   ("大概一個月", "About a month"),
   ("几天了", "For a few days"),
   ("很久了", "For a long time"),
   ("刚开始", "Just started"),
   ("昨天", "Yesterday"),
   ("今天", "Today"),
   ("上周", "Last week"),
   ("上个月", "Last month"),
   ("一周", "One week"),
   ("两周", "Two weeks"),
   ("三天", "Three days"),
   ("五天", "Five days"),
   ("十天", "Ten days"),
   ("半个月", "Half a month"),
   ("两个月", "Two months"),
   ("很多年了", "For many years"),
   ("以前有过", "I had it before"),
   ("第一次", "First time"),
   ("家族史", "Family history"),
   ("遗传", "Hereditary"),
   ("高血压", "High blood pressure"),
   ("糖尿病", "Diabetes"),
   ("心脏病", "Heart disease"),
   ("哮喘", "Asthma"),
   ("过敏史", "Allergy history"),
   ("药物过敏", "Drug allergy"),
   ("食物过敏", "Food allergy"),
   ("怀孕", "Pregnant"),
   ("怀孕了", "I am pregnant"),
   ("月经", "Menstruation"),
   ("生理期", "Menstrual period"),
   ("吃药", "Taking medication"),
   ("正在吃药", "Currently taking medication"),
   ("没吃药", "Not taking medication"),
   ("按时吃药", "Taking medication on time"),
   ("忘记吃药", "Forgot to take medication"),
   ("手术", "Surgery"),
   ("做过手术", "Had surgery"),
   ("住院", "Hospitalized")
  ]

def chineseSeg5 : List (String × String) :=
  [
   ("住过院", "Was hospitalized"),
   ("体检", "Physical examination"),
   ("检查", "Examination"),
   ("化验", "Lab test"),
   ("拍片", "X-ray"),
   ("CT", "CT scan"),
   ("B超", "Ultrasound"),
   ("谢谢", "Thank you"),
   ("再见", "Goodbye"),
   ("是的", "Yes"),
   ("不是", "No"),
   ("我不知道", "I don\x27t know"),
   ("我好好", "I am fine"),
   ("我唔舒服", "I don\x27t feel well"),
   ("我唔好", "I am not well"),
   ("我病咗", "I am sick"),
   ("我感覺唔好", "I don\x27t feel good"),
   ("呢度痛", "It hurts here"),
   ("嗰度痛", "It hurts there"),
   ("頭痛", "I have a headache"),
   ("頭疼", "I have a headache"),
   ("偏頭痛", "I have a migraine"),
   ("肚痛", "My stomach hurts"),
   ("胃痛", "My stomach hurts"),
   ("肚仔痛", "My stomach hurts"),
   ("喉嚨痛", "My throat hurts"),
   ("扁桃腺發炎", "My tonsils are inflamed"),
   ("背脊痛", "My back hurts"),
   ("腰痛", "My lower back hurts"),
   ("頸痛", "My neck hurts"),
   ("膊頭痛", "My shoulder hurts"),
   ("胸口痛", "My chest hurts"),
   ("心口痛", "My chest hurts"),
   ("心臟痛", "My heart hurts"),
   ("膝頭痛", "My knee hurts"),
   ("腳痛", "My leg hurts"),
   ("腳板痛", "My foot hurts"),
   ("手痛", "My hand hurts"),
   ("手臂痛", "My arm hurts"),
   ("眼痛", "My eyes hurt")
  ]

def chineseSeg6 : List (String × String) :=
  [
   ("耳仔痛", "My ear hurts"),
   ("牙痛", "I have a toothache"),
   ("牙齒痛", "I have a toothache"),
   ("發燒", "I have a fever"),
   ("發熱", "I have a fever"),
   ("高燒", "I have a high fever"),
   ("低燒", "I have a low fever"),
   ("咳", "I am coughing"),
   ("咳嗽", "I am coughing"),
   ("乾咳", "I have a dry cough"),
   ("咳痰", "I am coughing up phlegm"),
   ("流鼻水", "I have a runny nose"),
   ("鼻塞", "My nose is blocked"),
   ("打乞嗤", "I am sneezing"),
   ("感冒", "I have a cold"),
   ("感冒咗", "I have a cold"),
   ("流感", "I have the flu"),
   ("想嘔", "I feel nauseous"),
   ("想吐", "I feel like vomiting"),
   ("嘔吐", "I am vomiting"),
   ("肚瀉", "I have diarrhea"),
   ("腹瀉", "I have diarrhea"),
   ("便秘", "I am constipated"),
   ("頭暈", "I feel dizzy"),
   ("頭昏", "I feel dizzy"),
   ("暈", "I feel dizzy"),
   ("攰", "I am tired"),
   ("好攰", "I am very tired"),
   ("冇力", "I feel weak"),
   ("冇氣力", "I have no energy"),
   ("失眠", "I have insomnia"),
   ("瞓唔著", "Can\x27t sleep"),
   ("瞓唔好", "Can\x27t sleep well"),
   ("冇胃口", "Loss of appetite"),
   ("食唔落", "Can\x27t eat"),
   ("冇食慾", "No appetite"),
   ("心跳快", "Fast heartbeat"),
   ("心慌", "Heart palpitations"),
   ("氣促", "Shortness of breath"),
   ("呼吸困難", "Difficulty breathing")
  ]

def chineseSeg7 : List (String × String) :=
  [
   ("過敏", "I am allergic"),
   ("過敏反應", "Allergic reaction"),
   ("皮疹", "I have a rash"),
   ("痕癢", "It\x27s itchy"),
   ("痕", "It\x27s itchy"),
   ("紅腫", "Red and swollen"),
   ("腫脹", "Swelling"),
   ("痛", "It hurts"),
   ("好痛", "It hurts a lot"),
   ("非常痛", "It hurts very much"),
   ("劇痛", "Severe pain"),
   ("隱痛", "Dull pain"),
   ("有啲痛", "It hurts a little"),
   ("一直痛", "It hurts all the time"),
   ("有時痛", "It hurts sometimes"),
   ("刺痛", "Sharp pain"),
   ("好似針拮咁痛", "Like needle pricks"),
   ("悶痛", "Dull pain"),
   ("脹痛", "Bloating pain"),
   ("酸痛", "Aching pain"),
   ("隱隱作痛", "Dull aching"),
   ("一陣一陣咁痛", "Comes and goes"),
   ("越嚟越痛", "Getting worse"),
   ("冇咁痛喇", "Not as painful now"),
   ("痛到好犀利", "Very painful"),
   ("火辣辣咁痛", "Burning pain"),
   ("麻痺", "Numbness"),
   ("發麻", "Tingling"),
   ("僵硬", "Stiffness"),
   ("發緊", "Tightness"),
   ("好痛", "It hurts a lot"),
   ("有啲痛", "It hurts a little"),
   ("一直痛", "It hurts all the time"),
   ("有時痛", "It hurts sometimes"),
   ("刺痛", "Sharp pain"),
   ("悶痛", "Dull pain"),
   ("脹痛", "Bloating pain"),
   ("酸痛", "Aching pain"),
   ("隱隱作痛", "Dull aching"),
   ("一陣一陣咁痛", "Comes and goes")
  ]

def chineseSeg8 : List (String × String) :=
  [
   ("越嚟越痛", "Getting worse"),
   ("冇咁痛喇", "Not as painful now"),
   ("瞓唔著", "Can\x27t sleep"),
   ("食唔落", "Can\x27t eat"),
   ("冇胃口", "No appetite"),
   ("從琴日開始", "Since yesterday"),
   ("從今朝開始", "Since this morning"),
   ("兩日喇", "For two days"),
   ("一個禮拜喇", "For a week"),
   ("一個月喇", "For a month"),
   ("大概一個月", "About a month"),
   ("幾日喇", "For a few days"),
   ("好耐喇", "For a long time"),
   ("啱啱開始", "Just started"),
   ("琴日", "Yesterday"),
   ("今日", "Today"),
   ("上星期", "Last week"),
   ("上個月", "Last month"),
   ("一星期", "One week"),
   ("兩星期", "Two weeks"),
   ("三日", "Three days"),
   ("五日", "Five days"),
   ("十日", "Ten days"),
   ("半個月", "Half a month"),
   ("兩個月", "Two months"),
   ("好多年喇", "For many years"),
   ("以前有過", "I had it before"),
   ("第一次", "First time"),
   ("家族史", "Family history"),
   ("遺傳", "Hereditary"),
   ("高血壓", "High blood pressure"),
   ("糖尿病", "Diabetes"),
   ("心臟病", "Heart disease"),
   ("哮喘", "Asthma"),
   ("過敏史", "Allergy history"),
   ("藥物過敏", "Drug allergy"),
   ("食物過敏", "Food allergy"),
   ("懷孕", "Pregnant"),
   ("懷孕咗", "I am pregnant"),
   ("嚟M", "Menstruation")
  ]

def chineseSeg9 : List (String × String) :=
  [
   ("生理期", "Menstrual period"),
   ("食藥", "Taking medication"),
   ("而家食緊藥", "Currently taking medication"),
   ("冇食藥", "Not taking medication"),
   ("準時食藥", "Taking medication on time"),
   ("唔記得食藥", "Forgot to take medication"),
   ("手術", "Surgery"),
   ("做過手術", "Had surgery"),
   ("住院", "Hospitalized"),
   ("住過院", "Was hospitalized"),
   ("身體檢查", "Physical examination"),
   ("檢查", "Examination"),
   ("化驗", "Lab test"),
   ("照X光", "X-ray"),
   ("CT", "CT scan"),
   ("B超", "Ultrasound"),
   ("多謝", "Thank you"),
   ("再見", "Goodbye"),
   ("係", "Yes"),
   ("唔係", "No"),
   ("我唔知", "I don\x27t know"),
   ("唔舒服", "Not feeling well"),
   ("好辛苦", "Very uncomfortable"),
   ("儿歌喉痛", "My throat hurts")
  ]

def chineseObjAcc1 : List (String × String) :=
  [
   ("你好", "Hello"),
   ("我很好", "I am fine"),
   ("我不舒服", "I don\x27t feel well"),
   ("我不好", "I am not well"),
   ("我病了", "I am sick"),
   ("我感觉不好", "I don\x27t feel good"),
   ("这里疼", "It hurts here"),
   ("那里疼", "It hurts there"),
   ("头疼", "I have a headache"),
   ("头痛", "I have a headache"),
   ("偏头痛", "I have a migraine"),
   ("肚子疼", "My stomach hurts"),
   ("胃疼", "My stomach hurts"),
   ("肚子痛", "My stomach hurts"),
   ("喉咙疼", "My throat hurts"),
   ("嗓子疼", "My throat hurts"),
   ("扁桃体发炎", "My tonsils are inflamed"),
   ("背疼", "My back hurts"),
   ("腰疼", "My lower back hurts"),
   ("脖子疼", "My neck hurts"),
   ("肩膀疼", "My shoulder hurts"),
   ("胸疼", "My chest hurts"),
   ("胸口疼", "My chest hurts"),
   ("心脏疼", "My heart hurts"),
   ("膝盖疼", "My knee hurts"),
   ("腿疼", "My leg hurts"),
   ("脚疼", "My foot hurts"),
   ("手疼", "My hand hurts"),
   ("胳膊疼", "My arm hurts"),
   ("眼睛疼", "My eyes hurt"),
   ("耳朵疼", "My ear hurts"),
   ("牙疼", "I have a toothache"),
   ("牙痛", "I have a toothache"),
   ("发烧", "I have a fever"),
   ("发热", "I have a fever"),
   ("高烧", "I have a high fever"),
   ("低烧", "I have a low fever"),
   ("咳嗽", "I am coughing"),
   ("干咳", "I have a dry cough"),
   ("咳痰", "I am coughing up phlegm")
  ]

def chineseObjAcc2 : List (String × String) :=
  [
   ("你好", "Hello"),
   ("我很好", "I am fine"),
   ("我不舒服", "I don\x27t feel well"),
   ("我不好", "I am not well"),
   ("我病了", "I am sick"),
   ("我感觉不好", "I don\x27t feel good"),
   ("这里疼", "It hurts here"),
   ("那里疼", "It hurts there"),
   ("头疼", "I have a headache"),
   ("头痛", "I have a headache"),
   ("偏头痛", "I have a migraine"),
   ("肚子疼", "My stomach hurts"),
   ("胃疼", "My stomach hurts"),
   ("肚子痛", "My stomach hurts"),
   ("喉咙疼", "My throat hurts"),
   ("嗓子疼", "My throat hurts"),
   ("扁桃体发炎", "My tonsils are inflamed"),
   ("背疼", "My back hurts"),
   ("腰疼", "My lower back hurts"),
   ("脖子疼", "My neck hurts"),
   ("肩膀疼", "My shoulder hurts"),
   ("胸疼", "My chest hurts"),
   ("胸口疼", "My chest hurts"),
   ("心脏疼", "My heart hurts"),
   ("膝盖疼", "My knee hurts"),
   ("腿疼", "My leg hurts"),
   ("脚疼", "My foot hurts"),
   ("手疼", "My hand hurts"),
   ("胳膊疼", "My arm hurts"),
   ("眼睛疼", "My eyes hurt"),
   ("耳朵疼", "My ear hurts"),
   ("牙疼", "I have a toothache"),
   ("牙痛", "I have a toothache"),
   ("发烧", "I have a fever"),
   ("发热", "I have a fever"),
   ("高烧", "I have a high fever"),
   ("低烧", "I have a low fever"),
   ("咳嗽", "I am coughing"),
   ("干咳", "I have a dry cough"),
   ("咳痰", "I am coughing up phlegm"),
   ("流鼻涕", "I have a runny nose"),
   ("鼻塞", "My nose is blocked"),
   ("打喷嚏", "I am sneezing"),
   ("感冒", "I have a cold"),
   ("感冒了", "I have a cold"),
   ("流感", "I have the flu"),
   ("恶心", "I feel nauseous"),
   ("想吐", "I feel like vomiting"),
   ("呕吐", "I am vomiting"),
   ("拉肚子", "I have diarrhea"),
   ("腹泻", "I have diarrhea"),
   ("便秘", "I am constipated"),
   ("头晕", "I feel dizzy"),
   ("头昏", "I feel dizzy"),
   ("晕", "I feel dizzy"),
   ("疲倦", "I feel tired"),
   ("累", "I am tired"),
   ("乏力", "I feel weak"),
   ("没力气", "I have no energy"),
   ("失眠", "I have insomnia"),
   ("睡不着", "Can\x27t sleep"),
   ("睡不好", "Can\x27t sleep well"),
   ("食欲不振", "Loss of appetite"),
   ("吃不下", "Can\x27t eat"),
   ("没胃口", "No appetite"),
   ("心跳快", "Fast heartbeat"),
   ("心慌", "Heart palpitations"),
   ("气短", "Shortness of breath"),
   ("呼吸困难", "Difficulty breathing"),
   ("过敏", "I am allergic"),
   ("过敏反应", "Allergic reaction"),
   ("皮疹", "I have a rash"),
   ("发痒", "It\x27s itchy"),
   ("痒", "It\x27s itchy"),
   ("红肿", "Red and swollen"),
   ("肿胀", "Swelling"),
   ("疼", "It hurts"),
   ("痛", "It\x27s painful"),
   ("很疼", "It hurts a lot"),
   ("非常疼", "It hurts very much")
  ]

def chineseObjAcc3 : List (String × String) :=
  [
   ("你好", "Hello"),
   ("我很好", "I am fine"),
   ("我不舒服", "I don\x27t feel well"),
   ("我不好", "I am not well"),
   ("我病了", "I am sick"),
   ("我感觉不好", "I don\x27t feel good"),
   ("这里疼", "It hurts here"),
   ("那里疼", "It hurts there"),
   ("头疼", "I have a headache"),
   ("头痛", "I have a headache"),
   ("偏头痛", "I have a migraine"),
   ("肚子疼", "My stomach hurts"),
   ("胃疼", "My stomach hurts"),
   ("肚子痛", "My stomach hurts"),
   ("喉咙疼", "My throat hurts"),
   ("嗓子疼", "My throat hurts"),
   ("扁桃体发炎", "My tonsils are inflamed"),
   ("背疼", "My back hurts"),
   ("腰疼", "My lower back hurts"),
   ("脖子疼", "My neck hurts"),
   ("肩膀疼", "My shoulder hurts"),
   ("胸疼", "My chest hurts"),
   ("胸口疼", "My chest hurts"),
   ("心脏疼", "My heart hurts"),
   ("膝盖疼", "My knee hurts"),
   ("腿疼", "My leg hurts"),
   ("脚疼", "My foot hurts"),
   ("手疼", "My hand hurts"),
   ("胳膊疼", "My arm hurts"),
   ("眼睛疼", "My eyes hurt"),
   ("耳朵疼", "My ear hurts"),
   ("牙疼", "I have a toothache"),
   ("牙痛", "I have a toothache"),
   ("发烧", "I have a fever"),
   ("发热", "I have a fever"),
   ("高烧", "I have a high fever"),
   ("低烧", "I have a low fever"),
   ("咳嗽", "I am coughing"),
   ("干咳", "I have a dry cough"),
   ("咳痰", "I am coughing up phlegm"),
   ("流鼻涕", "I have a runny nose"),
   ("鼻塞", "My nose is blocked"),
   ("打喷嚏", "I am sneezing"),
   ("感冒", "I have a cold"),
   ("感冒了", "I have a cold"),
   ("流感", "I have the flu"),
   ("恶心", "I feel nauseous"),
   ("想吐", "I feel like vomiting"),
   ("呕吐", "I am vomiting"),
   ("拉肚子", "I have diarrhea"),
   ("腹泻", "I have diarrhea"),
   ("便秘", "I am constipated"),
   ("头晕", "I feel dizzy"),
   ("头昏", "I feel dizzy"),
   ("晕", "I feel dizzy"),
   ("疲倦", "I feel tired"),
   ("累", "I am tired"),
   ("乏力", "I feel weak"),
   ("没力气", "I have no energy"),
   ("失眠", "I have insomnia"),
   ("睡不着", "Can\x27t sleep"),
   ("睡不好", "Can\x27t sleep well"),
   ("食欲不振", "Loss of appetite"),
   ("吃不下", "Can\x27t eat"),
   ("没胃口", "No appetite"),
   ("心跳快", "Fast heartbeat"),
   ("心慌", "Heart palpitations"),
   ("气短", "Shortness of breath"),
   ("呼吸困难", "Difficulty breathing"),
   ("过敏", "I am allergic"),
   ("过敏反应", "Allergic reaction"),
   ("皮疹", "I have a rash"),
   ("发痒", "It\x27s itchy"),
   ("痒", "It\x27s itchy"),
   ("红肿", "Red and swollen"),
   ("肿胀", "Swelling"),
   ("疼", "It hurts"),
   ("痛", "It\x27s painful"),
   ("很疼", "It hurts a lot"),
   ("非常疼", "It hurts very much"),
   ("剧痛", "Severe pain"),
   ("隐痛", "Dull pain"),
   ("有点疼", "It hurts a little"),
   ("一直疼", "It hurts all the time"),
   ("有时候疼", "It hurts sometimes"),
   ("刺痛", "Sharp pain"),
   ("针扎一样疼", "Like needle pricks"),
   ("闷痛", "Dull pain"),
   ("胀痛", "Bloating pain"),
   ("酸痛", "Aching pain"),
   ("隐隐作痛", "Dull aching"),
   ("一阵一阵的疼", "Comes and goes"),
   ("越来越疼", "Getting worse"),
   ("没那么疼了", "Not as painful now"),
   ("疼得厉害", "Very painful"),
   ("火辣辣的疼", "Burning pain"),
   ("麻木", "Numbness"),
   ("发麻", "Tingling"),
   ("僵硬", "Stiffness"),
   ("发紧", "Tightness"),
   ("从昨天开始", "Since yesterday"),
   ("从今天早上开始", "Since this morning"),
   ("两天了", "For two days"),
   ("一个星期了", "For a week"),
   ("一个月了", "For a month")
  ]

def chineseObjAcc4 : List (String × String) :=
  [
   ("你好", "Hello"),
   ("我很好", "I am fine"),
   ("我不舒服", "I don\x27t feel well"),
   ("我不好", "I am not well"),
   ("我病了", "I am sick"),
   ("我感觉不好", "I don\x27t feel good"),
   ("这里疼", "It hurts here"),
   ("那里疼", "It hurts there"),
   ("头疼", "I have a headache"),
   ("头痛", "I have a headache"),
   ("偏头痛", "I have a migraine"),
   ("肚子疼", "My stomach hurts"),
   ("胃疼", "My stomach hurts"),
   ("肚子痛", "My stomach hurts"),
   ("喉咙疼", "My throat hurts"),
   ("嗓子疼", "My throat hurts"),
   ("扁桃体发炎", "My tonsils are inflamed"),
   ("背疼", "My back hurts"),
   ("腰疼", "My lower back hurts"),
   ("脖子疼", "My neck hurts"),
   ("肩膀疼", "My shoulder hurts"),
   ("胸疼", "My chest hurts"),
   ("胸口疼", "My chest hurts"),
   ("心脏疼", "My heart hurts"),
   ("膝盖疼", "My knee hurts"),
   ("腿疼", "My leg hurts"),
   ("脚疼", "My foot hurts"),
   ("手疼", "My hand hurts"),
   ("胳膊疼", "My arm hurts"),
   ("眼睛疼", "My eyes hurt"),
   ("耳朵疼", "My ear hurts"),
   ("牙疼", "I have a toothache"),
   ("牙痛", "I have a toothache"),
   ("发烧", "I have a fever"),
   ("发热", "I have a fever"),
   ("高烧", "I have a high fever"),
   ("低烧", "I have a low fever"),
   ("咳嗽", "I am coughing"),
   ("干咳", "I have a dry cough"),
   ("咳痰", "I am coughing up phlegm"),
   ("流鼻涕", "I have a runny nose"),
   ("鼻塞", "My nose is blocked"),
   ("打喷嚏", "I am sneezing"),
   ("感冒", "I have a cold"),
   ("感冒了", "I have a cold"),
   ("流感", "I have the flu"),
   ("恶心", "I feel nauseous"),
   ("想吐", "I feel like vomiting"),
   ("呕吐", "I am vomiting"),
   ("拉肚子", "I have diarrhea"),
   ("腹泻", "I have diarrhea"),
   ("便秘", "I am constipated"),
   ("头晕", "I feel dizzy"),
   ("头昏", "I feel dizzy"),
   ("晕", "I feel dizzy"),
   ("疲倦", "I feel tired"),
   ("累", "I am tired"),
   ("乏力", "I feel weak"),
   ("没力气", "I have no energy"),
   ("失眠", "I have insomnia"),
   ("睡不着", "Can\x27t sleep"),
   ("睡不好", "Can\x27t sleep well"),
   ("食欲不振", "Loss of appetite"),
   ("吃不下", "Can\x27t eat"),
   ("没胃口", "No appetite"),
   ("心跳快", "Fast heartbeat"),
   ("心慌", "Heart palpitations"),
   ("气短", "Shortness of breath"),
   ("呼吸困难", "Difficulty breathing"),
   ("过敏", "I am allergic"),
   ("过敏反应", "Allergic reaction"),
   ("皮疹", "I have a rash"),
   ("发痒", "It\x27s itchy"),
   ("痒", "It\x27s itchy"),
   ("红肿", "Red and swollen"),
   ("肿胀", "Swelling"),
   ("疼", "It hurts"),
   ("痛", "It\x27s painful"),
   ("很疼", "It hurts a lot"),
   ("非常疼", "It hurts very much"),
   ("剧痛", "Severe pain"),
   ("隐痛", "Dull pain"),
   ("有点疼", "It hurts a little"),
   ("一直疼", "It hurts all the time"),
   ("有时候疼", "It hurts sometimes"),
   ("刺痛", "Sharp pain"),
   ("针扎一样疼", "Like needle pricks"),
   ("闷痛", "Dull pain"),
   ("胀痛", "Bloating pain"),
   ("酸痛", "Aching pain"),
   ("隐隐作痛", "Dull aching"),
   ("一阵一阵的疼", "Comes and goes"),
   ("越来越疼", "Getting worse"),
   ("没那么疼了", "Not as painful now"),
   ("疼得厉害", "Very painful"),
   ("火辣辣的疼", "Burning pain"),
   ("麻木", "Numbness"),
   ("发麻", "Tingling"),
   ("僵硬", "Stiffness"),
   ("发紧", "Tightness"),
   ("从昨天开始", "Since yesterday"),
   ("从今天早上开始", "Since this morning"),
   ("两天了", "For two days"),
   ("一个星期了", "For a week"),
   ("一个月了", "For a month"),
   ("大概一个月", "About a month"),
   ("大概一個月", "About a month"),
   ("几天了", "For a few days"),
   ("很久了", "For a long time"),
   ("刚开始", "Just started"),
   ("昨天", "Yesterday"),
   ("今天", "Today"),
   ("上周", "Last week"),
   ("上个月", "Last month"),
   ("一周", "One week"),
   ("两周", "Two weeks"),
   ("三天", "Three days"),
   ("五天", "Five days"),
   ("十天", "Ten days"),
   ("半个月", "Half a month"),
   ("两个月", "Two months"),
   ("很多年了", "For many years"),
   ("以前有过", "I had it before"),
   ("第一次", "First time"),
   ("家族史", "Family history"),
   ("遗传", "Hereditary"),
   ("高血压", "High blood pressure"),
   ("糖尿病", "Diabetes"),
   ("心脏病", "Heart disease"),
   ("哮喘", "Asthma"),
   ("过敏史", "Allergy history"),
   ("药物过敏", "Drug allergy"),
   ("食物过敏", "Food allergy"),
   ("怀孕", "Pregnant"),
   ("怀孕了", "I am pregnant"),
   ("月经", "Menstruation"),
   ("生理期", "Menstrual period"),
   ("吃药", "Taking medication"),
   ("正在吃药", "Currently taking medication"),
   ("没吃药", "Not taking medication"),
   ("按时吃药", "Taking medication on time"),
   ("忘记吃药", "Forgot to take medication"),
   ("手术", "Surgery"),
   ("做过手术", "Had surgery"),
   ("住院", "Hospitalized")
  ]

def chineseObjAcc5 : List (String × String) :=
  [
   ("你好", "Hello"),
   ("我很好", "I am fine"),
   ("我不舒服", "I don\x27t feel well"),
   ("我不好", "I am not well"),
   ("我病了", "I am sick"),
   ("我感觉不好", "I don\x27t feel good"),
   ("这里疼", "It hurts here"),
   ("那里疼", "It hurts there"),
   ("头疼", "I have a headache"),
   ("头痛", "I have a headache"),
   ("偏头痛", "I have a migraine"),
   ("肚子疼", "My stomach hurts"),
   ("胃疼", "My stomach hurts"),
   ("肚子痛", "My stomach hurts"),
   ("喉咙疼", "My throat hurts"),
   ("嗓子疼", "My throat hurts"),
   ("扁桃体发炎", "My tonsils are inflamed"),
   ("背疼", "My back hurts"),
   ("腰疼", "My lower back hurts"),
   ("脖子疼", "My neck hurts"),
   ("肩膀疼", "My shoulder hurts"),
   ("胸疼", "My chest hurts"),
   ("胸口疼", "My chest hurts"),
   ("心脏疼", "My heart hurts"),
   ("膝盖疼", "My knee hurts"),
   ("腿疼", "My leg hurts"),
   ("脚疼", "My foot hurts"),
   ("手疼", "My hand hurts"),
   ("胳膊疼", "My arm hurts"),
   ("眼睛疼", "My eyes hurt"),
   ("耳朵疼", "My ear hurts"),
   ("牙疼", "I have a toothache"),
   ("牙痛", "I have a toothache"),
   ("发烧", "I have a fever"),
   ("发热", "I have a fever"),
   ("高烧", "I have a high fever"),
   ("低烧", "I have a low fever"),
   ("咳嗽", "I am coughing"),
   ("干咳", "I have a dry cough"),
   ("咳痰", "I am coughing up phlegm"),
   ("流鼻涕", "I have a runny nose"),
   ("鼻塞", "My nose is blocked"),
   ("打喷嚏", "I am sneezing"),
   ("感冒", "I have a cold"),
   ("感冒了", "I have a cold"),
   ("流感", "I have the flu"),
   ("恶心", "I feel nauseous"),
   ("想吐", "I feel like vomiting"),
   ("呕吐", "I am vomiting"),
   ("拉肚子", "I have diarrhea"),
   ("腹泻", "I have diarrhea"),
   ("便秘", "I am constipated"),
   ("头晕", "I feel dizzy"),
   ("头昏", "I feel dizzy"),
   ("晕", "I feel dizzy"),
   ("疲倦", "I feel tired"),
   ("累", "I am tired"),
   ("乏力", "I feel weak"),
   ("没力气", "I have no energy"),
   ("失眠", "I have insomnia"),
   ("睡不着", "Can\x27t sleep"),
   ("睡不好", "Can\x27t sleep well"),
   ("食欲不振", "Loss of appetite"),
   ("吃不下", "Can\x27t eat"),
   ("没胃口", "No appetite"),
   ("心跳快", "Fast heartbeat"),
   ("心慌", "Heart palpitations"),
   ("气短", "Shortness of breath"),
   ("呼吸困难", "Difficulty breathing"),
   ("过敏", "I am allergic"),
   ("过敏反应", "Allergic reaction"),
   ("皮疹", "I have a rash"),
   ("发痒", "It\x27s itchy"),
   ("痒", "It\x27s itchy"),
   ("红肿", "Red and swollen"),
   ("肿胀", "Swelling"),
   ("疼", "It hurts"),
   ("痛", "It\x27s painful"),
   ("很疼", "It hurts a lot"),
   ("非常疼", "It hurts very much"),
   ("剧痛", "Severe pain"),
   ("隐痛", "Dull pain"),
   ("有点疼", "It hurts a little"),
   ("一直疼", "It hurts all the time"),
   ("有时候疼", "It hurts sometimes"),
   ("刺痛", "Sharp pain"),
   ("针扎一样疼", "Like needle pricks"),
   ("闷痛", "Dull pain"),
   ("胀痛", "Bloating pain"),
   ("酸痛", "Aching pain"),
   ("隐隐作痛", "Dull aching"),
   ("一阵一阵的疼", "Comes and goes"),
   ("越来越疼", "Getting worse"),
   ("没那么疼了", "Not as painful now"),
   ("疼得厉害", "Very painful"),
   ("火辣辣的疼", "Burning pain"),
   ("麻木", "Numbness"),
   ("发麻", "Tingling"),
   ("僵硬", "Stiffness"),
   ("发紧", "Tightness"),
   ("从昨天开始", "Since yesterday"),
   ("从今天早上开始", "Since this morning"),
   ("两天了", "For two days"),
   ("一个星期了", "For a week"),
   ("一个月了", "For a month"),
   ("大概一个月", "About a month"),
   ("大概一個月", "About a month"),
   ("几天了", "For a few days"),
   ("很久了", "For a long time"),
   ("刚开始", "Just started"),
   ("昨天", "Yesterday"),
   ("今天", "Today"),
   ("上周", "Last week"),
   ("上个月", "Last month"),
   ("一周", "One week"),
   ("两周", "Two weeks"),
   ("三天", "Three days"),
   ("五天", "Five days"),
   ("十天", "Ten days"),
   ("半个月", "Half a month"),
   ("两个月", "Two months"),
   ("很多年了", "For many years"),
   ("以前有过", "I had it before"),
   ("第一次", "First time"),
   ("家族史", "Family history"),
   ("遗传", "Hereditary"),
   ("高血压", "High blood pressure"),
   ("糖尿病", "Diabetes"),
   ("心脏病", "Heart disease"),
   ("哮喘", "Asthma"),
   ("过敏史", "Allergy history"),
   ("药物过敏", "Drug allergy"),
   ("食物过敏", "Food allergy"),
   ("怀孕", "Pregnant"),
   ("怀孕了", "I am pregnant"),
   ("月经", "Menstruation"),
   ("生理期", "Menstrual period"),
   ("吃药", "Taking medication"),
   ("正在吃药", "Currently taking medication"),
   ("没吃药", "Not taking medication"),
   ("按时吃药", "Taking medication on time"),
   ("忘记吃药", "Forgot to take medication"),
   ("手术", "Surgery"),
   ("做过手术", "Had surgery"),
   ("住院", "Hospitalized"),
   ("住过院", "Was hospitalized"),
   ("体检", "Physical examination"),
   ("检查", "Examination"),
   ("化验", "Lab test"),
   ("拍片", "X-ray"),
   ("CT", "CT scan"),
   ("B超", "Ultrasound"),
   ("谢谢", "Thank you"),
   ("再见", "Goodbye"),
   ("是的", "Yes"),
   ("不是", "No"),
   ("我不知道", "I don\x27t know"),
   ("我好好", "I am fine"),
   ("我唔舒服", "I don\x27t feel well"),
   ("我唔好", "I am not well"),
   ("我病咗", "I am sick"),
   ("我感覺唔好", "I don\x27t feel good"),
   ("呢度痛", "It hurts here"),
   ("嗰度痛", "It hurts there"),
   ("頭痛", "I have a headache"),
   ("頭疼", "I have a headache"),
   ("偏頭痛", "I have a migraine"),
   ("肚痛", "My stomach hurts"),
   ("胃痛", "My stomach hurts"),
   ("肚仔痛", "My stomach hurts"),
   ("喉嚨痛", "My throat hurts"),
   ("扁桃腺發炎", "My tonsils are inflamed"),
   ("背脊痛", "My back hurts"),
   ("腰痛", "My lower back hurts"),
   ("頸痛", "My neck hurts"),
   ("膊頭痛", "My shoulder hurts"),
   ("胸口痛", "My chest hurts"),
   ("心口痛", "My chest hurts"),
   ("心臟痛", "My heart hurts"),
   ("膝頭痛", "My knee hurts"),
   ("腳痛", "My leg hurts"),
   ("腳板痛", "My foot hurts"),
   ("手痛", "My hand hurts"),
   ("手臂痛", "My arm hurts"),
   ("眼痛", "My eyes hurt")
  ]

def chineseObjAcc6 : List (String × String) :=
  [
   ("你好", "Hello"),
   ("我很好", "I am fine"),
   ("我不舒服", "I don\x27t feel well"),
   ("我不好", "I am not well"),
   ("我病了", "I am sick"),
   ("我感觉不好", "I don\x27t feel good"),
   ("这里疼", "It hurts here"),
   ("那里疼", "It hurts there"),
   ("头疼", "I have a headache"),
   ("头痛", "I have a headache"),
   ("偏头痛", "I have a migraine"),
   ("肚子疼", "My stomach hurts"),
   ("胃疼", "My stomach hurts"),
   ("肚子痛", "My stomach hurts"),
   ("喉咙疼", "My throat hurts"),
   ("嗓子疼", "My throat hurts"),
   ("扁桃体发炎", "My tonsils are inflamed"),
   ("背疼", "My back hurts"),
   ("腰疼", "My lower back hurts"),
   ("脖子疼", "My neck hurts"),
   ("肩膀疼", "My shoulder hurts"),
   ("胸疼", "My chest hurts"),
   ("胸口疼", "My chest hurts"),
   ("心脏疼", "My heart hurts"),
   ("膝盖疼", "My knee hurts"),
   ("腿疼", "My leg hurts"),
   ("脚疼", "My foot hurts"),
   ("手疼", "My hand hurts"),
   ("胳膊疼", "My arm hurts"),
   ("眼睛疼", "My eyes hurt"),
   ("耳朵疼", "My ear hurts"),
   ("牙疼", "I have a toothache"),
   ("牙痛", "I have a toothache"),
   ("发烧", "I have a fever"),
   ("发热", "I have a fever"),
   ("高烧", "I have a high fever"),
   ("低烧", "I have a low fever"),
   ("咳嗽", "I am coughing"),
   ("干咳", "I have a dry cough"),
   ("咳痰", "I am coughing up phlegm"),
   ("流鼻涕", "I have a runny nose"),
   ("鼻塞", "My nose is blocked"),
   ("打喷嚏", "I am sneezing"),
   ("感冒", "I have a cold"),
   ("感冒了", "I have a cold"),
   ("流感", "I have the flu"),
   ("恶心", "I feel nauseous"),
   ("想吐", "I feel like vomiting"),
   ("呕吐", "I am vomiting"),
   ("拉肚子", "I have diarrhea"),
   ("腹泻", "I have diarrhea"),
   ("便秘", "I am constipated"),
   ("头晕", "I feel dizzy"),
   ("头昏", "I feel dizzy"),
   ("晕", "I feel dizzy"),
   ("疲倦", "I feel tired"),
   ("累", "I am tired"),
   ("乏力", "I feel weak"),
   ("没力气", "I have no energy"),
   ("失眠", "I have insomnia"),
   ("睡不着", "Can\x27t sleep"),
   ("睡不好", "Can\x27t sleep well"),
   ("食欲不振", "Loss of appetite"),
   ("吃不下", "Can\x27t eat"),
   ("没胃口", "No appetite"),
   ("心跳快", "Fast heartbeat"),
   ("心慌", "Heart palpitations"),
   ("气短", "Shortness of breath"),
   ("呼吸困难", "Difficulty breathing"),
   ("过敏", "I am allergic"),
   ("过敏反应", "Allergic reaction"),
   ("皮疹", "I have a rash"),
   ("发痒", "It\x27s itchy"),
   ("痒", "It\x27s itchy"),
   ("红肿", "Red and swollen"),
   ("肿胀", "Swelling"),
   ("疼", "It hurts"),
   ("痛", "It\x27s painful"),
   ("很疼", "It hurts a lot"),
   ("非常疼", "It hurts very much"),
   ("剧痛", "Severe pain"),
   ("隐痛", "Dull pain"),
   ("有点疼", "It hurts a little"),
   ("一直疼", "It hurts all the time"),
   ("有时候疼", "It hurts sometimes"),
   ("刺痛", "Sharp pain"),
   ("针扎一样疼", "Like needle pricks"),
   ("闷痛", "Dull pain"),
   ("胀痛", "Bloating pain"),
   ("酸痛", "Aching pain"),
   ("隐隐作痛", "Dull aching"),
   ("一阵一阵的疼", "Comes and goes"),
   ("越来越疼", "Getting worse"),
   ("没那么疼了", "Not as painful now"),
   ("疼得厉害", "Very painful"),
   ("火辣辣的疼", "Burning pain"),
   ("麻木", "Numbness"),
   ("发麻", "Tingling"),
   ("僵硬", "Stiffness"),
   ("发紧", "Tightness"),
   ("从昨天开始", "Since yesterday"),
   ("从今天早上开始", "Since this morning"),
   ("两天了", "For two days"),
   ("一个星期了", "For a week"),
   ("一个月了", "For a month"),
   ("大概一个月", "About a month"),
   ("大概一個月", "About a month"),
   ("几天了", "For a few days"),
   ("很久了", "For a long time"),
   ("刚开始", "Just started"),
   ("昨天", "Yesterday"),
   ("今天", "Today"),
   ("上周", "Last week"),
   ("上个月", "Last month"),
   ("一周", "One week"),
   ("两周", "Two weeks"),
   ("三天", "Three days"),
   ("五天", "Five days"),
   ("十天", "Ten days"),
   ("半个月", "Half a month"),
   ("两个月", "Two months"),
   ("很多年了", "For many years"),
   ("以前有过", "I had it before"),
   ("第一次", "First time"),
   ("家族史", "Family history"),
   ("遗传", "Hereditary"),
   ("高血压", "High blood pressure"),
   ("糖尿病", "Diabetes"),
   ("心脏病", "Heart disease"),
   ("哮喘", "Asthma"),
   ("过敏史", "Allergy history"),
   ("药物过敏", "Drug allergy"),
   ("食物过敏", "Food allergy"),
   ("怀孕", "Pregnant"),
   ("怀孕了", "I am pregnant"),
   ("月经", "Menstruation"),
   ("生理期", "Menstrual period"),
   ("吃药", "Taking medication"),
   ("正在吃药", "Currently taking medication"),
   ("没吃药", "Not taking medication"),
   ("按时吃药", "Taking medication on time"),
   ("忘记吃药", "Forgot to take medication"),
   ("手术", "Surgery"),
   ("做过手术", "Had surgery"),
   ("住院", "Hospitalized"),
   ("住过院", "Was hospitalized"),
   ("体检", "Physical examination"),
   ("检查", "Examination"),
   ("化验", "Lab test"),
   ("拍片", "X-ray"),
   ("CT", "CT scan"),
   ("B超", "Ultrasound"),
   ("谢谢", "Thank you"),
   ("再见", "Goodbye"),
   ("是的", "Yes"),
   ("不是", "No"),
   ("我不知道", "I don\x27t know"),
   ("我好好", "I am fine"),
   ("我唔舒服", "I don\x27t feel well"),
   ("我唔好", "I am not well"),
   ("我病咗", "I am sick"),
   ("我感覺唔好", "I don\x27t feel good"),
   ("呢度痛", "It hurts here"),
   ("嗰度痛", "It hurts there"),
   ("頭痛", "I have a headache"),
   ("頭疼", "I have a headache"),
   ("偏頭痛", "I have a migraine"),
   ("肚痛", "My stomach hurts"),
   ("胃痛", "My stomach hurts"),
   ("肚仔痛", "My stomach hurts"),
   ("喉嚨痛", "My throat hurts"),
   ("扁桃腺發炎", "My tonsils are inflamed"),
   ("背脊痛", "My back hurts"),
   ("腰痛", "My lower back hurts"),
   ("頸痛", "My neck hurts"),
   ("膊頭痛", "My shoulder hurts"),
   ("胸口痛", "My chest hurts"),
   ("心口痛", "My chest hurts"),
   ("心臟痛", "My heart hurts"),
   ("膝頭痛", "My knee hurts"),
   ("腳痛", "My leg hurts"),
   ("腳板痛", "My foot hurts"),
   ("手痛", "My hand hurts"),
   ("手臂痛", "My arm hurts"),
   ("眼痛", "My eyes hurt"),
   ("耳仔痛", "My ear hurts"),
   ("牙齒痛", "I have a toothache"),
   ("發燒", "I have a fever"),
   ("發熱", "I have a fever"),
   ("高燒", "I have a high fever"),
   ("低燒", "I have a low fever"),
   ("咳", "I am coughing"),
   ("乾咳", "I have a dry cough"),
   ("流鼻水", "I have a runny nose"),
   ("打乞嗤", "I am sneezing"),
   ("感冒咗", "I have a cold"),
   ("想嘔", "I feel nauseous"),
   ("嘔吐", "I am vomiting"),
   ("肚瀉", "I have diarrhea"),
   ("腹瀉", "I have diarrhea"),
   ("頭暈", "I feel dizzy"),
   ("頭昏", "I feel dizzy"),
   ("暈", "I feel dizzy"),
   ("攰", "I am tired"),
   ("好攰", "I am very tired"),
   ("冇力", "I feel weak"),
   ("冇氣力", "I have no energy"),
   ("瞓唔著", "Can\x27t sleep"),
   ("瞓唔好", "Can\x27t sleep well"),
   ("冇胃口", "Loss of appetite"),
   ("食唔落", "Can\x27t eat"),
   ("冇食慾", "No appetite"),
   ("氣促", "Shortness of breath"),
   ("呼吸困難", "Difficulty breathing")
  ]

def chineseObjAcc7 : List (String × String) :=
  [
   ("你好", "Hello"),
   ("我很好", "I am fine"),
   ("我不舒服", "I don\x27t feel well"),
   ("我不好", "I am not well"),
   ("我病了", "I am sick"),
   ("我感觉不好", "I don\x27t feel good"),
   ("这里疼", "It hurts here"),
   ("那里疼", "It hurts there"),
   ("头疼", "I have a headache"),
   ("头痛", "I have a headache"),
   ("偏头痛", "I have a migraine"),
   ("肚子疼", "My stomach hurts"),
   ("胃疼", "My stomach hurts"),
   ("肚子痛", "My stomach hurts"),
   ("喉咙疼", "My throat hurts"),
   ("嗓子疼", "My throat hurts"),
   ("扁桃体发炎", "My tonsils are inflamed"),
   ("背疼", "My back hurts"),
   ("腰疼", "My lower back hurts"),
   ("脖子疼", "My neck hurts"),
   ("肩膀疼", "My shoulder hurts"),
   ("胸疼", "My chest hurts"),
   ("胸口疼", "My chest hurts"),
   ("心脏疼", "My heart hurts"),
   ("膝盖疼", "My knee hurts"),
   ("腿疼", "My leg hurts"),
   ("脚疼", "My foot hurts"),
   ("手疼", "My hand hurts"),
   ("胳膊疼", "My arm hurts"),
   ("眼睛疼", "My eyes hurt"),
   ("耳朵疼", "My ear hurts"),
   ("牙疼", "I have a toothache"),
   ("牙痛", "I have a toothache"),
   ("发烧", "I have a fever"),
   ("发热", "I have a fever"),
   ("高烧", "I have a high fever"),
   ("低烧", "I have a low fever"),
   ("咳嗽", "I am coughing"),
   ("干咳", "I have a dry cough"),
   ("咳痰", "I am coughing up phlegm"),
   ("流鼻涕", "I have a runny nose"),
   ("鼻塞", "My nose is blocked"),
   ("打喷嚏", "I am sneezing"),
   ("感冒", "I have a cold"),
   ("感冒了", "I have a cold"),
   ("流感", "I have the flu"),
   ("恶心", "I feel nauseous"),
   ("想吐", "I feel like vomiting"),
   ("呕吐", "I am vomiting"),
   ("拉肚子", "I have diarrhea"),
   ("腹泻", "I have diarrhea"),
   ("便秘", "I am constipated"),
   ("头晕", "I feel dizzy"),
   ("头昏", "I feel dizzy"),
   ("晕", "I feel dizzy"),
   ("疲倦", "I feel tired"),
   ("累", "I am tired"),
   ("乏力", "I feel weak"),
   ("没力气", "I have no energy"),
   ("失眠", "I have insomnia"),
   ("睡不着", "Can\x27t sleep"),
   ("睡不好", "Can\x27t sleep well"),
   ("食欲不振", "Loss of appetite"),
   ("吃不下", "Can\x27t eat"),
   ("没胃口", "No appetite"),
   ("心跳快", "Fast heartbeat"),
   ("心慌", "Heart palpitations"),
   ("气短", "Shortness of breath"),
   ("呼吸困难", "Difficulty breathing"),
   ("过敏", "I am allergic"),
   ("过敏反应", "Allergic reaction"),
   ("皮疹", "I have a rash"),
   ("发痒", "It\x27s itchy"),
   ("痒", "It\x27s itchy"),
   ("红肿", "Red and swollen"),
   ("肿胀", "Swelling"),
   ("疼", "It hurts"),
   ("痛", "It hurts"),
   ("很疼", "It hurts a lot"),
   ("非常疼", "It hurts very much"),
   ("剧痛", "Severe pain"),
   ("隐痛", "Dull pain"),
   ("有点疼", "It hurts a little"),
   ("一直疼", "It hurts all the time"),
   ("有时候疼", "It hurts sometimes"),
   ("刺痛", "Sharp pain"),
   ("针扎一样疼", "Like needle pricks"),
   ("闷痛", "Dull pain"),
   ("胀痛", "Bloating pain"),
   ("酸痛", "Aching pain"),
   ("隐隐作痛", "Dull aching"),
   ("一阵一阵的疼", "Comes and goes"),
   ("越来越疼", "Getting worse"),
   ("没那么疼了", "Not as painful now"),
   ("疼得厉害", "Very painful"),
   ("火辣辣的疼", "Burning pain"),
   ("麻木", "Numbness"),
   ("发麻", "Tingling"),
   ("僵硬", "Stiffness"),
   ("发紧", "Tightness"),
   ("从昨天开始", "Since yesterday"),
   ("从今天早上开始", "Since this morning"),
   ("两天了", "For two days"),
   ("一个星期了", "For a week"),
   ("一个月了", "For a month"),
   ("大概一个月", "About a month"),
   ("大概一個月", "About a month"),
   ("几天了", "For a few days"),
   ("很久了", "For a long time"),
   ("刚开始", "Just started"),
   ("昨天", "Yesterday"),
   ("今天", "Today"),
   ("上周", "Last week"),
   ("上个月", "Last month"),
   ("一周", "One week"),
   ("两周", "Two weeks"),
   ("三天", "Three days"),
   ("五天", "Five days"),
   ("十天", "Ten days"),
   ("半个月", "Half a month"),
   ("两个月", "Two months"),
   ("很多年了", "For many years"),
   ("以前有过", "I had it before"),
   ("第一次", "First time"),
   ("家族史", "Family history"),
   ("遗传", "Hereditary"),
   ("高血压", "High blood pressure"),
   ("糖尿病", "Diabetes"),
   ("心脏病", "Heart disease"),
   ("哮喘", "Asthma"),
   ("过敏史", "Allergy history"),
   ("药物过敏", "Drug allergy"),
   ("食物过敏", "Food allergy"),
   ("怀孕", "Pregnant"),
   ("怀孕了", "I am pregnant"),
   ("月经", "Menstruation"),
   ("生理期", "Menstrual period"),
   ("吃药", "Taking medication"),
   ("正在吃药", "Currently taking medication"),
   ("没吃药", "Not taking medication"),
   ("按时吃药", "Taking medication on time"),
   ("忘记吃药", "Forgot to take medication"),
   ("手术", "Surgery"),
   ("做过手术", "Had surgery"),
   ("住院", "Hospitalized"),
   ("住过院", "Was hospitalized"),
   ("体检", "Physical examination"),
   ("检查", "Examination"),
   ("化验", "Lab test"),
   ("拍片", "X-ray"),
   ("CT", "CT scan"),
   ("B超", "Ultrasound"),
   ("谢谢", "Thank you"),
   ("再见", "Goodbye"),
   ("是的", "Yes"),
   ("不是", "No"),
   ("我不知道", "I don\x27t know"),
   ("我好好", "I am fine"),
   ("我唔舒服", "I don\x27t feel well"),
   ("我唔好", "I am not well"),
   ("我病咗", "I am sick"),
   ("我感覺唔好", "I don\x27t feel good"),
   ("呢度痛", "It hurts here"),
   ("嗰度痛", "It hurts there"),
   ("頭痛", "I have a headache"),
   ("頭疼", "I have a headache"),
   ("偏頭痛", "I have a migraine"),
   ("肚痛", "My stomach hurts"),
   ("胃痛", "My stomach hurts"),
   ("肚仔痛", "My stomach hurts"),
   ("喉嚨痛", "My throat hurts"),
   ("扁桃腺發炎", "My tonsils are inflamed"),
   ("背脊痛", "My back hurts"),
   ("腰痛", "My lower back hurts"),
   ("頸痛", "My neck hurts"),
   ("膊頭痛", "My shoulder hurts"),
   ("胸口痛", "My chest hurts"),
   ("心口痛", "My chest hurts"),
   ("心臟痛", "My heart hurts"),
   ("膝頭痛", "My knee hurts"),
   ("腳痛", "My leg hurts"),
   ("腳板痛", "My foot hurts"),
   ("手痛", "My hand hurts"),
   ("手臂痛", "My arm hurts"),
   ("眼痛", "My eyes hurt"),
   ("耳仔痛", "My ear hurts"),
   ("牙齒痛", "I have a toothache"),
   ("發燒", "I have a fever"),
   ("發熱", "I have a fever"),
   ("高燒", "I have a high fever"),
   ("低燒", "I have a low fever"),
   ("咳", "I am coughing"),
   ("乾咳", "I have a dry cough"),
   ("流鼻水", "I have a runny nose"),
   ("打乞嗤", "I am sneezing"),
   ("感冒咗", "I have a cold"),
   ("想嘔", "I feel nauseous"),
   ("嘔吐", "I am vomiting"),
   ("肚瀉", "I have diarrhea"),
   ("腹瀉", "I have diarrhea"),
   ("頭暈", "I feel dizzy"),
   ("頭昏", "I feel dizzy"),
   ("暈", "I feel dizzy"),
   ("攰", "I am tired"),
   ("好攰", "I am very tired"),
   ("冇力", "I feel weak"),
   ("冇氣力", "I have no energy"),
   ("瞓唔著", "Can\x27t sleep"),
   ("瞓唔好", "Can\x27t sleep well"),
   ("冇胃口", "Loss of appetite"),
   ("食唔落", "Can\x27t eat"),
   ("冇食慾", "No appetite"),
   ("氣促", "Shortness of breath"),
   ("呼吸困難", "Difficulty breathing"),
   ("過敏", "I am allergic"),
   ("過敏反應", "Allergic reaction"),
   ("痕癢", "It\x27s itchy"),
   ("痕", "It\x27s itchy"),
   ("紅腫", "Red and swollen"),
   ("腫脹", "Swelling"),
   ("好痛", "It hurts a lot"),
   ("非常痛", "It hurts very much"),
   ("劇痛", "Severe pain"),
   ("隱痛", "Dull pain"),
   ("有啲痛", "It hurts a little"),
   ("一直痛", "It hurts all the time"),
   ("有時痛", "It hurts sometimes"),
   ("好似針拮咁痛", "Like needle pricks"),
   ("悶痛", "Dull pain"),
   ("脹痛", "Bloating pain"),
   ("隱隱作痛", "Dull aching"),
   ("一陣一陣咁痛", "Comes and goes"),
   ("越嚟越痛", "Getting worse"),
   ("冇咁痛喇", "Not as painful now"),
   ("痛到好犀利", "Very painful"),
   ("火辣辣咁痛", "Burning pain"),
   ("麻痺", "Numbness"),
   ("發麻", "Tingling"),
   ("發緊", "Tightness")
  ]

def chineseObjAcc8 : List (String × String) :=
  [
   ("你好", "Hello"),
   ("我很好", "I am fine"),
   ("我不舒服", "I don\x27t feel well"),
   ("我不好", "I am not well"),
   ("我病了", "I am sick"),
   ("我感觉不好", "I don\x27t feel good"),
   ("这里疼", "It hurts here"),
   ("那里疼", "It hurts there"),
   ("头疼", "I have a headache"),
   ("头痛", "I have a headache"),
   ("偏头痛", "I have a migraine"),
   ("肚子疼", "My stomach hurts"),
   ("胃疼", "My stomach hurts"),
   ("肚子痛", "My stomach hurts"),
   ("喉咙疼", "My throat hurts"),
   ("嗓子疼", "My throat hurts"),
   ("扁桃体发炎", "My tonsils are inflamed"),
   ("背疼", "My back hurts"),
   ("腰疼", "My lower back hurts"),
   ("脖子疼", "My neck hurts"),
   ("肩膀疼", "My shoulder hurts"),
   ("胸疼", "My chest hurts"),
   ("胸口疼", "My chest hurts"),
   ("心脏疼", "My heart hurts"),
   ("膝盖疼", "My knee hurts"),
   ("腿疼", "My leg hurts"),
   ("脚疼", "My foot hurts"),
   ("手疼", "My hand hurts"),
   ("胳膊疼", "My arm hurts"),
   ("眼睛疼", "My eyes hurt"),
   ("耳朵疼", "My ear hurts"),
   ("牙疼", "I have a toothache"),
   ("牙痛", "I have a toothache"),
   ("发烧", "I have a fever"),
   ("发热", "I have a fever"),
   ("高烧", "I have a high fever"),
   ("低烧", "I have a low fever"),
   ("咳嗽", "I am coughing"),
   ("干咳", "I have a dry cough"),
   ("咳痰", "I am coughing up phlegm"),
   ("流鼻涕", "I have a runny nose"),
   ("鼻塞", "My nose is blocked"),
   ("打喷嚏", "I am sneezing"),
   ("感冒", "I have a cold"),
   ("感冒了", "I have a cold"),
   ("流感", "I have the flu"),
   ("恶心", "I feel nauseous"),
   ("想吐", "I feel like vomiting"),
   ("呕吐", "I am vomiting"),
   ("拉肚子", "I have diarrhea"),
   ("腹泻", "I have diarrhea"),
   ("便秘", "I am constipated"),
   ("头晕", "I feel dizzy"),
   ("头昏", "I feel dizzy"),
   ("晕", "I feel dizzy"),
   ("疲倦", "I feel tired"),
   ("累", "I am tired"),
   ("乏力", "I feel weak"),
   ("没力气", "I have no energy"),
   ("失眠", "I have insomnia"),
   ("睡不着", "Can\x27t sleep"),
   ("睡不好", "Can\x27t sleep well"),
   ("食欲不振", "Loss of appetite"),
   ("吃不下", "Can\x27t eat"),
   ("没胃口", "No appetite"),
   ("心跳快", "Fast heartbeat"),
   ("心慌", "Heart palpitations"),
   ("气短", "Shortness of breath"),
   ("呼吸困难", "Difficulty breathing"),
   ("过敏", "I am allergic"),
   ("过敏反应", "Allergic reaction"),
   ("皮疹", "I have a rash"),
   ("发痒", "It\x27s itchy"),
   ("痒", "It\x27s itchy"),
   ("红肿", "Red and swollen"),
   ("肿胀", "Swelling"),
   ("疼", "It hurts"),
   ("痛", "It hurts"),
   ("很疼", "It hurts a lot"),
   ("非常疼", "It hurts very much"),
   ("剧痛", "Severe pain"),
   ("隐痛", "Dull pain"),
   ("有点疼", "It hurts a little"),
   ("一直疼", "It hurts all the time"),
   ("有时候疼", "It hurts sometimes"),
   ("刺痛", "Sharp pain"),
   ("针扎一样疼", "Like needle pricks"),
   ("闷痛", "Dull pain"),
   ("胀痛", "Bloating pain"),
   ("酸痛", "Aching pain"),
   ("隐隐作痛", "Dull aching"),
   ("一阵一阵的疼", "Comes and goes"),
   ("越来越疼", "Getting worse"),
   ("没那么疼了", "Not as painful now"),
   ("疼得厉害", "Very painful"),
   ("火辣辣的疼", "Burning pain"),
   ("麻木", "Numbness"),
   ("发麻", "Tingling"),
   ("僵硬", "Stiffness"),
   ("发紧", "Tightness"),
   ("从昨天开始", "Since yesterday"),
   ("从今天早上开始", "Since this morning"),
   ("两天了", "For two days"),
   ("一个星期了", "For a week"),
   ("一个月了", "For a month"),
   ("大概一个月", "About a month"),
   ("大概一個月", "About a month"),
   ("几天了", "For a few days"),
   ("很久了", "For a long time"),
   ("刚开始", "Just started"),
   ("昨天", "Yesterday"),
   ("今天", "Today"),
   ("上周", "Last week"),
   ("上个月", "Last month"),
   ("一周", "One week"),
   ("两周", "Two weeks"),
   ("三天", "Three days"),
   ("五天", "Five days"),
   ("十天", "Ten days"),
   ("半个月", "Half a month"),
   ("两个月", "Two months"),
   ("很多年了", "For many years"),
   ("以前有过", "I had it before"),
   ("第一次", "First time"),
   ("家族史", "Family history"),
   ("遗传", "Hereditary"),
   ("高血压", "High blood pressure"),
   ("糖尿病", "Diabetes"),
   ("心脏病", "Heart disease"),
   ("哮喘", "Asthma"),
   ("过敏史", "Allergy history"),
   ("药物过敏", "Drug allergy"),
   ("食物过敏", "Food allergy"),
   ("怀孕", "Pregnant"),
   ("怀孕了", "I am pregnant"),
   ("月经", "Menstruation"),
   ("生理期", "Menstrual period"),
   ("吃药", "Taking medication"),
   ("正在吃药", "Currently taking medication"),
   ("没吃药", "Not taking medication"),
   ("按时吃药", "Taking medication on time"),
   ("忘记吃药", "Forgot to take medication"),
   ("手术", "Surgery"),
   ("做过手术", "Had surgery"),
   ("住院", "Hospitalized"),
   ("住过院", "Was hospitalized"),
   ("体检", "Physical examination"),
   ("检查", "Examination"),
   ("化验", "Lab test"),
   ("拍片", "X-ray"),
   ("CT", "CT scan"),
   ("B超", "Ultrasound"),
   ("谢谢", "Thank you"),
   ("再见", "Goodbye"),
   ("是的", "Yes"),
   ("不是", "No"),
   ("我不知道", "I don\x27t know"),
   ("我好好", "I am fine"),
   ("我唔舒服", "I don\x27t feel well"),
   ("我唔好", "I am not well"),
   ("我病咗", "I am sick"),
   ("我感覺唔好", "I don\x27t feel good"),
   ("呢度痛", "It hurts here"),
   ("嗰度痛", "It hurts there"),
   ("頭痛", "I have a headache"),
   ("頭疼", "I have a headache"),
   ("偏頭痛", "I have a migraine"),
   ("肚痛", "My stomach hurts"),
   ("胃痛", "My stomach hurts"),
   ("肚仔痛", "My stomach hurts"),
   ("喉嚨痛", "My throat hurts"),
   ("扁桃腺發炎", "My tonsils are inflamed"),
   ("背脊痛", "My back hurts"),
   ("腰痛", "My lower back hurts"),
   ("頸痛", "My neck hurts"),
   ("膊頭痛", "My shoulder hurts"),
   ("胸口痛", "My chest hurts"),
   ("心口痛", "My chest hurts"),
   ("心臟痛", "My heart hurts"),
   ("膝頭痛", "My knee hurts"),
   ("腳痛", "My leg hurts"),
   ("腳板痛", "My foot hurts"),
   ("手痛", "My hand hurts"),
   ("手臂痛", "My arm hurts"),
   ("眼痛", "My eyes hurt"),
   ("耳仔痛", "My ear hurts"),
   ("牙齒痛", "I have a toothache"),
   ("發燒", "I have a fever"),
   ("發熱", "I have a fever"),
   ("高燒", "I have a high fever"),
   ("低燒", "I have a low fever"),
   ("咳", "I am coughing"),
   ("乾咳", "I have a dry cough"),
   ("流鼻水", "I have a runny nose"),
   ("打乞嗤", "I am sneezing"),
   ("感冒咗", "I have a cold"),
   ("想嘔", "I feel nauseous"),
   ("嘔吐", "I am vomiting"),
   ("肚瀉", "I have diarrhea"),
   ("腹瀉", "I have diarrhea"),
   ("頭暈", "I feel dizzy"),
   ("頭昏", "I feel dizzy"),
   ("暈", "I feel dizzy"),
   ("攰", "I am tired"),
   ("好攰", "I am very tired"),
   ("冇力", "I feel weak"),
   ("冇氣力", "I have no energy"),
   ("瞓唔著", "Can\x27t sleep"),
   ("瞓唔好", "Can\x27t sleep well"),
   ("冇胃口", "No appetite"),
   ("食唔落", "Can\x27t eat"),
   ("冇食慾", "No appetite"),
   ("氣促", "Shortness of breath"),
   ("呼吸困難", "Difficulty breathing"),
   ("過敏", "I am allergic"),
   ("過敏反應", "Allergic reaction"),
   ("痕癢", "It\x27s itchy"),
   ("痕", "It\x27s itchy"),
   ("紅腫", "Red and swollen"),
   ("腫脹", "Swelling"),
   ("好痛", "It hurts a lot"),
   ("非常痛", "It hurts very much"),
   ("劇痛", "Severe pain"),
   ("隱痛", "Dull pain"),
   ("有啲痛", "It hurts a little"),
   ("一直痛", "It hurts all the time"),
   ("有時痛", "It hurts sometimes"),
   ("好似針拮咁痛", "Like needle pricks"),
   ("悶痛", "Dull pain"),
   ("脹痛", "Bloating pain"),
   ("隱隱作痛", "Dull aching"),
   ("一陣一陣咁痛", "Comes and goes"),
   ("越嚟越痛", "Getting worse"),
   ("冇咁痛喇", "Not as painful now"),
   ("痛到好犀利", "Very painful"),
   ("火辣辣咁痛", "Burning pain"),
   ("麻痺", "Numbness"),
   ("發麻", "Tingling"),
   ("發緊", "Tightness"),
   ("從琴日開始", "Since yesterday"),
   ("從今朝開始", "Since this morning"),
   ("兩日喇", "For two days"),
   ("一個禮拜喇", "For a week"),
   ("一個月喇", "For a month"),
   ("幾日喇", "For a few days"),
   ("好耐喇", "For a long time"),
   ("啱啱開始", "Just started"),
   ("琴日", "Yesterday"),
   ("今日", "Today"),
   ("上星期", "Last week"),
   ("上個月", "Last month"),
   ("一星期", "One week"),
   ("兩星期", "Two weeks"),
   ("三日", "Three days"),
   ("五日", "Five days"),
   ("十日", "Ten days"),
   ("半個月", "Half a month"),
   ("兩個月", "Two months"),
   ("好多年喇", "For many years"),
   ("以前有過", "I had it before"),
   ("遺傳", "Hereditary"),
   ("高血壓", "High blood pressure"),
   ("心臟病", "Heart disease"),
   ("過敏史", "Allergy history"),
   ("藥物過敏", "Drug allergy"),
   ("食物過敏", "Food allergy"),
   ("懷孕", "Pregnant"),
   ("懷孕咗", "I am pregnant"),
   ("嚟M", "Menstruation")
  ]

def chineseSortSeg1 : List (String × String) :=
  [
   ("你好", "Hello"),
   ("我很好", "I am fine"),
   ("我不舒服", "I don\x27t feel well"),
   ("我不好", "I am not well"),
   ("我病了", "I am sick"),
   ("我感觉不好", "I don\x27t feel good"),
   ("这里疼", "It hurts here"),
   ("那里疼", "It hurts there"),
   ("头疼", "I have a headache"),
   ("头痛", "I have a headache"),
   ("偏头痛", "I have a migraine"),
   ("肚子疼", "My stomach hurts"),
   ("胃疼", "My stomach hurts"),
   ("肚子痛", "My stomach hurts"),
   ("喉咙疼", "My throat hurts"),
   ("嗓子疼", "My throat hurts"),
   ("扁桃体发炎", "My tonsils are inflamed"),
   ("背疼", "My back hurts"),
   ("腰疼", "My lower back hurts"),
   ("脖子疼", "My neck hurts"),
   ("肩膀疼", "My shoulder hurts"),
   ("胸疼", "My chest hurts"),
   ("胸口疼", "My chest hurts"),
   ("心脏疼", "My heart hurts"),
   ("膝盖疼", "My knee hurts"),
   ("腿疼", "My leg hurts"),
   ("脚疼", "My foot hurts"),
   ("手疼", "My hand hurts"),
   ("胳膊疼", "My arm hurts"),
   ("眼睛疼", "My eyes hurt"),
   ("耳朵疼", "My ear hurts"),
   ("牙疼", "I have a toothache"),
   ("牙痛", "I have a toothache"),
   ("发烧", "I have a fever"),
   ("发热", "I have a fever"),
   ("高烧", "I have a high fever"),
   ("低烧", "I have a low fever")
  ]

def chineseSortSeg2 : List (String × String) :=
  [
   ("咳嗽", "I am coughing"),
   ("干咳", "I have a dry cough"),
   ("咳痰", "I am coughing up phlegm"),
   ("流鼻涕", "I have a runny nose"),
   ("鼻塞", "My nose is blocked"),
   ("打喷嚏", "I am sneezing"),
   ("感冒", "I have a cold"),
   ("感冒了", "I have a cold"),
   ("流感", "I have the flu"),
   ("恶心", "I feel nauseous"),
   ("想吐", "I feel like vomiting"),
   ("呕吐", "I am vomiting"),
   ("拉肚子", "I have diarrhea"),
   ("腹泻", "I have diarrhea"),
   ("便秘", "I am constipated"),
   ("头晕", "I feel dizzy"),
   ("头昏", "I feel dizzy"),
   ("晕", "I feel dizzy"),
   ("疲倦", "I feel tired"),
   ("累", "I am tired"),
   ("乏力", "I feel weak"),
   ("没力气", "I have no energy"),
   ("失眠", "I have insomnia"),
   ("睡不着", "Can\x27t sleep"),
   ("睡不好", "Can\x27t sleep well"),
   ("食欲不振", "Loss of appetite"),
   ("吃不下", "Can\x27t eat"),
   ("没胃口", "No appetite"),
   ("心跳快", "Fast heartbeat"),
   ("心慌", "Heart palpitations"),
   ("气短", "Shortness of breath"),
   ("呼吸困难", "Difficulty breathing"),
   ("过敏", "I am allergic"),
   ("过敏反应", "Allergic reaction"),
   ("皮疹", "I have a rash"),
   ("发痒", "It\x27s itchy"),
   ("痒", "It\x27s itchy")
  ]

def chineseSortSeg3 : List (String × String) :=
  [
   ("红肿", "Red and swollen"),
   ("肿胀", "Swelling"),
   ("疼", "It hurts"),
   ("痛", "It hurts"),
   ("很疼", "It hurts a lot"),
   ("非常疼", "It hurts very much"),
   ("剧痛", "Severe pain"),
   ("隐痛", "Dull pain"),
   ("有点疼", "It hurts a little"),
   ("一直疼", "It hurts all the time"),
   ("有时候疼", "It hurts sometimes"),
   ("刺痛", "Sharp pain"),
   ("针扎一样疼", "Like needle pricks"),
   ("闷痛", "Dull pain"),
   ("胀痛", "Bloating pain"),
   ("酸痛", "Aching pain"),
   ("隐隐作痛", "Dull aching"),
   ("一阵一阵的疼", "Comes and goes"),
   ("越来越疼", "Getting worse"),
   ("没那么疼了", "Not as painful now"),
   ("疼得厉害", "Very painful"),
   ("火辣辣的疼", "Burning pain"),
   ("麻木", "Numbness"),
   ("发麻", "Tingling"),
   ("僵硬", "Stiffness"),
   ("发紧", "Tightness"),
   ("从昨天开始", "Since yesterday"),
   ("从今天早上开始", "Since this morning"),
   ("两天了", "For two days"),
   ("一个星期了", "For a week"),
   ("一个月了", "For a month"),
   ("大概一个月", "About a month"),
   ("大概一個月", "About a month"),
   ("几天了", "For a few days"),
   ("很久了", "For a long time"),
   ("刚开始", "Just started"),
   ("昨天", "Yesterday")
  ]

def chineseSortSeg4 : List (String × String) :=
  [
   ("今天", "Today"),
   ("上周", "Last week"),
   ("上个月", "Last month"),
   ("一周", "One week"),
   ("两周", "Two weeks"),
   ("三天", "Three days"),
   ("五天", "Five days"),
   ("十天", "Ten days"),
   ("半个月", "Half a month"),
   ("两个月", "Two months"),
   ("很多年了", "For many years"),
   ("以前有过", "I had it before"),
   ("第一次", "First time"),
   ("家族史", "Family history"),
   ("遗传", "Hereditary"),
   ("高血压", "High blood pressure"),
   ("糖尿病", "Diabetes"),
   ("心脏病", "Heart disease"),
   ("哮喘", "Asthma"),
   ("过敏史", "Allergy history"),
   ("药物过敏", "Drug allergy"),
   ("食物过敏", "Food allergy"),
   ("怀孕", "Pregnant"),
   ("怀孕了", "I am pregnant"),
   ("月经", "Menstruation"),
   ("生理期", "Menstrual period"),
   ("吃药", "Taking medication"),
   ("正在吃药", "Currently taking medication"),
   ("没吃药", "Not taking medication"),
   ("按时吃药", "Taking medication on time"),
   ("忘记吃药", "Forgot to take medication"),
   ("手术", "Surgery"),
   ("做过手术", "Had surgery"),
   ("住院", "Hospitalized"),
   ("住过院", "Was hospitalized"),
   ("体检", "Physical examination"),
   ("检查", "Examination")
  ]

def chineseSortSeg5 : List (String × String) :=
  [
   ("化验", "Lab test"),
   ("拍片", "X-ray"),
   ("CT", "CT scan"),
   ("B超", "Ultrasound"),
   ("谢谢", "Thank you"),
   ("再见", "Goodbye"),
   ("是的", "Yes"),
   ("不是", "No"),
   ("我不知道", "I don\x27t know"),
   ("我好好", "I am fine"),
   ("我唔舒服", "I don\x27t feel well"),
   ("我唔好", "I am not well"),
   ("我病咗", "I am sick"),
   ("我感覺唔好", "I don\x27t feel good"),
   ("呢度痛", "It hurts here"),
   ("嗰度痛", "It hurts there"),
   ("頭痛", "I have a headache"),
   ("頭疼", "I have a headache"),
   ("偏頭痛", "I have a migraine"),
   ("肚痛", "My stomach hurts"),
   ("胃痛", "My stomach hurts"),
   ("肚仔痛", "My stomach hurts"),
   ("喉嚨痛", "My throat hurts"),
   ("扁桃腺發炎", "My tonsils are inflamed"),
   ("背脊痛", "My back hurts"),
   ("腰痛", "My lower back hurts"),
   ("頸痛", "My neck hurts"),
   ("膊頭痛", "My shoulder hurts"),
   ("胸口痛", "My chest hurts"),
   ("心口痛", "My chest hurts"),
   ("心臟痛", "My heart hurts"),
   ("膝頭痛", "My knee hurts"),
   ("腳痛", "My leg hurts"),
   ("腳板痛", "My foot hurts"),
   ("手痛", "My hand hurts"),
   ("手臂痛", "My arm hurts"),
   ("眼痛", "My eyes hurt")
  ]

def chineseSortSeg6 : List (String × String) :=
  [
   ("耳仔痛", "My ear hurts"),
   ("牙齒痛", "I have a toothache"),
   ("發燒", "I have a fever"),
   ("發熱", "I have a fever"),
   ("高燒", "I have a high fever"),
   ("低燒", "I have a low fever"),
   ("咳", "I am coughing"),
   ("乾咳", "I have a dry cough"),
   ("流鼻水", "I have a runny nose"),
   ("打乞嗤", "I am sneezing"),
   ("感冒咗", "I have a cold"),
   ("想嘔", "I feel nauseous"),
   ("嘔吐", "I am vomiting"),
   ("肚瀉", "I have diarrhea"),
   ("腹瀉", "I have diarrhea"),
   ("頭暈", "I feel dizzy"),
   ("頭昏", "I feel dizzy"),
   ("暈", "I feel dizzy"),
   ("攰", "I am tired"),
   ("好攰", "I am very tired"),
   ("冇力", "I feel weak"),
   ("冇氣力", "I have no energy"),
   ("瞓唔著", "Can\x27t sleep"),
   ("瞓唔好", "Can\x27t sleep well"),
   ("冇胃口", "No appetite"),
   ("食唔落", "Can\x27t eat"),
   ("冇食慾", "No appetite"),
   ("氣促", "Shortness of breath"),
   ("呼吸困難", "Difficulty breathing"),
   ("過敏", "I am allergic"),
   ("過敏反應", "Allergic reaction"),
   ("痕癢", "It\x27s itchy"),
   ("痕", "It\x27s itchy"),
   ("紅腫", "Red and swollen"),
   ("腫脹", "Swelling"),
   ("好痛", "It hurts a lot"),
   ("非常痛", "It hurts very much")
  ]

def chineseSortSeg7 : List (String × String) :=
  [
   ("劇痛", "Severe pain"),
   ("隱痛", "Dull pain"),
   ("有啲痛", "It hurts a little"),
   ("一直痛", "It hurts all the time"),
   ("有時痛", "It hurts sometimes"),
   ("好似針拮咁痛", "Like needle pricks"),
   ("悶痛", "Dull pain"),
   ("脹痛", "Bloating pain"),
   ("隱隱作痛", "Dull aching"),
   ("一陣一陣咁痛", "Comes and goes"),
   ("越嚟越痛", "Getting worse"),
   ("冇咁痛喇", "Not as painful now"),
   ("痛到好犀利", "Very painful"),
   ("火辣辣咁痛", "Burning pain"),
   ("麻痺", "Numbness"),
   ("發麻", "Tingling"),
   ("發緊", "Tightness"),
   ("從琴日開始", "Since yesterday"),
   ("從今朝開始", "Since this morning"),
   ("兩日喇", "For two days"),
   ("一個禮拜喇", "For a week"),
   ("一個月喇", "For a month"),
   ("幾日喇", "For a few days"),
   ("好耐喇", "For a long time"),
   ("啱啱開始", "Just started"),
   ("琴日", "Yesterday"),
   ("今日", "Today"),
   ("上星期", "Last week"),
   ("上個月", "Last month"),
   ("一星期", "One week"),
   ("兩星期", "Two weeks"),
   ("三日", "Three days"),
   ("五日", "Five days"),
   ("十日", "Ten days"),
   ("半個月", "Half a month"),
   ("兩個月", "Two months"),
   ("好多年喇", "For many years")
  ]

def chineseSortSeg8 : List (String × String) :=
  [
   ("以前有過", "I had it before"),
   ("遺傳", "Hereditary"),
   ("高血壓", "High blood pressure"),
   ("心臟病", "Heart disease"),
   ("過敏史", "Allergy history"),
   ("藥物過敏", "Drug allergy"),
   ("食物過敏", "Food allergy"),
   ("懷孕", "Pregnant"),
   ("懷孕咗", "I am pregnant"),
   ("嚟M", "Menstruation"),
   ("食藥", "Taking medication"),
   ("而家食緊藥", "Currently taking medication"),
   ("冇食藥", "Not taking medication"),
   ("準時食藥", "Taking medication on time"),
   ("唔記得食藥", "Forgot to take medication"),
   ("手術", "Surgery"),
   ("做過手術", "Had surgery"),
   ("住過院", "Was hospitalized"),
   ("身體檢查", "Physical examination"),
   ("檢查", "Examination"),
   ("化驗", "Lab test"),
   ("照X光", "X-ray"),
   ("多謝", "Thank you"),
   ("再見", "Goodbye"),
   ("係", "Yes"),
   ("唔係", "No"),
   ("我唔知", "I don\x27t know"),
   ("唔舒服", "Not feeling well"),
   ("好辛苦", "Very uncomfortable"),
   ("儿歌喉痛", "My throat hurts")
  ]

def chineseSortAcc2 : List (String × String) :=
  [
   ("从今天早上开始", "Since this morning"),
   ("一阵一阵的疼", "Comes and goes"),
   ("好似針拮咁痛", "Like needle pricks"),
   ("一陣一陣咁痛", "Comes and goes"),
   ("针扎一样疼", "Like needle pricks"),
   ("没那么疼了", "Not as painful now"),
   ("火辣辣的疼", "Burning pain"),
   ("从昨天开始", "Since yesterday"),
   ("一个星期了", "For a week"),
   ("大概一个月", "About a month"),
   ("大概一個月", "About a month"),
   ("我感覺唔好", "I don\x27t feel good"),
   ("扁桃腺發炎", "My tonsils are inflamed"),
   ("痛到好犀利", "Very painful"),
   ("火辣辣咁痛", "Burning pain"),
   ("從琴日開始", "Since yesterday"),
   ("從今朝開始", "Since this morning"),
   ("一個禮拜喇", "For a week"),
   ("而家食緊藥", "Currently taking medication"),
   ("唔記得食藥", "Forgot to take medication"),
   ("食欲不振", "Loss of appetite"),
   ("呼吸困难", "Difficulty breathing"),
   ("过敏反应", "Allergic reaction"),
   ("有时候疼", "It hurts sometimes"),
   ("隐隐作痛", "Dull aching"),
   ("越来越疼", "Getting worse"),
   ("疼得厉害", "Very painful"),
   ("一个月了", "For a month"),
   ("很多年了", "For many years"),
   ("以前有过", "I had it before"),
   ("药物过敏", "Drug allergy"),
   ("食物过敏", "Food allergy"),
   ("正在吃药", "Currently taking medication"),
   ("按时吃药", "Taking medication on time"),
   ("忘记吃药", "Forgot to take medication"),
   ("做过手术", "Had surgery"),
   ("我不知道", "I don\x27t know"),
   ("我唔舒服", "I don\x27t feel well"),
   ("呼吸困難", "Difficulty breathing"),
   ("過敏反應", "Allergic reaction"),
   ("隱隱作痛", "Dull aching"),
   ("越嚟越痛", "Getting worse"),
   ("冇咁痛喇", "Not as painful now"),
   ("一個月喇", "For a month"),
   ("啱啱開始", "Just started"),
   ("好多年喇", "For many years"),
   ("以前有過", "I had it before"),
   ("藥物過敏", "Drug allergy"),
   ("食物過敏", "Food allergy"),
   ("準時食藥", "Taking medication on time"),
   ("做過手術", "Had surgery"),
   ("身體檢查", "Physical examination"),
   ("儿歌喉痛", "My throat hurts"),
   ("流鼻涕", "I have a runny nose"),
   ("打喷嚏", "I am sneezing"),
   ("感冒了", "I have a cold"),
   ("拉肚子", "I have diarrhea"),
   ("没力气", "I have no energy"),
   ("睡不着", "Can\x27t sleep"),
   ("睡不好", "Can\x27t sleep well"),
   ("吃不下", "Can\x27t eat"),
   ("没胃口", "No appetite"),
   ("心跳快", "Fast heartbeat"),
   ("非常疼", "It hurts very much"),
   ("有点疼", "It hurts a little"),
   ("一直疼", "It hurts all the time"),
   ("两天了", "For two days"),
   ("几天了", "For a few days"),
   ("很久了", "For a long time"),
   ("刚开始", "Just started"),
   ("上个月", "Last month"),
   ("半个月", "Half a month"),
   ("两个月", "Two months"),
   ("第一次", "First time"),
   ("家族史", "Family history"),
   ("高血压", "High blood pressure"),
   ("糖尿病", "Diabetes"),
   ("心脏病", "Heart disease"),
   ("过敏史", "Allergy history"),
   ("怀孕了", "I am pregnant"),
   ("生理期", "Menstrual period"),
   ("没吃药", "Not taking medication"),
   ("住过院", "Was hospitalized"),
   ("我好好", "I am fine"),
   ("我唔好", "I am not well"),
   ("我病咗", "I am sick"),
   ("呢度痛", "It hurts here"),
   ("嗰度痛", "It hurts there"),
   ("偏頭痛", "I have a migraine"),
   ("肚仔痛", "My stomach hurts"),
   ("喉嚨痛", "My throat hurts"),
   ("背脊痛", "My back hurts"),
   ("膊頭痛", "My shoulder hurts"),
   ("胸口痛", "My chest hurts"),
   ("心口痛", "My chest hurts"),
   ("心臟痛", "My heart hurts"),
   ("膝頭痛", "My knee hurts"),
   ("腳板痛", "My foot hurts"),
   ("手臂痛", "My arm hurts"),
   ("耳仔痛", "My ear hurts"),
   ("牙齒痛", "I have a toothache"),
   ("流鼻水", "I have a runny nose"),
   ("打乞嗤", "I am sneezing"),
   ("感冒咗", "I have a cold"),
   ("冇氣力", "I have no energy"),
   ("瞓唔著", "Can\x27t sleep"),
   ("瞓唔好", "Can\x27t sleep well"),
   ("冇胃口", "No appetite"),
   ("食唔落", "Can\x27t eat"),
   ("冇食慾", "No appetite"),
   ("非常痛", "It hurts very much"),
   ("有啲痛", "It hurts a little"),
   ("一直痛", "It hurts all the time"),
   ("有時痛", "It hurts sometimes"),
   ("兩日喇", "For two days"),
   ("幾日喇", "For a few days"),
   ("好耐喇", "For a long time"),
   ("上星期", "Last week"),
   ("上個月", "Last month"),
   ("一星期", "One week"),
   ("兩星期", "Two weeks"),
   ("半個月", "Half a month"),
   ("兩個月", "Two months"),
   ("高血壓", "High blood pressure"),
   ("心臟病", "Heart disease"),
   ("過敏史", "Allergy history"),
   ("懷孕咗", "I am pregnant"),
   ("冇食藥", "Not taking medication"),
   ("住過院", "Was hospitalized"),
   ("照X光", "X-ray"),
   ("我唔知", "I don\x27t know"),
   ("唔舒服", "Not feeling well"),
   ("好辛苦", "Very uncomfortable"),
   ("咳嗽", "I am coughing"),
   ("干咳", "I have a dry cough"),
   ("咳痰", "I am coughing up phlegm"),
   ("鼻塞", "My nose is blocked"),
   ("感冒", "I have a cold"),
   ("流感", "I have the flu"),
   ("恶心", "I feel nauseous"),
   ("想吐", "I feel like vomiting"),
   ("呕吐", "I am vomiting"),
   ("腹泻", "I have diarrhea"),
   ("便秘", "I am constipated"),
   ("头晕", "I feel dizzy"),
   ("头昏", "I feel dizzy"),
   ("疲倦", "I feel tired"),
   ("乏力", "I feel weak"),
   ("失眠", "I have insomnia"),
   ("心慌", "Heart palpitations"),
   ("气短", "Shortness of breath"),
   ("过敏", "I am allergic"),
   ("皮疹", "I have a rash"),
   ("发痒", "It\x27s itchy"),
   ("红肿", "Red and swollen"),
   ("肿胀", "Swelling"),
   ("很疼", "It hurts a lot"),
   ("剧痛", "Severe pain"),
   ("隐痛", "Dull pain"),
   ("刺痛", "Sharp pain"),
   ("闷痛", "Dull pain"),
   ("胀痛", "Bloating pain"),
   ("酸痛", "Aching pain"),
   ("麻木", "Numbness"),
   ("发麻", "Tingling"),
   ("僵硬", "Stiffness"),
   ("发紧", "Tightness"),
   ("昨天", "Yesterday"),
   ("今天", "Today"),
   ("上周", "Last week"),
   ("一周", "One week"),
   ("两周", "Two weeks"),
   ("三天", "Three days"),
   ("五天", "Five days"),
   ("十天", "Ten days"),
   ("遗传", "Hereditary"),
   ("哮喘", "Asthma"),
   ("怀孕", "Pregnant"),
   ("月经", "Menstruation"),
   ("吃药", "Taking medication"),
   ("手术", "Surgery"),
   ("住院", "Hospitalized"),
   ("体检", "Physical examination"),
   ("检查", "Examination"),
   ("化验", "Lab test"),
   ("拍片", "X-ray"),
   ("CT", "CT scan"),
   ("B超", "Ultrasound"),
   ("谢谢", "Thank you"),
   ("再见", "Goodbye"),
   ("是的", "Yes"),
   ("不是", "No"),
   ("頭痛", "I have a headache"),
   ("頭疼", "I have a headache"),
   ("肚痛", "My stomach hurts"),
   ("胃痛", "My stomach hurts"),
   ("腰痛", "My lower back hurts"),
   ("頸痛", "My neck hurts"),
   ("腳痛", "My leg hurts"),
   ("手痛", "My hand hurts"),
   ("眼痛", "My eyes hurt"),
   ("發燒", "I have a fever"),
   ("發熱", "I have a fever"),
   ("高燒", "I have a high fever"),
   ("低燒", "I have a low fever"),
   ("乾咳", "I have a dry cough"),
   ("想嘔", "I feel nauseous"),
   ("嘔吐", "I am vomiting"),
   ("肚瀉", "I have diarrhea"),
   ("腹瀉", "I have diarrhea"),
   ("頭暈", "I feel dizzy"),
   ("頭昏", "I feel dizzy"),
   ("好攰", "I am very tired"),
   ("冇力", "I feel weak"),
   ("氣促", "Shortness of breath"),
   ("過敏", "I am allergic"),
   ("痕癢", "It\x27s itchy"),
   ("紅腫", "Red and swollen"),
   ("腫脹", "Swelling"),
   ("好痛", "It hurts a lot"),
   ("劇痛", "Severe pain"),
   ("隱痛", "Dull pain"),
   ("悶痛", "Dull pain"),
   ("脹痛", "Bloating pain"),
   ("麻痺", "Numbness"),
   ("發麻", "Tingling"),
   ("發緊", "Tightness"),
   ("琴日", "Yesterday"),
   ("今日", "Today"),
   ("三日", "Three days"),
   ("五日", "Five days"),
   ("十日", "Ten days"),
   ("遺傳", "Hereditary"),
   ("懷孕", "Pregnant"),
   ("嚟M", "Menstruation"),
   ("食藥", "Taking medication"),
   ("手術", "Surgery"),
   ("檢查", "Examination"),
   ("化驗", "Lab test"),
   ("多謝", "Thank you"),
   ("再見", "Goodbye"),
   ("唔係", "No"),
   ("晕", "I feel dizzy"),
   ("累", "I am tired"),
   ("痒", "It\x27s itchy"),
   ("疼", "It hurts"),
   ("痛", "It hurts"),
   ("咳", "I am coughing"),
   ("暈", "I feel dizzy"),
   ("攰", "I am tired"),
   ("痕", "It\x27s itchy"),
   ("係", "Yes")
  ]

def chineseSortAcc3 : List (String × String) :=
  [
   ("从今天早上开始", "Since this morning"),
   ("一阵一阵的疼", "Comes and goes"),
   ("好似針拮咁痛", "Like needle pricks"),
   ("一陣一陣咁痛", "Comes and goes"),
   ("针扎一样疼", "Like needle pricks"),
   ("没那么疼了", "Not as painful now"),
   ("火辣辣的疼", "Burning pain"),
   ("从昨天开始", "Since yesterday"),
   ("一个星期了", "For a week"),
   ("大概一个月", "About a month"),
   ("大概一個月", "About a month"),
   ("我感覺唔好", "I don\x27t feel good"),
   ("扁桃腺發炎", "My tonsils are inflamed"),
   ("痛到好犀利", "Very painful"),
   ("火辣辣咁痛", "Burning pain"),
   ("從琴日開始", "Since yesterday"),
   ("從今朝開始", "Since this morning"),
   ("一個禮拜喇", "For a week"),
   ("而家食緊藥", "Currently taking medication"),
   ("唔記得食藥", "Forgot to take medication"),
   ("有时候疼", "It hurts sometimes"),
   ("隐隐作痛", "Dull aching"),
   ("越来越疼", "Getting worse"),
   ("疼得厉害", "Very painful"),
   ("一个月了", "For a month"),
   ("很多年了", "For many years"),
   ("以前有过", "I had it before"),
   ("药物过敏", "Drug allergy"),
   ("食物过敏", "Food allergy"),
   ("正在吃药", "Currently taking medication"),
   ("按时吃药", "Taking medication on time"),
   ("忘记吃药", "Forgot to take medication"),
   ("做过手术", "Had surgery"),
   ("我不知道", "I don\x27t know"),
   ("我唔舒服", "I don\x27t feel well"),
   ("呼吸困難", "Difficulty breathing"),
   ("過敏反應", "Allergic reaction"),
   ("隱隱作痛", "Dull aching"),
   ("越嚟越痛", "Getting worse"),
   ("冇咁痛喇", "Not as painful now"),
   ("一個月喇", "For a month"),
   ("啱啱開始", "Just started"),
   ("好多年喇", "For many years"),
   ("以前有過", "I had it before"),
   ("藥物過敏", "Drug allergy"),
   ("食物過敏", "Food allergy"),
   ("準時食藥", "Taking medication on time"),
   ("做過手術", "Had surgery"),
   ("身體檢查", "Physical examination"),
   ("儿歌喉痛", "My throat hurts"),
   ("非常疼", "It hurts very much"),
   ("有点疼", "It hurts a little"),
   ("一直疼", "It hurts all the time"),
   ("两天了", "For two days"),
   ("几天了", "For a few days"),
   ("很久了", "For a long time"),
   ("刚开始", "Just started"),
   ("上个月", "Last month"),
   ("半个月", "Half a month"),
   ("两个月", "Two months"),
   ("第一次", "First time"),
   ("家族史", "Family history"),
   ("高血压", "High blood pressure"),
   ("糖尿病", "Diabetes"),
   ("心脏病", "Heart disease"),
   ("过敏史", "Allergy history"),
   ("怀孕了", "I am pregnant"),
   ("生理期", "Menstrual period"),
   ("没吃药", "Not taking medication"),
   ("住过院", "Was hospitalized"),
   ("我好好", "I am fine"),
   ("我唔好", "I am not well"),
   ("我病咗", "I am sick"),
   ("呢度痛", "It hurts here"),
   ("嗰度痛", "It hurts there"),
   ("偏頭痛", "I have a migraine"),
   ("肚仔痛", "My stomach hurts"),
   ("喉嚨痛", "My throat hurts"),
   ("背脊痛", "My back hurts"),
   ("膊頭痛", "My shoulder hurts"),
   ("胸口痛", "My chest hurts"),
   ("心口痛", "My chest hurts"),
   ("心臟痛", "My heart hurts"),
   ("膝頭痛", "My knee hurts"),
   ("腳板痛", "My foot hurts"),
   ("手臂痛", "My arm hurts"),
   ("耳仔痛", "My ear hurts"),
   ("牙齒痛", "I have a toothache"),
   ("流鼻水", "I have a runny nose"),
   ("打乞嗤", "I am sneezing"),
   ("感冒咗", "I have a cold"),
   ("冇氣力", "I have no energy"),
   ("瞓唔著", "Can\x27t sleep"),
   ("瞓唔好", "Can\x27t sleep well"),
   ("冇胃口", "No appetite"),
   ("食唔落", "Can\x27t eat"),
   ("冇食慾", "No appetite"),
   ("非常痛", "It hurts very much"),
   ("有啲痛", "It hurts a little"),
   ("一直痛", "It hurts all the time"),
   ("有時痛", "It hurts sometimes"),
   ("兩日喇", "For two days"),
   ("幾日喇", "For a few days"),
   ("好耐喇", "For a long time"),
   ("上星期", "Last week"),
   ("上個月", "Last month"),
   ("一星期", "One week"),
   ("兩星期", "Two weeks"),
   ("半個月", "Half a month"),
   ("兩個月", "Two months"),
   ("高血壓", "High blood pressure"),
   ("心臟病", "Heart disease"),
   ("過敏史", "Allergy history"),
   ("懷孕咗", "I am pregnant"),
   ("冇食藥", "Not taking medication"),
   ("住過院", "Was hospitalized"),
   ("照X光", "X-ray"),
   ("我唔知", "I don\x27t know"),
   ("唔舒服", "Not feeling well"),
   ("好辛苦", "Very uncomfortable"),
   ("红肿", "Red and swollen"),
   ("肿胀", "Swelling"),
   ("很疼", "It hurts a lot"),
   ("剧痛", "Severe pain"),
   ("隐痛", "Dull pain"),
   ("刺痛", "Sharp pain"),
   ("闷痛", "Dull pain"),
   ("胀痛", "Bloating pain"),
   ("酸痛", "Aching pain"),
   ("麻木", "Numbness"),
   ("发麻", "Tingling"),
   ("僵硬", "Stiffness"),
   ("发紧", "Tightness"),
   ("昨天", "Yesterday"),
   ("今天", "Today"),
   ("上周", "Last week"),
   ("一周", "One week"),
   ("两周", "Two weeks"),
   ("三天", "Three days"),
   ("五天", "Five days"),
   ("十天", "Ten days"),
   ("遗传", "Hereditary"),
   ("哮喘", "Asthma"),
   ("怀孕", "Pregnant"),
   ("月经", "Menstruation"),
   ("吃药", "Taking medication"),
   ("手术", "Surgery"),
   ("住院", "Hospitalized"),
   ("体检", "Physical examination"),
   ("检查", "Examination"),
   ("化验", "Lab test"),
   ("拍片", "X-ray"),
   ("CT", "CT scan"),
   ("B超", "Ultrasound"),
   ("谢谢", "Thank you"),
   ("再见", "Goodbye"),
   ("是的", "Yes"),
   ("不是", "No"),
   ("頭痛", "I have a headache"),
   ("頭疼", "I have a headache"),
   ("肚痛", "My stomach hurts"),
   ("胃痛", "My stomach hurts"),
   ("腰痛", "My lower back hurts"),
   ("頸痛", "My neck hurts"),
   ("腳痛", "My leg hurts"),
   ("手痛", "My hand hurts"),
   ("眼痛", "My eyes hurt"),
   ("發燒", "I have a fever"),
   ("發熱", "I have a fever"),
   ("高燒", "I have a high fever"),
   ("低燒", "I have a low fever"),
   ("乾咳", "I have a dry cough"),
   ("想嘔", "I feel nauseous"),
   ("嘔吐", "I am vomiting"),
   ("肚瀉", "I have diarrhea"),
   ("腹瀉", "I have diarrhea"),
   ("頭暈", "I feel dizzy"),
   ("頭昏", "I feel dizzy"),
   ("好攰", "I am very tired"),
   ("冇力", "I feel weak"),
   ("氣促", "Shortness of breath"),
   ("過敏", "I am allergic"),
   ("痕癢", "It\x27s itchy"),
   ("紅腫", "Red and swollen"),
   ("腫脹", "Swelling"),
   ("好痛", "It hurts a lot"),
   ("劇痛", "Severe pain"),
   ("隱痛", "Dull pain"),
   ("悶痛", "Dull pain"),
   ("脹痛", "Bloating pain"),
   ("麻痺", "Numbness"),
   ("發麻", "Tingling"),
   ("發緊", "Tightness"),
   ("琴日", "Yesterday"),
   ("今日", "Today"),
   ("三日", "Three days"),
   ("五日", "Five days"),
   ("十日", "Ten days"),
   ("遺傳", "Hereditary"),
   ("懷孕", "Pregnant"),
   ("嚟M", "Menstruation"),
   ("食藥", "Taking medication"),
   ("手術", "Surgery"),
   ("檢查", "Examination"),
   ("化驗", "Lab test"),
   ("多謝", "Thank you"),
   ("再見", "Goodbye"),
   ("唔係", "No"),
   ("疼", "It hurts"),
   ("痛", "It hurts"),
   ("咳", "I am coughing"),
   ("暈", "I feel dizzy"),
   ("攰", "I am tired"),
   ("痕", "It\x27s itchy"),
   ("係", "Yes")
  ]

def chineseSortAcc4 : List (String × String) :=
  [
   ("好似針拮咁痛", "Like needle pricks"),
   ("一陣一陣咁痛", "Comes and goes"),
   ("我感覺唔好", "I don\x27t feel good"),
   ("扁桃腺發炎", "My tonsils are inflamed"),
   ("痛到好犀利", "Very painful"),
   ("火辣辣咁痛", "Burning pain"),
   ("從琴日開始", "Since yesterday"),
   ("從今朝開始", "Since this morning"),
   ("一個禮拜喇", "For a week"),
   ("而家食緊藥", "Currently taking medication"),
   ("唔記得食藥", "Forgot to take medication"),
   ("很多年了", "For many years"),
   ("以前有过", "I had it before"),
   ("药物过敏", "Drug allergy"),
   ("食物过敏", "Food allergy"),
   ("正在吃药", "Currently taking medication"),
   ("按时吃药", "Taking medication on time"),
   ("忘记吃药", "Forgot to take medication"),
   ("做过手术", "Had surgery"),
   ("我不知道", "I don\x27t know"),
   ("我唔舒服", "I don\x27t feel well"),
   ("呼吸困難", "Difficulty breathing"),
   ("過敏反應", "Allergic reaction"),
   ("隱隱作痛", "Dull aching"),
   ("越嚟越痛", "Getting worse"),
   ("冇咁痛喇", "Not as painful now"),
   ("一個月喇", "For a month"),
   ("啱啱開始", "Just started"),
   ("好多年喇", "For many years"),
   ("以前有過", "I had it before"),
   ("藥物過敏", "Drug allergy"),
   ("食物過敏", "Food allergy"),
   ("準時食藥", "Taking medication on time"),
   ("做過手術", "Had surgery"),
   ("身體檢查", "Physical examination"),
   ("儿歌喉痛", "My throat hurts"),
   ("上个月", "Last month"),
   ("半个月", "Half a month"),
   ("两个月", "Two months"),
   ("第一次", "First time"),
   ("家族史", "Family history"),
   ("高血压", "High blood pressure"),
   ("糖尿病", "Diabetes"),
   ("心脏病", "Heart disease"),
   ("过敏史", "Allergy history"),
   ("怀孕了", "I am pregnant"),
   ("生理期", "Menstrual period"),
   ("没吃药", "Not taking medication"),
   ("住过院", "Was hospitalized"),
   ("我好好", "I am fine"),
   ("我唔好", "I am not well"),
   ("我病咗", "I am sick"),
   ("呢度痛", "It hurts here"),
   ("嗰度痛", "It hurts there"),
   ("偏頭痛", "I have a migraine"),
   ("肚仔痛", "My stomach hurts"),
   ("喉嚨痛", "My throat hurts"),
   ("背脊痛", "My back hurts"),
   ("膊頭痛", "My shoulder hurts"),
   ("胸口痛", "My chest hurts"),
   ("心口痛", "My chest hurts"),
   ("心臟痛", "My heart hurts"),
   ("膝頭痛", "My knee hurts"),
   ("腳板痛", "My foot hurts"),
   ("手臂痛", "My arm hurts"),
   ("耳仔痛", "My ear hurts"),
   ("牙齒痛", "I have a toothache"),
   ("流鼻水", "I have a runny nose"),
   ("打乞嗤", "I am sneezing"),
   ("感冒咗", "I have a cold"),
   ("冇氣力", "I have no energy"),
   ("瞓唔著", "Can\x27t sleep"),
   ("瞓唔好", "Can\x27t sleep well"),
   ("冇胃口", "No appetite"),
   ("食唔落", "Can\x27t eat"),
   ("冇食慾", "No appetite"),
   ("非常痛", "It hurts very much"),
   ("有啲痛", "It hurts a little"),
   ("一直痛", "It hurts all the time"),
   ("有時痛", "It hurts sometimes"),
   ("兩日喇", "For two days"),
   ("幾日喇", "For a few days"),
   ("好耐喇", "For a long time"),
   ("上星期", "Last week"),
   ("上個月", "Last month"),
   ("一星期", "One week"),
   ("兩星期", "Two weeks"),
   ("半個月", "Half a month"),
   ("兩個月", "Two months"),
   ("高血壓", "High blood pressure"),
   ("心臟病", "Heart disease"),
   ("過敏史", "Allergy history"),
   ("懷孕咗", "I am pregnant"),
   ("冇食藥", "Not taking medication"),
   ("住過院", "Was hospitalized"),
   ("照X光", "X-ray"),
   ("我唔知", "I don\x27t know"),
   ("唔舒服", "Not feeling well"),
   ("好辛苦", "Very uncomfortable"),
   ("今天", "Today"),
   ("上周", "Last week"),
   ("一周", "One week"),
   ("两周", "Two weeks"),
   ("三天", "Three days"),
   ("五天", "Five days"),
   ("十天", "Ten days"),
   ("遗传", "Hereditary"),
   ("哮喘", "Asthma"),
   ("怀孕", "Pregnant"),
   ("月经", "Menstruation"),
   ("吃药", "Taking medication"),
   ("手术", "Surgery"),
   ("住院", "Hospitalized"),
   ("体检", "Physical examination"),
   ("检查", "Examination"),
   ("化验", "Lab test"),
   ("拍片", "X-ray"),
   ("CT", "CT scan"),
   ("B超", "Ultrasound"),
   ("谢谢", "Thank you"),
   ("再见", "Goodbye"),
   ("是的", "Yes"),
   ("不是", "No"),
   ("頭痛", "I have a headache"),
   ("頭疼", "I have a headache"),
   ("肚痛", "My stomach hurts"),
   ("胃痛", "My stomach hurts"),
   ("腰痛", "My lower back hurts"),
   ("頸痛", "My neck hurts"),
   ("腳痛", "My leg hurts"),
   ("手痛", "My hand hurts"),
   ("眼痛", "My eyes hurt"),
   ("發燒", "I have a fever"),
   ("發熱", "I have a fever"),
   ("高燒", "I have a high fever"),
   ("低燒", "I have a low fever"),
   ("乾咳", "I have a dry cough"),
   ("想嘔", "I feel nauseous"),
   ("嘔吐", "I am vomiting"),
   ("肚瀉", "I have diarrhea"),
   ("腹瀉", "I have diarrhea"),
   ("頭暈", "I feel dizzy"),
   ("頭昏", "I feel dizzy"),
   ("好攰", "I am very tired"),
   ("冇力", "I feel weak"),
   ("氣促", "Shortness of breath"),
   ("過敏", "I am allergic"),
   ("痕癢", "It\x27s itchy"),
   ("紅腫", "Red and swollen"),
   ("腫脹", "Swelling"),
   ("好痛", "It hurts a lot"),
   ("劇痛", "Severe pain"),
   ("隱痛", "Dull pain"),
   ("悶痛", "Dull pain"),
   ("脹痛", "Bloating pain"),
   ("麻痺", "Numbness"),
   ("發麻", "Tingling"),
   ("發緊", "Tightness"),
   ("琴日", "Yesterday"),
   ("今日", "Today"),
   ("三日", "Three days"),
   ("五日", "Five days"),
   ("十日", "Ten days"),
   ("遺傳", "Hereditary"),
   ("懷孕", "Pregnant"),
   ("嚟M", "Menstruation"),
   ("食藥", "Taking medication"),
   ("手術", "Surgery"),
   ("檢查", "Examination"),
   ("化驗", "Lab test"),
   ("多謝", "Thank you"),
   ("再見", "Goodbye"),
   ("唔係", "No"),
   ("咳", "I am coughing"),
   ("暈", "I feel dizzy"),
   ("攰", "I am tired"),
   ("痕", "It\x27s itchy"),
   ("係", "Yes")
  ]

def chineseSortAcc5 : List (String × String) :=
  [
   ("好似針拮咁痛", "Like needle pricks"),
   ("一陣一陣咁痛", "Comes and goes"),
   ("我感覺唔好", "I don\x27t feel good"),
   ("扁桃腺發炎", "My tonsils are inflamed"),
   ("痛到好犀利", "Very painful"),
   ("火辣辣咁痛", "Burning pain"),
   ("從琴日開始", "Since yesterday"),
   ("從今朝開始", "Since this morning"),
   ("一個禮拜喇", "For a week"),
   ("而家食緊藥", "Currently taking medication"),
   ("唔記得食藥", "Forgot to take medication"),
   ("我不知道", "I don\x27t know"),
   ("我唔舒服", "I don\x27t feel well"),
   ("呼吸困難", "Difficulty breathing"),
   ("過敏反應", "Allergic reaction"),
   ("隱隱作痛", "Dull aching"),
   ("越嚟越痛", "Getting worse"),
   ("冇咁痛喇", "Not as painful now"),
   ("一個月喇", "For a month"),
   ("啱啱開始", "Just started"),
   ("好多年喇", "For many years"),
   ("以前有過", "I had it before"),
   ("藥物過敏", "Drug allergy"),
   ("食物過敏", "Food allergy"),
   ("準時食藥", "Taking medication on time"),
   ("做過手術", "Had surgery"),
   ("身體檢查", "Physical examination"),
   ("儿歌喉痛", "My throat hurts"),
   ("我好好", "I am fine"),
   ("我唔好", "I am not well"),
   ("我病咗", "I am sick"),
   ("呢度痛", "It hurts here"),
   ("嗰度痛", "It hurts there"),
   ("偏頭痛", "I have a migraine"),
   ("肚仔痛", "My stomach hurts"),
   ("喉嚨痛", "My throat hurts"),
   ("背脊痛", "My back hurts"),
   ("膊頭痛", "My shoulder hurts"),
   ("胸口痛", "My chest hurts"),
   ("心口痛", "My chest hurts"),
   ("心臟痛", "My heart hurts"),
   ("膝頭痛", "My knee hurts"),
   ("腳板痛", "My foot hurts"),
   ("手臂痛", "My arm hurts"),
   ("耳仔痛", "My ear hurts"),
   ("牙齒痛", "I have a toothache"),
   ("流鼻水", "I have a runny nose"),
   ("打乞嗤", "I am sneezing"),
   ("感冒咗", "I have a cold"),
   ("冇氣力", "I have no energy"),
   ("瞓唔著", "Can\x27t sleep"),
   ("瞓唔好", "Can\x27t sleep well"),
   ("冇胃口", "No appetite"),
   ("食唔落", "Can\x27t eat"),
   ("冇食慾", "No appetite"),
   ("非常痛", "It hurts very much"),
   ("有啲痛", "It hurts a little"),
   ("一直痛", "It hurts all the time"),
   ("有時痛", "It hurts sometimes"),
   ("兩日喇", "For two days"),
   ("幾日喇", "For a few days"),
   ("好耐喇", "For a long time"),
   ("上星期", "Last week"),
   ("上個月", "Last month"),
   ("一星期", "One week"),
   ("兩星期", "Two weeks"),
   ("半個月", "Half a month"),
   ("兩個月", "Two months"),
   ("高血壓", "High blood pressure"),
   ("心臟病", "Heart disease"),
   ("過敏史", "Allergy history"),
   ("懷孕咗", "I am pregnant"),
   ("冇食藥", "Not taking medication"),
   ("住過院", "Was hospitalized"),
   ("照X光", "X-ray"),
   ("我唔知", "I don\x27t know"),
   ("唔舒服", "Not feeling well"),
   ("好辛苦", "Very uncomfortable"),
   ("化验", "Lab test"),
   ("拍片", "X-ray"),
   ("CT", "CT scan"),
   ("B超", "Ultrasound"),
   ("谢谢", "Thank you"),
   ("再见", "Goodbye"),
   ("是的", "Yes"),
   ("不是", "No"),
   ("頭痛", "I have a headache"),
   ("頭疼", "I have a headache"),
   ("肚痛", "My stomach hurts"),
   ("胃痛", "My stomach hurts"),
   ("腰痛", "My lower back hurts"),
   ("頸痛", "My neck hurts"),
   ("腳痛", "My leg hurts"),
   ("手痛", "My hand hurts"),
   ("眼痛", "My eyes hurt"),
   ("發燒", "I have a fever"),
   ("發熱", "I have a fever"),
   ("高燒", "I have a high fever"),
   ("低燒", "I have a low fever"),
   ("乾咳", "I have a dry cough"),
   ("想嘔", "I feel nauseous"),
   ("嘔吐", "I am vomiting"),
   ("肚瀉", "I have diarrhea"),
   ("腹瀉", "I have diarrhea"),
   ("頭暈", "I feel dizzy"),
   ("頭昏", "I feel dizzy"),
   ("好攰", "I am very tired"),
   ("冇力", "I feel weak"),
   ("氣促", "Shortness of breath"),
   ("過敏", "I am allergic"),
   ("痕癢", "It\x27s itchy"),
   ("紅腫", "Red and swollen"),
   ("腫脹", "Swelling"),
   ("好痛", "It hurts a lot"),
   ("劇痛", "Severe pain"),
   ("隱痛", "Dull pain"),
   ("悶痛", "Dull pain"),
   ("脹痛", "Bloating pain"),
   ("麻痺", "Numbness"),
   ("發麻", "Tingling"),
   ("發緊", "Tightness"),
   ("琴日", "Yesterday"),
   ("今日", "Today"),
   ("三日", "Three days"),
   ("五日", "Five days"),
   ("十日", "Ten days"),
   ("遺傳", "Hereditary"),
   ("懷孕", "Pregnant"),
   ("嚟M", "Menstruation"),
   ("食藥", "Taking medication"),
   ("手術", "Surgery"),
   ("檢查", "Examination"),
   ("化驗", "Lab test"),
   ("多謝", "Thank you"),
   ("再見", "Goodbye"),
   ("唔係", "No"),
   ("咳", "I am coughing"),
   ("暈", "I feel dizzy"),
   ("攰", "I am tired"),
   ("痕", "It\x27s itchy"),
   ("係", "Yes")
  ]

def chineseSortAcc6 : List (String × String) :=
  [
   ("好似針拮咁痛", "Like needle pricks"),
   ("一陣一陣咁痛", "Comes and goes"),
   ("痛到好犀利", "Very painful"),
   ("火辣辣咁痛", "Burning pain"),
   ("從琴日開始", "Since yesterday"),
   ("從今朝開始", "Since this morning"),
   ("一個禮拜喇", "For a week"),
   ("而家食緊藥", "Currently taking medication"),
   ("唔記得食藥", "Forgot to take medication"),
   ("呼吸困難", "Difficulty breathing"),
   ("過敏反應", "Allergic reaction"),
   ("隱隱作痛", "Dull aching"),
   ("越嚟越痛", "Getting worse"),
   ("冇咁痛喇", "Not as painful now"),
   ("一個月喇", "For a month"),
   ("啱啱開始", "Just started"),
   ("好多年喇", "For many years"),
   ("以前有過", "I had it before"),
   ("藥物過敏", "Drug allergy"),
   ("食物過敏", "Food allergy"),
   ("準時食藥", "Taking medication on time"),
   ("做過手術", "Had surgery"),
   ("身體檢查", "Physical examination"),
   ("儿歌喉痛", "My throat hurts"),
   ("耳仔痛", "My ear hurts"),
   ("牙齒痛", "I have a toothache"),
   ("流鼻水", "I have a runny nose"),
   ("打乞嗤", "I am sneezing"),
   ("感冒咗", "I have a cold"),
   ("冇氣力", "I have no energy"),
   ("瞓唔著", "Can\x27t sleep"),
   ("瞓唔好", "Can\x27t sleep well"),
   ("冇胃口", "No appetite"),
   ("食唔落", "Can\x27t eat"),
   ("冇食慾", "No appetite"),
   ("非常痛", "It hurts very much"),
   ("有啲痛", "It hurts a little"),
   ("一直痛", "It hurts all the time"),
   ("有時痛", "It hurts sometimes"),
   ("兩日喇", "For two days"),
   ("幾日喇", "For a few days"),
   ("好耐喇", "For a long time"),
   ("上星期", "Last week"),
   ("上個月", "Last month"),
   ("一星期", "One week"),
   ("兩星期", "Two weeks"),
   ("半個月", "Half a month"),
   ("兩個月", "Two months"),
   ("高血壓", "High blood pressure"),
   ("心臟病", "Heart disease"),
   ("過敏史", "Allergy history"),
   ("懷孕咗", "I am pregnant"),
   ("冇食藥", "Not taking medication"),
   ("住過院", "Was hospitalized"),
   ("照X光", "X-ray"),
   ("我唔知", "I don\x27t know"),
   ("唔舒服", "Not feeling well"),
   ("好辛苦", "Very uncomfortable"),
   ("發燒", "I have a fever"),
   ("發熱", "I have a fever"),
   ("高燒", "I have a high fever"),
   ("低燒", "I have a low fever"),
   ("乾咳", "I have a dry cough"),
   ("想嘔", "I feel nauseous"),
   ("嘔吐", "I am vomiting"),
   ("肚瀉", "I have diarrhea"),
   ("腹瀉", "I have diarrhea"),
   ("頭暈", "I feel dizzy"),
   ("頭昏", "I feel dizzy"),
   ("好攰", "I am very tired"),
   ("冇力", "I feel weak"),
   ("氣促", "Shortness of breath"),
   ("過敏", "I am allergic"),
   ("痕癢", "It\x27s itchy"),
   ("紅腫", "Red and swollen"),
   ("腫脹", "Swelling"),
   ("好痛", "It hurts a lot"),
   ("劇痛", "Severe pain"),
   ("隱痛", "Dull pain"),
   ("悶痛", "Dull pain"),
   ("脹痛", "Bloating pain"),
   ("麻痺", "Numbness"),
   ("發麻", "Tingling"),
   ("發緊", "Tightness"),
   ("琴日", "Yesterday"),
   ("今日", "Today"),
   ("三日", "Three days"),
   ("五日", "Five days"),
   ("十日", "Ten days"),
   ("遺傳", "Hereditary"),
   ("懷孕", "Pregnant"),
   ("嚟M", "Menstruation"),
   ("食藥", "Taking medication"),
   ("手術", "Surgery"),
   ("檢查", "Examination"),
   ("化驗", "Lab test"),
   ("多謝", "Thank you"),
   ("再見", "Goodbye"),
   ("唔係", "No"),
   ("咳", "I am coughing"),
   ("暈", "I feel dizzy"),
   ("攰", "I am tired"),
   ("痕", "It\x27s itchy"),
   ("係", "Yes")
  ]

def chineseSortAcc7 : List (String × String) :=
  [
   ("好似針拮咁痛", "Like needle pricks"),
   ("一陣一陣咁痛", "Comes and goes"),
   ("痛到好犀利", "Very painful"),
   ("火辣辣咁痛", "Burning pain"),
   ("從琴日開始", "Since yesterday"),
   ("從今朝開始", "Since this morning"),
   ("一個禮拜喇", "For a week"),
   ("而家食緊藥", "Currently taking medication"),
   ("唔記得食藥", "Forgot to take medication"),
   ("隱隱作痛", "Dull aching"),
   ("越嚟越痛", "Getting worse"),
   ("冇咁痛喇", "Not as painful now"),
   ("一個月喇", "For a month"),
   ("啱啱開始", "Just started"),
   ("好多年喇", "For many years"),
   ("以前有過", "I had it before"),
   ("藥物過敏", "Drug allergy"),
   ("食物過敏", "Food allergy"),
   ("準時食藥", "Taking medication on time"),
   ("做過手術", "Had surgery"),
   ("身體檢查", "Physical examination"),
   ("儿歌喉痛", "My throat hurts"),
   ("有啲痛", "It hurts a little"),
   ("一直痛", "It hurts all the time"),
   ("有時痛", "It hurts sometimes"),
   ("兩日喇", "For two days"),
   ("幾日喇", "For a few days"),
   ("好耐喇", "For a long time"),
   ("上星期", "Last week"),
   ("上個月", "Last month"),
   ("一星期", "One week"),
   ("兩星期", "Two weeks"),
   ("半個月", "Half a month"),
   ("兩個月", "Two months"),
   ("高血壓", "High blood pressure"),
   ("心臟病", "Heart disease"),
   ("過敏史", "Allergy history"),
   ("懷孕咗", "I am pregnant"),
   ("冇食藥", "Not taking medication"),
   ("住過院", "Was hospitalized"),
   ("照X光", "X-ray"),
   ("我唔知", "I don\x27t know"),
   ("唔舒服", "Not feeling well"),
   ("好辛苦", "Very uncomfortable"),
   ("劇痛", "Severe pain"),
   ("隱痛", "Dull pain"),
   ("悶痛", "Dull pain"),
   ("脹痛", "Bloating pain"),
   ("麻痺", "Numbness"),
   ("發麻", "Tingling"),
   ("發緊", "Tightness"),
   ("琴日", "Yesterday"),
   ("今日", "Today"),
   ("三日", "Three days"),
   ("五日", "Five days"),
   ("十日", "Ten days"),
   ("遺傳", "Hereditary"),
   ("懷孕", "Pregnant"),
   ("嚟M", "Menstruation"),
   ("食藥", "Taking medication"),
   ("手術", "Surgery"),
   ("檢查", "Examination"),
   ("化驗", "Lab test"),
   ("多謝", "Thank you"),
   ("再見", "Goodbye"),
   ("唔係", "No"),
   ("係", "Yes")
  ]

def chineseSortAcc8 : List (String × String) :=
  [
   ("而家食緊藥", "Currently taking medication"),
   ("唔記得食藥", "Forgot to take medication"),
   ("以前有過", "I had it before"),
   ("藥物過敏", "Drug allergy"),
   ("食物過敏", "Food allergy"),
   ("準時食藥", "Taking medication on time"),
   ("做過手術", "Had surgery"),
   ("身體檢查", "Physical examination"),
   ("儿歌喉痛", "My throat hurts"),
   ("高血壓", "High blood pressure"),
   ("心臟病", "Heart disease"),
   ("過敏史", "Allergy history"),
   ("懷孕咗", "I am pregnant"),
   ("冇食藥", "Not taking medication"),
   ("住過院", "Was hospitalized"),
   ("照X光", "X-ray"),
   ("我唔知", "I don\x27t know"),
   ("唔舒服", "Not feeling well"),
   ("好辛苦", "Very uncomfortable"),
   ("遺傳", "Hereditary"),
   ("懷孕", "Pregnant"),
   ("嚟M", "Menstruation"),
   ("食藥", "Taking medication"),
   ("手術", "Surgery"),
   ("檢查", "Examination"),
   ("化驗", "Lab test"),
   ("多謝", "Thank you"),
   ("再見", "Goodbye"),
   ("唔係", "No"),
   ("係", "Yes")
  ]


/-! ### The offline (demo-mode) branch of `/api/translate` -/

/-- `mockTranslations[targetLanguage]` (only reached with a validated language). -/
def mockTranslations (targetLanguage : String) : List (String × String) :=
  if targetLanguage = "mandarin" then mandarinPhrases else cantonesePhrases

/-- The partial-match loop over the entries `obj` of the English-keyed object,
sorted longest-first, testing the word-boundary regex and breaking at the
first hit. -/
def scanEnglish (obj : List (String × String)) (lowerText : String) :
    Option (String × String) :=
  (sortByLenDesc obj).find? (fun kv => wbTest kv.1 lowerText)

/-- The partial-match loop over the entries `obj` of `mockChineseToEnglish`,
sorted longest-first, testing `text.includes(phrase)` and breaking at the
first hit. -/
def scanChinese (obj : List (String × String)) (text : String) :
    Option (String × String) :=
  (sortByLenDesc obj).find? (fun kv => includes text kv.1)

/-- Doctor branch on the entries `obj` of the dialect's English-keyed object,
restricted to own properties: exact lookup of
`lowerText = text.toLowerCase().trim()`, then the word-boundary scan, then
the dialect-appropriate placeholder around the original text. The full JS
bracket read also walks the prototype chain; `doctorLookupJs` below models
that, and agrees with this function exactly when the looked-up key is not an
inherited `Object.prototype` name (`doctorLookupJs_eq`). -/
def doctorLookup (obj : List (String × String)) (text targetLanguage : String) : String :=
  match (obj.find? (fun p => p.1 == jsTrim (jsToLower text))).map Prod.snd with
  | some tr => tr
  | none =>
    match scanEnglish obj (jsTrim (jsToLower text)) with
    | some kv => kv.2
    | none =>
      if targetLanguage = "mandarin"
      then text ++ "（请提供更详细的翻译）"
      else text ++ "（請提供更詳細嘅翻譯）"

/-- Doctor branch of demo-mode `/api/translate` against
`mockTranslations[targetLanguage]` as a JS object. -/
def offlineDoctorTranslation (text targetLanguage : String) : String :=
  doctorLookup (objOfList (mockTranslations targetLanguage)) text targetLanguage

/-- Patient branch on the entries `obj` of the shared Chinese-keyed object,
restricted to own properties: exact lookup of the trimmed text, then the
containment scan over the raw text, then the quoting placeholder. The full
JS bracket read also walks the prototype chain; `patientLookupJs` below
models that, and agrees with this function exactly when the trimmed text is
not an inherited `Object.prototype` name (`patientLookupJs_eq`). -/
def patientLookup (obj : List (String × String)) (text : String) : String :=
  match (obj.find? (fun p => p.1 == jsTrim text)).map Prod.snd with
  | some tr => tr
  | none =>
    match scanChinese obj text with
    | some kv => kv.2
    | none => "\"" ++ text ++ "\" (Please provide proper English translation)"

/-- Patient branch of demo-mode `/api/translate` against the single shared
`mockChineseToEnglish` object. -/
def offlinePatientTranslation (text : String) : String :=
  patientLookup (objOfList mockChineseToEnglish) text

/-- `currentSpeaker === 'doctor' ? 'to_chinese' : 'to_english'`. -/
def translationDirection (currentSpeaker : String) : String :=
  if currentSpeaker = "doctor" then "to_chinese" else "to_english"

/-- The JSON body returned by the demo-mode branch of `/api/translate`. -/
structure DemoTranslateResponse where
  translation : String
  originalText : String
  targetLanguage : String
  translationDirection : String
  demoMode : Bool
deriving Repr, DecidableEq

/-- The demo-mode branch of `/api/translate` after validation. -/
def offlineTranslate (req : TranslateRequest) : DemoTranslateResponse :=
  { translation :=
      if translationDirection req.currentSpeaker = "to_chinese"
      then offlineDoctorTranslation req.text req.targetLanguage
      else offlinePatientTranslation req.text
  , originalText := req.text
  , targetLanguage := req.targetLanguage
  , translationDirection := translationDirection req.currentSpeaker
  , demoMode := true }

/-- The whole demo-mode `/api/translate` handler: validation, then the offline
translation (which cannot fail). -/
def handleTranslateDemo (req : TranslateRequest) :
    Except ErrResponse DemoTranslateResponse :=
  match validateTranslate req with
  | some e => .error e
  | none => .ok (offlineTranslate req)

/-- The values of a phrase table (as a JS object). -/
def tableValues (l : List (String × String)) : List String :=
  (objOfList l).map Prod.snd

/-! ### Full JS property-read semantics for the exact-match lookup

A JS bracket read `obj[k]` on a plain object literal does not stop at the own
properties: when `k` is absent it walks the prototype chain, so for `k` equal
to an `Object.prototype` member name (`constructor`, `toString`, …) it
returns the inherited member — a function (or, for `__proto__`, an object),
truthy but not a string. The source's `if (!translation)` guards then skip
both the partial-match scan and the placeholder for such keys. -/

/-- A JS value as seen by the demo-mode lookup: a string (an own phrase-table
entry, a scan hit, or a placeholder), an inherited `Object.prototype` member
(truthy, but a function or object rather than a string), or `undefined`. -/
inductive JsValue where
  | str (s : String)
  | inherited (name : String)
  | undefined
deriving Repr, DecidableEq

/-- JS truthiness of a looked-up value (`!translation` negated): `undefined`
and the empty string are falsy; inherited members and non-empty strings are
truthy. -/
def JsValue.truthy : JsValue → Bool
  | .str s => !(s == "")
  | .inherited _ => true
  | .undefined => false

/-- The own property names of `Object.prototype`: a bracket read with one of
these keys on a plain object literal yields the inherited member instead of
`undefined`. -/
def objectPrototypeKeys : List String :=
  ["constructor", "hasOwnProperty", "isPrototypeOf", "propertyIsEnumerable",
   "toLocaleString", "toString", "valueOf", "__proto__", "__defineGetter__",
   "__defineSetter__", "__lookupGetter__", "__lookupSetter__"]

/-- The full JS bracket read `obj[k]` over the object's own entries `obj`:
the own property when present, else the inherited `Object.prototype` member,
else `undefined`. -/
def bracketRead (obj : List (String × String)) (k : String) : JsValue :=
  match (obj.find? (fun p => p.1 == k)).map Prod.snd with
  | some tr => .str tr
  | none => if k ∈ objectPrototypeKeys then .inherited k else .undefined

/-- `if (!translation) { …word-boundary scan… }` of the doctor branch: a
truthy value is kept; a falsy one is replaced by the first scan hit, or left
unchanged when the scan misses. -/
def afterScan (obj : List (String × String)) (v : JsValue) (lowerText : String) : JsValue :=
  if v.truthy then v
  else
    match scanEnglish obj lowerText with
    | some kv => .str kv.2
    | none => v

/-- The final `if (!translation)` of the doctor branch: a falsy value becomes
the dialect-appropriate placeholder around the original text. -/
def orDoctorPlaceholder (v : JsValue) (text targetLanguage : String) : JsValue :=
  if v.truthy then v
  else .str (if targetLanguage = "mandarin"
             then text ++ "（请提供更详细的翻译）"
             else text ++ "（請提供更詳細嘅翻譯）")

/-- The doctor branch with full JS property-read semantics; `doctorLookup` is
its restriction to non-inherited keys (`doctorLookupJs_eq`). -/
def doctorLookupJs (obj : List (String × String)) (text targetLanguage : String) : JsValue :=
  orDoctorPlaceholder
    (afterScan obj (bracketRead obj (jsTrim (jsToLower text))) (jsTrim (jsToLower text)))
    text targetLanguage

/-- Doctor branch of demo-mode `/api/translate` with full JS semantics. -/
def doctorTranslationJs (text targetLanguage : String) : JsValue :=
  doctorLookupJs (objOfList (mockTranslations targetLanguage)) text targetLanguage

/-- `if (!translation) { …containment scan… }` of the patient branch. -/
def afterScanChinese (obj : List (String × String)) (v : JsValue) (text : String) : JsValue :=
  if v.truthy then v
  else
    match scanChinese obj text with
    | some kv => .str kv.2
    | none => v

/-- The final `if (!translation)` of the patient branch. -/
def orPatientPlaceholder (v : JsValue) (text : String) : JsValue :=
  if v.truthy then v
  else .str ("\"" ++ text ++ "\" (Please provide proper English translation)")

/-- The patient branch with full JS property-read semantics; `patientLookup`
is its restriction to non-inherited keys (`patientLookupJs_eq`). -/
def patientLookupJs (obj : List (String × String)) (text : String) : JsValue :=
  orPatientPlaceholder (afterScanChinese obj (bracketRead obj (jsTrim text)) text) text

/-- Patient branch of demo-mode `/api/translate` with full JS semantics. -/
def patientTranslationJs (text : String) : JsValue :=
  patientLookupJs (objOfList mockChineseToEnglish) text

/-- The `translation` value computed by the demo-mode branch of
`/api/translate`, with full JS property-read semantics. -/
def offlineTranslateJs (req : TranslateRequest) : JsValue :=
  if translationDirection req.currentSpeaker = "to_chinese"
  then doctorTranslationJs req.text req.targetLanguage
  else patientTranslationJs req.text

/-! ### Live-mode `/api/translate` error mapping -/

/-- An upstream (OpenAI) failure: its `code` property, if any, and whatever
internal detail the error object carries. -/
structure UpstreamErr where
  code : Option String
  internals : String
deriving Repr, DecidableEq

/-- The `catch` block of `/api/translate`. -/
def mapTranslateError (e : UpstreamErr) : ErrResponse :=
  if e.code = some "insufficient_quota" then
    ⟨429, "Translation service temporarily unavailable", "Please try again in a moment"⟩
  else if e.code = some "rate_limit_exceeded" then
    ⟨429, "Too many requests", "Please wait a moment before trying again"⟩
  else
    ⟨500, "Translation failed", "Unable to process translation request"⟩

/-! ### Live-mode `/api/audio`: voice-fallback cascade and error mapping -/

/-- One entry of `voiceConfigs[lang].voiceOptions` (`name: null` is the
"default voice for the language code" sentinel). -/
structure VoiceOption where
  name : Option String
  type : String
deriving Repr, DecidableEq

def mandarinVoiceOptions : List VoiceOption :=
  [⟨some "zh-CN-Neural2-A", "Neural2"⟩,
   ⟨some "zh-CN-Wavenet-A", "Wavenet"⟩,
   ⟨none, "Standard"⟩]

def cantoneseVoiceOptions : List VoiceOption :=
  [⟨some "zh-HK-Neural2-A", "Neural2"⟩,
   ⟨some "zh-HK-HiuMaan", "Premium"⟩,
   ⟨some "zh-HK-HiuGaai", "Standard"⟩,
   ⟨none, "Basic"⟩]

/-- `voiceConfigs[targetLanguage].voiceOptions` (only reached with a validated
language). -/
def voiceOptionsFor (targetLanguage : String) : List VoiceOption :=
  if targetLanguage = "mandarin" then mandarinVoiceOptions else cantoneseVoiceOptions

/-- A TTS-side failure: the gRPC-style numeric `code` property, if any. -/
structure TTSError where
  code : Option Nat
  message : String
deriving Repr, DecidableEq

/-- The error thrown when a synthesis response has no audio payload. -/
def noAudioErr : TTSError :=
  ⟨none, "No audio content received from TTS service"⟩

/-- `new Error('All voice options failed')`, thrown when `lastError` is null. -/
def allFailedErr : TTSError :=
  ⟨none, "All voice options failed"⟩

/-- The fallback loop over `config.voiceOptions`: each candidate is attempted
in order; a thrown error or a missing audio payload records `lastError` and
advances; the first non-empty payload wins and reports its voice option; when
the list is exhausted, `lastError || Error('All voice options failed')` is
thrown. The upstream TTS call is abstracted as `upstream`, returning either a
thrown error or a response whose `audioContent` may be absent. -/
def tryVoices (upstream : VoiceOption → Except TTSError (Option String)) :
    List VoiceOption → Option TTSError → Except TTSError (VoiceOption × String)
  | [], last =>
    .error (last.getD allFailedErr)
  | v :: vs, _ =>
    match upstream v with
    | .error e => tryVoices upstream vs (some e)
    | .ok none => tryVoices upstream vs (some noAudioErr)
    | .ok (some audio) => .ok (v, audio)

/-- Does this candidate fail (thrown error, or empty audio payload)? -/
def ttsFails (upstream : VoiceOption → Except TTSError (Option String))
    (v : VoiceOption) : Bool :=
  match upstream v with
  | .ok (some _) => false
  | _ => true

/-- The failure a candidate contributes to `lastError` (the thrown error, or
the no-audio-content error for an empty payload). -/
def ttsFailure (upstream : VoiceOption → Except TTSError (Option String))
    (v : VoiceOption) : TTSError :=
  match upstream v with
  | .error e => e
  | .ok none => noAudioErr
  | .ok (some _) => allFailedErr

/-- The `catch` block of `/api/audio` (gRPC codes 3, 7, 8). -/
def mapAudioError (e : TTSError) : ErrResponse :=
  if e.code = some 3 then
    ⟨400, "Invalid text for audio generation",
      "The text may contain unsupported characters or formatting"⟩
  else if e.code = some 7 then
    ⟨403, "Audio service not available", "Text-to-speech service access is not configured"⟩
  else if e.code = some 8 then
    ⟨429, "Audio service temporarily unavailable", "Please try again in a moment"⟩
  else
    ⟨500, "Audio generation failed", "Unable to convert text to speech"⟩

/-- The JSON body of a successful `/api/audio` response. -/
structure AudioOkResponse where
  audio : String
  contentType : String
  voiceType : String
  language : String
  duration : Nat
deriving Repr, DecidableEq

/-- The live-mode `/api/audio` handler after validation: run the cascade, and
on success report the winning voice profile; on failure map the surfaced
error. `Math.ceil(text.length / 8)` is the duration heuristic. -/
def audioLive (upstream : VoiceOption → Except TTSError (Option String))
    (req : AudioRequest) : Except ErrResponse AudioOkResponse :=
  match tryVoices upstream (voiceOptionsFor req.targetLanguage) none with
  | .ok (v, audio) =>
    .ok { audio := audio
        , contentType := "audio/mp3"
        , voiceType := v.type ++ " (" ++ req.targetLanguage ++ ")"
        , language := req.targetLanguage
        , duration := (req.text.length + 7) / 8 }
  | .error e => .error (mapAudioError e)

/-- A sample TTS behaviour for concrete runs of the cascade: the Neural2
voice throws a resource-exhaustion error, the Wavenet voice answers with an
empty payload, everything else synthesizes. -/
def sampleUpstream : VoiceOption → Except TTSError (Option String) :=
  fun v =>
    if v.name = some "zh-CN-Neural2-A" then .error ⟨some 8, "RESOURCE_EXHAUSTED"⟩
    else if v.name = some "zh-CN-Wavenet-A" then .ok none
    else .ok (some "QVVESU8=")

/-- A sample TTS behaviour where every candidate fails and the last failure is
a permission error. -/
def sampleUpstreamAllFail : VoiceOption → Except TTSError (Option String) :=
  fun v =>
    if v.name = none then .error ⟨some 7, "PERMISSION_DENIED"⟩
    else .ok none

/-! ### Helper lemmas -/

/-- The previous character seen from inside a search that has already consumed
`pre` after starting with previous character `prev`. -/
def prevChar (prev : Option Char) (pre : List Char) : Option Char :=
  match pre.getLast? with
  | some c => some c
  | none => prev

lemma prevChar_nil (prev : Option Char) : prevChar prev [] = prev := rfl

lemma prevChar_cons (prev : Option Char) (c : Char) (pre : List Char) :
    prevChar prev (c :: pre) = prevChar (some c) pre := by
  cases pre with
  | nil => rfl
  | cons d pre' =>
    simp only [prevChar, List.getLast?_cons_cons]
    cases h : (d :: pre').getLast? with
    | none => exact absurd (List.getLast?_eq_none_iff.mp h) (by simp)
    | some e => rfl

lemma ciStrip_eq_some : ∀ {p t rest : List Char}, ciStrip p t = some rest →
    ∃ mid, t = mid ++ rest ∧ mid.map Char.toLower = p.map Char.toLower := by
  intro p
  induction p with
  | nil =>
    intro t rest h
    exact ⟨[], by simpa [ciStrip] using h, rfl⟩
  | cons c p ih =>
    intro t rest h
    cases t with
    | nil => simp [ciStrip] at h
    | cons d t' =>
      simp only [ciStrip] at h
      split at h
      · next heq =>
        obtain ⟨mid, hmid, hlow⟩ := ih h
        refine ⟨d :: mid, by simp [hmid], ?_⟩
        simp only [List.map_cons, hlow]
        have : d.toLower = c.toLower := by
          have := of_decide_eq_true (by exact heq)
          exact this.symm
        rw [this]
      · exact absurd h (by simp)

lemma wbSearch_sound (p : List Char) (hp : p ≠ []) :
    ∀ (t : List Char) (prev : Option Char), wbSearch p prev t = true →
    ∃ pre mid suf, t = pre ++ mid ++ suf ∧
      mid.map Char.toLower = p.map Char.toLower ∧
      isWordOpt (prevChar prev pre) ≠ isWordOpt p.head? ∧
      isWordOpt p.getLast? ≠ isWordOpt suf.head? := by
  intro t
  induction t with
  | nil =>
    intro prev h
    simp only [wbSearch] at h
    refine ?_
    -- match at the empty position
    unfold wbMatchAt at h
    split at h
    · simp at h
    · next rest hstrip =>
      obtain ⟨mid, hmid, hlow⟩ := ciStrip_eq_some hstrip
      rw [Bool.and_eq_true, bne_iff_ne, bne_iff_ne] at h
      obtain ⟨h1, h2⟩ := h
      refine ⟨[], mid, rest, by simpa using hmid, hlow, ?_, ?_⟩
      · cases p with
        | nil => exact absurd rfl hp
        | cons c p' => simpa [prevChar] using h1
      · cases hgl : p.getLast? with
        | none => exact absurd (List.getLast?_eq_none_iff.mp hgl) hp
        | some c => rw [hgl] at h2; simpa using h2
  | cons d t' ih =>
    intro prev h
    simp only [wbSearch, Bool.or_eq_true] at h
    rcases h with h | h
    · -- match here
      unfold wbMatchAt at h
      split at h
      · simp at h
      · next rest hstrip =>
        obtain ⟨mid, hmid, hlow⟩ := ciStrip_eq_some hstrip
        rw [Bool.and_eq_true, bne_iff_ne, bne_iff_ne] at h
        obtain ⟨h1, h2⟩ := h
        refine ⟨[], mid, rest, by simpa using hmid, hlow, ?_, ?_⟩
        · cases p with
          | nil => exact absurd rfl hp
          | cons c p' => simpa [prevChar] using h1
        · cases hgl : p.getLast? with
          | none => exact absurd (List.getLast?_eq_none_iff.mp hgl) hp
          | some c => rw [hgl] at h2; simpa using h2
    · obtain ⟨pre, mid, suf, hsplit, hlow, h1, h2⟩ := ih (some d) h
      exact ⟨d :: pre, mid, suf, by simp [hsplit], hlow, by rwa [prevChar_cons], h2⟩

lemma mem_insertByLen {x a : String × String} : ∀ {l : List (String × String)},
    x ∈ insertByLen a l ↔ x = a ∨ x ∈ l := by
  intro l
  induction l with
  | nil => simp [insertByLen]
  | cons y ys ih =>
    simp only [insertByLen]
    split
    · simp only [List.mem_cons, ih]
      tauto
    · simp [List.mem_cons]

lemma mem_sortByLenDesc {x : String × String} : ∀ {l : List (String × String)},
    x ∈ sortByLenDesc l ↔ x ∈ l := by
  intro l
  induction l with
  | nil => simp [sortByLenDesc]
  | cons y ys ih =>
    simp only [sortByLenDesc, List.foldr_cons, List.mem_cons]
    rw [show List.foldr insertByLen [] ys = sortByLenDesc ys from rfl] at *
    rw [mem_insertByLen, ih]

lemma pairwise_insertByLen {a : String × String} :
    ∀ {l : List (String × String)},
    l.Pairwise (fun u v => v.1.length ≤ u.1.length) →
    (insertByLen a l).Pairwise (fun u v => v.1.length ≤ u.1.length) := by
  intro l
  induction l with
  | nil => simp [insertByLen]
  | cons y ys ih =>
    intro h
    rw [List.pairwise_cons] at h
    obtain ⟨hy, hys⟩ := h
    simp only [insertByLen]
    split
    · next hlt =>
      rw [List.pairwise_cons]
      refine ⟨?_, ih hys⟩
      intro b hb
      rw [mem_insertByLen] at hb
      rcases hb with rfl | hb
      · omega
      · exact hy b hb
    · next hge =>
      rw [List.pairwise_cons]
      refine ⟨?_, by rw [List.pairwise_cons]; exact ⟨hy, hys⟩⟩
      intro b hb
      rcases List.mem_cons.mp hb with rfl | hb
      · omega
      · have := hy b hb
        omega

lemma pairwise_sortByLenDesc : ∀ (l : List (String × String)),
    (sortByLenDesc l).Pairwise (fun u v => v.1.length ≤ u.1.length) := by
  intro l
  induction l with
  | nil => simp [sortByLenDesc]
  | cons y ys ih =>
    simpa only [sortByLenDesc, List.foldr_cons] using pairwise_insertByLen ih

lemma find?_sorted_len_max {p : (String × String) → Bool} :
    ∀ {l : List (String × String)},
    l.Pairwise (fun u v => v.1.length ≤ u.1.length) →
    ∀ {x}, l.find? p = some x → ∀ y ∈ l, p y = true → y.1.length ≤ x.1.length := by
  intro l
  induction l with
  | nil => intro _ x h; simp [List.find?] at h
  | cons z t ih =>
    intro hpw x hfind y hy hpy
    rw [List.pairwise_cons] at hpw
    obtain ⟨hz, ht⟩ := hpw
    by_cases hpz : p z = true
    · rw [List.find?_cons_of_pos _ hpz] at hfind
      injection hfind with hxz
      subst hxz
      rcases List.mem_cons.mp hy with rfl | hy
      · omega
      · exact hz y hy
    · rw [List.find?_cons_of_neg _ (by simpa using hpz)] at hfind
      rcases List.mem_cons.mp hy with rfl | hy
      · exact absurd hpy hpz
      · exact ih ht hfind y hy hpy


lemma doctorLookupJs_eq (obj : List (String × String)) (text lang : String)
    (hk : jsTrim (jsToLower text) ∉ objectPrototypeKeys)
    (hvals : ∀ p ∈ obj, ¬(p.2 = "")) :
    doctorLookupJs obj text lang = .str (doctorLookup obj text lang) := by
  unfold doctorLookupJs doctorLookup bracketRead
  cases hf : obj.find? (fun p => p.1 == jsTrim (jsToLower text)) with
  | some p =>
    have hp : (JsValue.str p.2).truthy = true := by
      have := hvals p (List.mem_of_find?_eq_some hf)
      unfold JsValue.truthy
      simpa using this
    simp only [Option.map_some']
    unfold afterScan orDoctorPlaceholder
    rw [if_pos hp, if_pos hp]
  | none =>
    simp only [Option.map_none']
    rw [if_neg hk]
    unfold afterScan
    rw [if_neg (by decide : ¬(JsValue.undefined.truthy = true))]
    cases hsc : scanEnglish obj (jsTrim (jsToLower text)) with
    | some kv =>
      have hkv : (JsValue.str kv.2).truthy = true := by
        have hm : kv ∈ obj := by
          unfold scanEnglish at hsc
          exact mem_sortByLenDesc.mp (List.mem_of_find?_eq_some hsc)
        have := hvals kv hm
        unfold JsValue.truthy
        simpa using this
      unfold orDoctorPlaceholder
      rw [if_pos hkv]
    | none =>
      unfold orDoctorPlaceholder
      rw [if_neg (by decide : ¬(JsValue.undefined.truthy = true))]

lemma patientLookupJs_eq (obj : List (String × String)) (text : String)
    (hk : jsTrim text ∉ objectPrototypeKeys)
    (hvals : ∀ p ∈ obj, ¬(p.2 = "")) :
    patientLookupJs obj text = .str (patientLookup obj text) := by
  unfold patientLookupJs patientLookup bracketRead
  cases hf : obj.find? (fun p => p.1 == jsTrim text) with
  | some p =>
    have hp : (JsValue.str p.2).truthy = true := by
      have := hvals p (List.mem_of_find?_eq_some hf)
      unfold JsValue.truthy
      simpa using this
    simp only [Option.map_some']
    unfold afterScanChinese orPatientPlaceholder
    rw [if_pos hp, if_pos hp]
  | none =>
    simp only [Option.map_none']
    rw [if_neg hk]
    unfold afterScanChinese
    rw [if_neg (by decide : ¬(JsValue.undefined.truthy = true))]
    cases hsc : scanChinese obj text with
    | some kv =>
      have hkv : (JsValue.str kv.2).truthy = true := by
        have hm : kv ∈ obj := by
          unfold scanChinese at hsc
          exact mem_sortByLenDesc.mp (List.mem_of_find?_eq_some hsc)
        have := hvals kv hm
        unfold JsValue.truthy
        simpa using this
      unfold orPatientPlaceholder
      rw [if_pos hkv]
    | none =>
      unfold orPatientPlaceholder
      rw [if_neg (by decide : ¬(JsValue.undefined.truthy = true))]

lemma doctorLookupJs_miss (obj : List (String × String)) (text lang : String)
    (hk : jsTrim (jsToLower text) ∉ objectPrototypeKeys)
    (hexact : (obj.find? (fun p => p.1 == jsTrim (jsToLower text))).map Prod.snd = none)
    (hscan : scanEnglish obj (jsTrim (jsToLower text)) = none) :
    doctorLookupJs obj text lang =
      .str (if lang = "mandarin"
            then text ++ "（请提供更详细的翻译）"
            else text ++ "（請提供更詳細嘅翻譯）") := by
  unfold doctorLookupJs bracketRead
  rw [hexact, if_neg hk]
  unfold afterScan
  rw [if_neg (by decide : ¬(JsValue.undefined.truthy = true)), hscan]
  unfold orDoctorPlaceholder
  rw [if_neg (by decide : ¬(JsValue.undefined.truthy = true))]

lemma mandarinPhrases_values_nonempty :
    ∀ p ∈ objOfList mandarinPhrases, ¬(p.2 = "") := by decide

lemma cantonesePhrases_values_nonempty :
    ∀ p ∈ objOfList cantonesePhrases, ¬(p.2 = "") := by decide

lemma mockTranslations_values_nonempty (lang : String) :
    ∀ p ∈ objOfList (mockTranslations lang), ¬(p.2 = "") := by
  unfold mockTranslations
  split_ifs
  · exact mandarinPhrases_values_nonempty
  · exact cantonesePhrases_values_nonempty

lemma tryVoices_first_success
    (upstream : VoiceOption → Except TTSError (Option String)) :
    ∀ (pre : List VoiceOption) (v : VoiceOption) (post : List VoiceOption)
      (a : String) (last : Option TTSError),
      (∀ w ∈ pre, ttsFails upstream w = true) → upstream v = .ok (some a) →
      tryVoices upstream (pre ++ v :: post) last = .ok (v, a) := by
  intro pre
  induction pre with
  | nil =>
    intro v post a last _ hv
    simp only [List.nil_append, tryVoices, hv]
  | cons w pre' ih =>
    intro v post a last hfail hv
    have hw := hfail w (List.mem_cons_self w pre')
    have hrest : ∀ u ∈ pre', ttsFails upstream u = true :=
      fun u hu => hfail u (List.mem_cons_of_mem w hu)
    simp only [List.cons_append, tryVoices]
    unfold ttsFails at hw
    cases hup : upstream w with
    | error e => simp only [hup]; exact ih v post a (some e) hrest hv
    | ok o =>
      cases o with
      | none => simp only [hup]; exact ih v post a (some noAudioErr) hrest hv
      | some audio => rw [hup] at hw; simp at hw

lemma tryVoices_all_fail
    (upstream : VoiceOption → Except TTSError (Option String)) :
    ∀ (l : List VoiceOption) (v : VoiceOption) (last : Option TTSError),
      (∀ w ∈ l, ttsFails upstream w = true) → ttsFails upstream v = true →
      tryVoices upstream (l ++ [v]) last = .error (ttsFailure upstream v) := by
  intro l
  induction l with
  | nil =>
    intro v last _ hv
    unfold ttsFails at hv
    simp only [List.nil_append, tryVoices]
    cases hup : upstream v with
    | error e => simp [hup, tryVoices, ttsFailure, Option.getD]
    | ok o =>
      cases o with
      | none => simp [hup, tryVoices, ttsFailure, Option.getD]
      | some a => rw [hup] at hv; simp at hv
  | cons w l' ih =>
    intro v last hfail hv
    have hw := hfail w (List.mem_cons_self w l')
    have hrest : ∀ u ∈ l', ttsFails upstream u = true :=
      fun u hu => hfail u (List.mem_cons_of_mem w hu)
    simp only [List.cons_append, tryVoices]
    unfold ttsFails at hw
    cases hup : upstream w with
    | error e => simp only [hup]; exact ih v (some e) hrest hv
    | ok o =>
      cases o with
      | none => simp only [hup]; exact ih v (some noAudioErr) hrest hv
      | some audio => rw [hup] at hw; simp at hw

lemma prevChar_none (pre : List Char) : prevChar none pre = pre.getLast? := by
  unfold prevChar
  cases pre.getLast? <;> rfl

lemma offlineTranslate_translation (req : TranslateRequest) :
    (offlineTranslate req).translation =
      if translationDirection req.currentSpeaker = "to_chinese"
      then offlineDoctorTranslation req.text req.targetLanguage
      else offlinePatientTranslation req.text := rfl

lemma offlineTranslate_nondoctor (text lang spk : String) (h : ¬(spk = "doctor")) :
    offlineTranslate ⟨text, lang, spk⟩ =
      { translation := offlinePatientTranslation text, originalText := text,
        targetLanguage := lang, translationDirection := "to_english",
        demoMode := true } := by
  unfold offlineTranslate translationDirection
  rw [if_neg h, if_neg (by decide : ¬(("to_english" : String) = "to_chinese"))]

lemma doctorLookup_exact (obj : List (String × String)) (text lang tr : String)
    (hob : (obj.find? (fun p => p.1 == jsTrim (jsToLower text))).map Prod.snd = some tr) :
    doctorLookup obj text lang = tr := by
  unfold doctorLookup
  rw [hob]

lemma doctorLookup_scan (obj : List (String × String)) (text lang : String)
    (kv : String × String)
    (hob : (obj.find? (fun p => p.1 == jsTrim (jsToLower text))).map Prod.snd = none)
    (hsc : scanEnglish obj (jsTrim (jsToLower text)) = some kv) :
    doctorLookup obj text lang = kv.2 := by
  unfold doctorLookup
  rw [hob, hsc]

lemma doctorLookup_miss (obj : List (String × String)) (text lang : String)
    (hob : (obj.find? (fun p => p.1 == jsTrim (jsToLower text))).map Prod.snd = none)
    (hsc : scanEnglish obj (jsTrim (jsToLower text)) = none) :
    doctorLookup obj text lang =
      (if lang = "mandarin"
       then text ++ "（请提供更详细的翻译）"
       else text ++ "（請提供更詳細嘅翻譯）") := by
  unfold doctorLookup
  rw [hob, hsc]

lemma patientLookup_exact (obj : List (String × String)) (text tr : String)
    (hob : (obj.find? (fun p => p.1 == jsTrim text)).map Prod.snd = some tr) :
    patientLookup obj text = tr := by
  unfold patientLookup
  rw [hob]

lemma patientLookup_scan (obj : List (String × String)) (text : String)
    (kv : String × String)
    (hob : (obj.find? (fun p => p.1 == jsTrim text)).map Prod.snd = none)
    (hsc : scanChinese obj text = some kv) :
    patientLookup obj text = kv.2 := by
  unfold patientLookup
  rw [hob, hsc]

lemma patientLookup_miss (obj : List (String × String)) (text : String)
    (hob : (obj.find? (fun p => p.1 == jsTrim text)).map Prod.snd = none)
    (hsc : scanChinese obj text = none) :
    patientLookup obj text =
      "\"" ++ text ++ "\" (Please provide proper English translation)" := by
  unfold patientLookup
  rw [hob, hsc]

lemma doctorLookup_shape (obj : List (String × String)) (text lang : String) :
    doctorLookup obj text lang ∈ obj.map Prod.snd ∨
    doctorLookup obj text lang = text ++ "（请提供更详细的翻译）" ∨
    doctorLookup obj text lang = text ++ "（請提供更詳細嘅翻譯）" := by
  cases hf : obj.find? (fun p => p.1 == jsTrim (jsToLower text)) with
  | some p =>
    left
    rw [doctorLookup_exact obj text lang p.2 (by rw [hf]; rfl)]
    exact List.mem_map_of_mem Prod.snd (List.mem_of_find?_eq_some hf)
  | none =>
    cases hsc : scanEnglish obj (jsTrim (jsToLower text)) with
    | some kv =>
      left
      rw [doctorLookup_scan obj text lang kv (by rw [hf]; rfl) hsc]
      unfold scanEnglish at hsc
      exact List.mem_map_of_mem Prod.snd (mem_sortByLenDesc.mp (List.mem_of_find?_eq_some hsc))
    | none =>
      rw [doctorLookup_miss obj text lang (by rw [hf]; rfl) hsc]
      by_cases hl : lang = "mandarin"
      · right; left; rw [if_pos hl]
      · right; right; rw [if_neg hl]

lemma patientLookup_shape (obj : List (String × String)) (text : String) :
    patientLookup obj text ∈ obj.map Prod.snd ∨
    patientLookup obj text =
      "\"" ++ text ++ "\" (Please provide proper English translation)" := by
  cases hf : obj.find? (fun p => p.1 == jsTrim text) with
  | some p =>
    left
    rw [patientLookup_exact obj text p.2 (by rw [hf]; rfl)]
    exact List.mem_map_of_mem Prod.snd (List.mem_of_find?_eq_some hf)
  | none =>
    cases hsc : scanChinese obj text with
    | some kv =>
      left
      rw [patientLookup_scan obj text kv (by rw [hf]; rfl) hsc]
      unfold scanChinese at hsc
      exact List.mem_map_of_mem Prod.snd (mem_sortByLenDesc.mp (List.mem_of_find?_eq_some hsc))
    | none =>
      right
      exact patientLookup_miss obj text (by rw [hf]; rfl) hsc

set_option maxRecDepth 4000 in
lemma mockChinese_segs : mockChineseToEnglish = chineseSeg1 ++ (chineseSeg2 ++ (chineseSeg3 ++ (chineseSeg4 ++ (chineseSeg5 ++ (chineseSeg6 ++ (chineseSeg7 ++ (chineseSeg8 ++ (chineseSeg9)))))))) := by rfl

set_option maxRecDepth 4000 in
lemma chineseObjStep1 : List.foldl objAssign ([] : List (String × String)) chineseSeg1 = chineseObjAcc1 := by decide

set_option maxRecDepth 4000 in
lemma chineseObjStep2 : List.foldl objAssign chineseObjAcc1 chineseSeg2 = chineseObjAcc2 := by decide

set_option maxRecDepth 4000 in
lemma chineseObjStep3 : List.foldl objAssign chineseObjAcc2 chineseSeg3 = chineseObjAcc3 := by decide

set_option maxRecDepth 4000 in
lemma chineseObjStep4 : List.foldl objAssign chineseObjAcc3 chineseSeg4 = chineseObjAcc4 := by decide

set_option maxRecDepth 4000 in
lemma chineseObjStep5 : List.foldl objAssign chineseObjAcc4 chineseSeg5 = chineseObjAcc5 := by decide

set_option maxRecDepth 4000 in
lemma chineseObjStep6 : List.foldl objAssign chineseObjAcc5 chineseSeg6 = chineseObjAcc6 := by decide

set_option maxRecDepth 4000 in
lemma chineseObjStep7 : List.foldl objAssign chineseObjAcc6 chineseSeg7 = chineseObjAcc7 := by decide

set_option maxRecDepth 4000 in
lemma chineseObjStep8 : List.foldl objAssign chineseObjAcc7 chineseSeg8 = chineseObjAcc8 := by decide

set_option maxRecDepth 4000 in
lemma chineseObjStep9 : List.foldl objAssign chineseObjAcc8 chineseSeg9 = chineseEntries := by decide

lemma objOfList_chinese : objOfList mockChineseToEnglish = chineseEntries := by
  unfold objOfList
  rw [mockChinese_segs]
  rw [List.foldl_append]
  rw [List.foldl_append]
  rw [List.foldl_append]
  rw [List.foldl_append]
  rw [List.foldl_append]
  rw [List.foldl_append]
  rw [List.foldl_append]
  rw [List.foldl_append]
  rw [chineseObjStep1, chineseObjStep2, chineseObjStep3, chineseObjStep4, chineseObjStep5, chineseObjStep6, chineseObjStep7, chineseObjStep8, chineseObjStep9]

set_option maxRecDepth 4000 in
lemma chineseEntries_segs : chineseEntries = chineseSortSeg1 ++ (chineseSortSeg2 ++ (chineseSortSeg3 ++ (chineseSortSeg4 ++ (chineseSortSeg5 ++ (chineseSortSeg6 ++ (chineseSortSeg7 ++ (chineseSortSeg8))))))) := by rfl

set_option maxRecDepth 4000 in
lemma chineseSortStep8 : List.foldr insertByLen ([] : List (String × String)) chineseSortSeg8 = chineseSortAcc8 := by decide

set_option maxRecDepth 4000 in
lemma chineseSortStep7 : List.foldr insertByLen chineseSortAcc8 chineseSortSeg7 = chineseSortAcc7 := by decide

set_option maxRecDepth 4000 in
lemma chineseSortStep6 : List.foldr insertByLen chineseSortAcc7 chineseSortSeg6 = chineseSortAcc6 := by decide

set_option maxRecDepth 4000 in
lemma chineseSortStep5 : List.foldr insertByLen chineseSortAcc6 chineseSortSeg5 = chineseSortAcc5 := by decide

set_option maxRecDepth 4000 in
lemma chineseSortStep4 : List.foldr insertByLen chineseSortAcc5 chineseSortSeg4 = chineseSortAcc4 := by decide

set_option maxRecDepth 4000 in
lemma chineseSortStep3 : List.foldr insertByLen chineseSortAcc4 chineseSortSeg3 = chineseSortAcc3 := by decide

set_option maxRecDepth 4000 in
lemma chineseSortStep2 : List.foldr insertByLen chineseSortAcc3 chineseSortSeg2 = chineseSortAcc2 := by decide

set_option maxRecDepth 4000 in
lemma chineseSortStep1 : List.foldr insertByLen chineseSortAcc2 chineseSortSeg1 = chineseSorted := by decide

lemma sortByLenDesc_chinese : sortByLenDesc chineseEntries = chineseSorted := by
  unfold sortByLenDesc
  rw [chineseEntries_segs]
  rw [List.foldr_append]
  rw [List.foldr_append]
  rw [List.foldr_append]
  rw [List.foldr_append]
  rw [List.foldr_append]
  rw [List.foldr_append]
  rw [List.foldr_append]
  rw [chineseSortStep8, chineseSortStep7, chineseSortStep6, chineseSortStep5, chineseSortStep4, chineseSortStep3, chineseSortStep2, chineseSortStep1]

lemma offlinePatientTranslation_eq (text : String) :
    offlinePatientTranslation text = patientLookup chineseEntries text := by
  unfold offlinePatientTranslation
  rw [objOfList_chinese]

lemma scanChinese_chinese (text : String) :
    scanChinese chineseEntries text =
      chineseSorted.find? (fun kv => includes text kv.1) := by
  unfold scanChinese
  rw [sortByLenDesc_chinese]

lemma patientTranslationJs_eq_lookup (text : String) :
    patientTranslationJs text = patientLookupJs chineseEntries text := by
  unfold patientTranslationJs
  rw [objOfList_chinese]

set_option maxRecDepth 4000 in
lemma mockChinese_values_nonempty :
    ∀ p ∈ objOfList mockChineseToEnglish, ¬(p.2 = "") := by
  rw [objOfList_chinese]
  decide

/-! ### Claim theorems -/

/-- C1 (amended): `/api/translate` validation accepts a request exactly when
the text is non-blank, at most 2000 characters, and the target language is a
recognized enum value; every rejection is a 400 response. `currentSpeaker` is
not validated at all — an unrecognized speaker value is processed (as the
patient direction), not rejected. -/
theorem c1_validation_amended (req : TranslateRequest) :
    (validateTranslate req = none ↔
      ((jsTrim req.text).length ≠ 0 ∧ req.text.length ≤ 2000 ∧
        (req.targetLanguage = "mandarin" ∨ req.targetLanguage = "cantonese"))) ∧
    (∀ e : ErrResponse, validateTranslate req = some e → e.status = 400) := by
  constructor
  · unfold validateTranslate
    split_ifs with h1 h2 h3
    · simp [h1]
    · constructor
      · intro hcontra
        exact absurd hcontra (by simp)
      · intro ⟨_, hle, _⟩
        omega
    · simp [h1, h3]
      omega
    · simp [h3]
  · intro e he
    unfold validateTranslate at he
    split_ifs at he <;>
      simp only [Option.some.injEq] at he <;>
      rw [← he] <;> rfl

/-- Witness for C1 (amended): a blank-language request is rejected with a 400
status, and a request with the unrecognized speaker value `nurse` passes
validation. -/
theorem c1_validation_amended_witness :
    validateTranslate ⟨"hello", "klingon", "doctor"⟩ = some invalidLanguageErr ∧
    invalidLanguageErr.status = 400 ∧
    validateTranslate ⟨"hello", "mandarin", "nurse"⟩ = none :=
  ⟨by decide,
   (c1_validation_amended ⟨"hello", "klingon", "doctor"⟩).2 invalidLanguageErr (by decide),
   (c1_validation_amended ⟨"hello", "mandarin", "nurse"⟩).1.mpr (by decide)⟩

set_option maxRecDepth 4000 in
/-- C2 counterexample: the valid request (constructor, mandarin, patient) is
looked up verbatim, misses every own table key, and the JS bracket read
returns the inherited `Object.prototype.constructor` — truthy, so both the
containment scan and the placeholder are skipped, and the computed
translation is not a string at all, hence neither a phrase-table value nor a
placeholder form. -/
theorem c2_constructor_not_translated :
    validateTranslate ⟨"constructor", "mandarin", "patient"⟩ = none ∧
    offlineTranslateJs ⟨"constructor", "mandarin", "patient"⟩ =
      .inherited "constructor" ∧
    (∀ s : String,
      offlineTranslateJs ⟨"constructor", "mandarin", "patient"⟩ ≠ .str s) := by
  have hjs : offlineTranslateJs ⟨"constructor", "mandarin", "patient"⟩ =
      patientLookupJs chineseEntries "constructor" := by
    unfold offlineTranslateJs
    rw [if_neg (by decide : ¬(translationDirection "patient" = "to_chinese"))]
    exact patientTranslationJs_eq_lookup "constructor"
  have h2 : patientLookupJs chineseEntries "constructor" =
      .inherited "constructor" := by decide
  refine ⟨by decide, by rw [hjs, h2], ?_⟩
  intro s hs
  rw [hjs, h2] at hs
  exact JsValue.noConfusion hs

/-- C2 (amended): for every request that passes validation and whose lookup
key — the lower-cased trimmed text for the doctor direction, the trimmed text
for the patient direction — is not an inherited `Object.prototype` property
name, the demo-mode translate handler returns a success response whose
translation agrees with the full JS property-read semantics and is either a
phrase-table value (of the dialect's English-keyed object or of the shared
Chinese-keyed object) or one of the placeholder forms embedding the original
text. At an inherited name the bracket read yields the truthy inherited
member instead, bypassing scan and placeholder. -/
theorem c2_offline_totality (req : TranslateRequest)
    (h : validateTranslate req = none)
    (hdk : translationDirection req.currentSpeaker = "to_chinese" →
      jsTrim (jsToLower req.text) ∉ objectPrototypeKeys)
    (hpk : ¬(translationDirection req.currentSpeaker = "to_chinese") →
      jsTrim req.text ∉ objectPrototypeKeys) :
    handleTranslateDemo req = .ok (offlineTranslate req) ∧
    offlineTranslateJs req = .str ((offlineTranslate req).translation) ∧
    ((offlineTranslate req).translation ∈ tableValues (mockTranslations req.targetLanguage) ∨
     (offlineTranslate req).translation = req.text ++ "（请提供更详细的翻译）" ∨
     (offlineTranslate req).translation = req.text ++ "（請提供更詳細嘅翻譯）" ∨
     (offlineTranslate req).translation ∈ tableValues mockChineseToEnglish ∨
     (offlineTranslate req).translation =
       "\"" ++ req.text ++ "\" (Please provide proper English translation)") := by
  refine ⟨?_, ?_, ?_⟩
  · unfold handleTranslateDemo
    rw [h]
  · rw [offlineTranslate_translation]
    unfold offlineTranslateJs
    by_cases hspk : translationDirection req.currentSpeaker = "to_chinese"
    · rw [if_pos hspk, if_pos hspk]
      unfold doctorTranslationJs offlineDoctorTranslation
      exact doctorLookupJs_eq _ _ _ (hdk hspk)
        (mockTranslations_values_nonempty req.targetLanguage)
    · rw [if_neg hspk, if_neg hspk]
      unfold patientTranslationJs offlinePatientTranslation
      exact patientLookupJs_eq _ _ (hpk hspk) mockChinese_values_nonempty
  · rw [offlineTranslate_translation]
    by_cases hspk : translationDirection req.currentSpeaker = "to_chinese"
    · rw [if_pos hspk]
      rcases doctorLookup_shape (objOfList (mockTranslations req.targetLanguage))
          req.text req.targetLanguage with h1 | h1 | h1
      · exact Or.inl h1
      · exact Or.inr (Or.inl h1)
      · exact Or.inr (Or.inr (Or.inl h1))
    · rw [if_neg hspk]
      rcases patientLookup_shape (objOfList mockChineseToEnglish) req.text with h1 | h1
      · exact Or.inr (Or.inr (Or.inr (Or.inl h1)))
      · exact Or.inr (Or.inr (Or.inr (Or.inr h1)))

/-- Witness for C2 (amended) at the request (hello, mandarin, doctor). -/
theorem c2_offline_totality_witness :
    validateTranslate ⟨"hello", "mandarin", "doctor"⟩ = none ∧
    jsTrim (jsToLower "hello") ∉ objectPrototypeKeys ∧
    (handleTranslateDemo ⟨"hello", "mandarin", "doctor"⟩ =
        .ok (offlineTranslate ⟨"hello", "mandarin", "doctor"⟩) ∧
      offlineTranslateJs ⟨"hello", "mandarin", "doctor"⟩ =
        .str ((offlineTranslate ⟨"hello", "mandarin", "doctor"⟩).translation) ∧
      ((offlineTranslate ⟨"hello", "mandarin", "doctor"⟩).translation ∈
          tableValues (mockTranslations "mandarin") ∨
       (offlineTranslate ⟨"hello", "mandarin", "doctor"⟩).translation =
          "hello" ++ "（请提供更详细的翻译）" ∨
       (offlineTranslate ⟨"hello", "mandarin", "doctor"⟩).translation =
          "hello" ++ "（請提供更詳細嘅翻譯）" ∨
       (offlineTranslate ⟨"hello", "mandarin", "doctor"⟩).translation ∈
          tableValues mockChineseToEnglish ∨
       (offlineTranslate ⟨"hello", "mandarin", "doctor"⟩).translation =
          "\"" ++ "hello" ++ "\" (Please provide proper English translation)")) :=
  ⟨by decide, by decide,
   c2_offline_totality ⟨"hello", "mandarin", "doctor"⟩ (by decide)
     (fun _ => by decide) (fun _ => by decide)⟩

/-- C3: the offline partial-match scans prefer longer phrases — any object
entry whose key also matches the input is no longer than the key of the entry
the scan returns, for both the English word-boundary scan and the Chinese
containment scan; in particular the full-sentence medication input is
translated by the full-sentence entry even though the shorter "with food"
entry also matches. -/
theorem c3_longest_match_priority :
    (∀ (obj : List (String × String)) (lowerText : String) (x : String × String),
        scanEnglish obj lowerText = some x →
        ∀ y ∈ obj, wbTest y.1 lowerText = true → y.1.length ≤ x.1.length) ∧
    (∀ (obj : List (String × String)) (text : String) (x : String × String),
        scanChinese obj text = some x →
        ∀ y ∈ obj, includes text y.1 = true → y.1.length ≤ x.1.length) ∧
    wbTest "with food" (jsTrim (jsToLower "Take this medication twice daily with food.")) = true ∧
    wbTest "take this medication twice daily with food"
      (jsTrim (jsToLower "Take this medication twice daily with food.")) = true ∧
    offlineDoctorTranslation "Take this medication twice daily with food." "mandarin" =
      "每天随餐服用这个药物两次" := by
  refine ⟨?_, ?_, by decide, by decide, by decide⟩
  · intro obj lowerText x hfind y hy hmatch
    unfold scanEnglish at hfind
    exact find?_sorted_len_max (pairwise_sortByLenDesc obj) hfind y
      (mem_sortByLenDesc.mpr hy) hmatch
  · intro obj text x hfind y hy hmatch
    unfold scanChinese at hfind
    exact find?_sorted_len_max (pairwise_sortByLenDesc obj) hfind y
      (mem_sortByLenDesc.mpr hy) hmatch

/-- Witness for C3: on the medication sentence, the English scan returns the
full-sentence entry, and the also-matching shorter entry "with food" is
indeed no longer. -/
theorem c3_longest_match_priority_witness :
    scanEnglish mandarinPhrases "take this medication twice daily with food." =
      some ("take this medication twice daily with food", "每天随餐服用这个药物两次") ∧
    ("with food", "随餐服用") ∈ mandarinPhrases ∧
    wbTest "with food" "take this medication twice daily with food." = true ∧
    ("with food" : String).length ≤
      ("take this medication twice daily with food" : String).length :=
  ⟨by decide, by decide, by decide,
   c3_longest_match_priority.1 mandarinPhrases
     "take this medication twice daily with food."
     ("take this medication twice daily with food", "每天随餐服用这个药物两次")
     (by decide) ("with food", "随餐服用") (by decide) (by decide)⟩

/-- C4: the English-to-dialect matcher matches a key only at word boundaries
(any successful match decomposes the input around a case-insensitive copy of
the key with non-word characters, or the ends of the string, on both sides);
in particular "hi" occurs inside "this is fine" as a plain substring but is
not word-boundary matched, and the doctor translation of "this is fine" is
the no-match placeholder. -/
theorem c4_word_boundary_safety :
    (∀ (pat text : String), pat.data ≠ [] → wbTest pat text = true →
        ∃ pre mid suf : List Char,
          text.data = pre ++ mid ++ suf ∧
          mid.map Char.toLower = pat.data.map Char.toLower ∧
          isWordOpt pre.getLast? ≠ isWordOpt pat.data.head? ∧
          isWordOpt pat.data.getLast? ≠ isWordOpt suf.head?) ∧
    includes "this is fine" "hi" = true ∧
    wbTest "hi" "this is fine" = false ∧
    offlineDoctorTranslation "this is fine" "mandarin" =
      "this is fine（请提供更详细的翻译）" := by
  refine ⟨?_, by decide, by decide, by decide⟩
  intro pat text hne hmatch
  unfold wbTest at hmatch
  obtain ⟨pre, mid, suf, h1, h2, h3, h4⟩ := wbSearch_sound pat.data hne text.data none hmatch
  refine ⟨pre, mid, suf, h1, h2, ?_, h4⟩
  rwa [prevChar_none] at h3

/-- Witness for C4: a genuine word-boundary occurrence of "hi". -/
theorem c4_word_boundary_safety_witness :
    ("hi" : String).data ≠ [] ∧ wbTest "hi" "oh hi there" = true ∧
    (∃ pre mid suf : List Char,
      ("oh hi there" : String).data = pre ++ mid ++ suf ∧
      mid.map Char.toLower = ("hi" : String).data.map Char.toLower ∧
      isWordOpt pre.getLast? ≠ isWordOpt ("hi" : String).data.head? ∧
      isWordOpt ("hi" : String).data.getLast? ≠ isWordOpt suf.head?) :=
  ⟨by decide, by decide,
   c4_word_boundary_safety.1 "hi" "oh hi there" (by decide) (by decide)⟩

/-- C6: the live-mode `/api/audio` cascade tries the per-dialect voice
candidates strictly in order — the first candidate with a non-empty payload
wins and its profile is reported in `voiceType`; an empty payload counts as a
failure and the cascade advances; when every candidate fails, the surfaced
response is the error mapping of the last candidate's failure. -/
theorem c6_voice_fallback_cascade :
    (∀ (upstream : VoiceOption → Except TTSError (Option String))
       (req : AudioRequest) (pre : List VoiceOption) (v : VoiceOption)
       (post : List VoiceOption) (a : String),
        voiceOptionsFor req.targetLanguage = pre ++ v :: post →
        (∀ w ∈ pre, ttsFails upstream w = true) →
        upstream v = .ok (some a) →
        audioLive upstream req =
          .ok ⟨a, "audio/mp3", v.type ++ " (" ++ req.targetLanguage ++ ")",
               req.targetLanguage, (req.text.length + 7) / 8⟩) ∧
    (∀ (upstream : VoiceOption → Except TTSError (Option String))
       (v : VoiceOption) (vs : List VoiceOption) (last : Option TTSError),
        upstream v = .ok none →
        tryVoices upstream (v :: vs) last = tryVoices upstream vs (some noAudioErr)) ∧
    (∀ (upstream : VoiceOption → Except TTSError (Option String))
       (req : AudioRequest) (l : List VoiceOption) (v : VoiceOption),
        voiceOptionsFor req.targetLanguage = l ++ [v] →
        (∀ w ∈ l, ttsFails upstream w = true) →
        ttsFails upstream v = true →
        audioLive upstream req = .error (mapAudioError (ttsFailure upstream v))) := by
  refine ⟨?_, ?_, ?_⟩
  · intro upstream req pre v post a hdecomp hfail hv
    unfold audioLive
    rw [hdecomp, tryVoices_first_success upstream pre v post a none hfail hv]
  · intro upstream v vs last hv
    simp only [tryVoices, hv]
  · intro upstream req l v hdecomp hfail hv
    unfold audioLive
    rw [hdecomp, tryVoices_all_fail upstream l v none hfail hv]

/-- Witness for C6: with a first candidate that throws and a second whose
payload is empty, the mandarin cascade succeeds with the third (Standard)
profile; with every candidate failing, the cantonese cascade surfaces the
last candidate's permission failure mapped to a 403 response. -/
theorem c6_voice_fallback_cascade_witness :
    audioLive sampleUpstream ⟨"hello", "mandarin"⟩ =
      .ok ⟨"QVVESU8=", "audio/mp3", "Standard (mandarin)", "mandarin", 1⟩ ∧
    audioLive sampleUpstreamAllFail ⟨"hello", "cantonese"⟩ =
      .error ⟨403, "Audio service not available",
        "Text-to-speech service access is not configured"⟩ := by
  constructor
  · have h := c6_voice_fallback_cascade.1 sampleUpstream ⟨"hello", "mandarin"⟩
      [⟨some "zh-CN-Neural2-A", "Neural2"⟩, ⟨some "zh-CN-Wavenet-A", "Wavenet"⟩]
      ⟨none, "Standard"⟩ [] "QVVESU8=" rfl (by decide) rfl
    exact h.trans rfl
  · have h := c6_voice_fallback_cascade.2.2 sampleUpstreamAllFail ⟨"hello", "cantonese"⟩
      [⟨some "zh-HK-Neural2-A", "Neural2"⟩, ⟨some "zh-HK-HiuMaan", "Premium"⟩,
       ⟨some "zh-HK-HiuGaai", "Standard"⟩]
      ⟨none, "Basic"⟩ rfl (by decide) (by decide)
    exact h.trans rfl

/-- C7: the length checks are exact — 2000 characters pass and 2001 fail for
`/api/translate`, and 1000 pass and 1001 fail for `/api/audio`. -/
theorem c7_length_boundaries :
    (∀ req : TranslateRequest, req.text.length = 2000 →
        validateTranslate req ≠ some textTooLongErr) ∧
    (∀ req : TranslateRequest, (jsTrim req.text).length ≠ 0 →
        (req.targetLanguage = "mandarin" ∨ req.targetLanguage = "cantonese") →
        req.text.length = 2000 → validateTranslate req = none) ∧
    (∀ req : TranslateRequest, (jsTrim req.text).length ≠ 0 →
        req.text.length = 2001 → validateTranslate req = some textTooLongErr) ∧
    (∀ req : AudioRequest, req.text.length = 1000 →
        validateAudio req ≠ some audioTooLongErr) ∧
    (∀ req : AudioRequest, (jsTrim req.text).length ≠ 0 →
        (req.targetLanguage = "mandarin" ∨ req.targetLanguage = "cantonese") →
        req.text.length = 1000 → validateAudio req = none) ∧
    (∀ req : AudioRequest, (jsTrim req.text).length ≠ 0 →
        req.text.length = 1001 → validateAudio req = some audioTooLongErr) := by
  refine ⟨?_, ?_, ?_, ?_, ?_, ?_⟩
  · intro req hlen
    unfold validateTranslate
    split_ifs with h1 h2 h3 <;> simp_all [validTextErr, textTooLongErr, invalidLanguageErr]
  · intro req hne hlang hlen
    unfold validateTranslate
    split_ifs with h1 h2 <;> first | rfl | omega
  · intro req hne hlen
    unfold validateTranslate
    split_ifs with h1 h2 <;> first | rfl | omega
  · intro req hlen
    unfold validateAudio
    split_ifs with h1 h2 h3 <;>
      simp_all [audioValidTextErr, audioTooLongErr, audioInvalidLanguageErr]
  · intro req hne hlang hlen
    unfold validateAudio
    split_ifs with h1 h2 <;> first | rfl | omega
  · intro req hne hlen
    unfold validateAudio
    split_ifs with h1 h2 <;> first | rfl | omega

/-- Replicated-character strings evaluate shallowly: dropping whitespace from
a run of letters is the identity. -/
lemma dropWhile_ws_replicate (n : Nat) :
    List.dropWhile Char.isWhitespace (List.replicate n 'a') = List.replicate n 'a' := by
  have hws : Char.isWhitespace 'a' = false := by decide
  cases n with
  | zero => rfl
  | succ m => simp [List.replicate_succ, List.dropWhile_cons, hws]

lemma jsTrim_replicate_a (n : Nat) :
    jsTrim (String.mk (List.replicate n 'a')) = String.mk (List.replicate n 'a') := by
  unfold jsTrim
  simp [dropWhile_ws_replicate, List.reverse_replicate]

lemma length_mk_replicate (n : Nat) : (String.mk (List.replicate n 'a')).length = n := by
  show (List.replicate n 'a').length = n
  exact List.length_replicate n 'a'

/-- Witness for C7 at concrete texts of the four boundary lengths. -/
theorem c7_length_boundaries_witness :
    (String.mk (List.replicate 2000 'a')).length = 2000 ∧
    validateTranslate ⟨String.mk (List.replicate 2000 'a'), "mandarin", "doctor"⟩ = none ∧
    validateTranslate ⟨String.mk (List.replicate 2001 'a'), "mandarin", "doctor"⟩ =
      some textTooLongErr ∧
    validateAudio ⟨String.mk (List.replicate 1000 'a'), "mandarin"⟩ = none ∧
    validateAudio ⟨String.mk (List.replicate 1001 'a'), "mandarin"⟩ =
      some audioTooLongErr :=
  ⟨length_mk_replicate 2000,
   c7_length_boundaries.2.1 ⟨String.mk (List.replicate 2000 'a'), "mandarin", "doctor"⟩
     (by rw [jsTrim_replicate_a, length_mk_replicate]; omega) (Or.inl rfl)
     (length_mk_replicate 2000),
   c7_length_boundaries.2.2.1 ⟨String.mk (List.replicate 2001 'a'), "mandarin", "doctor"⟩
     (by rw [jsTrim_replicate_a, length_mk_replicate]; omega)
     (length_mk_replicate 2001),
   c7_length_boundaries.2.2.2.2.1 ⟨String.mk (List.replicate 1000 'a'), "mandarin"⟩
     (by rw [jsTrim_replicate_a, length_mk_replicate]; omega) (Or.inl rfl)
     (length_mk_replicate 1000),
   c7_length_boundaries.2.2.2.2.2 ⟨String.mk (List.replicate 1001 'a'), "mandarin"⟩
     (by rw [jsTrim_replicate_a, length_mk_replicate]; omega)
     (length_mk_replicate 1001)⟩

/-- C9: the `/api/translate` catch block maps a quota-exhaustion code and a
rate-limit code to 429 responses with retry-later messages, and every other
upstream failure to one fixed generic 500 response; the mapping reads only
the error code, never the upstream internals. -/
theorem c9_translate_error_mapping :
    (∀ e : UpstreamErr, e.code = some "insufficient_quota" →
        mapTranslateError e =
          ⟨429, "Translation service temporarily unavailable",
            "Please try again in a moment"⟩) ∧
    (∀ e : UpstreamErr, e.code = some "rate_limit_exceeded" →
        mapTranslateError e =
          ⟨429, "Too many requests", "Please wait a moment before trying again"⟩) ∧
    (∀ e : UpstreamErr, e.code ≠ some "insufficient_quota" →
        e.code ≠ some "rate_limit_exceeded" →
        mapTranslateError e =
          ⟨500, "Translation failed", "Unable to process translation request"⟩) ∧
    (∀ e e' : UpstreamErr, e.code = e'.code →
        mapTranslateError e = mapTranslateError e') := by
  refine ⟨?_, ?_, ?_, ?_⟩
  · intro e h
    unfold mapTranslateError
    rw [h]
    rfl
  · intro e h
    unfold mapTranslateError
    rw [h]
    rfl
  · intro e h1 h2
    unfold mapTranslateError
    rw [if_neg h1, if_neg h2]
  · intro e e' h
    unfold mapTranslateError
    rw [h]

/-- Witness for C9 at concrete upstream errors carrying internals. -/
theorem c9_translate_error_mapping_witness :
    mapTranslateError ⟨some "insufficient_quota", "Billing hard limit reached"⟩ =
      ⟨429, "Translation service temporarily unavailable", "Please try again in a moment"⟩ ∧
    mapTranslateError ⟨some "rate_limit_exceeded", "Rate limit tier 1"⟩ =
      ⟨429, "Too many requests", "Please wait a moment before trying again"⟩ ∧
    mapTranslateError ⟨some "server_error", "stack trace: openai.chat"⟩ =
      ⟨500, "Translation failed", "Unable to process translation request"⟩ ∧
    mapTranslateError ⟨none, "socket hang up"⟩ =
      ⟨500, "Translation failed", "Unable to process translation request"⟩ :=
  ⟨c9_translate_error_mapping.1 ⟨some "insufficient_quota", "Billing hard limit reached"⟩ rfl,
   c9_translate_error_mapping.2.1 ⟨some "rate_limit_exceeded", "Rate limit tier 1"⟩ rfl,
   c9_translate_error_mapping.2.2.1 ⟨some "server_error", "stack trace: openai.chat"⟩
     (by decide) (by decide),
   c9_translate_error_mapping.2.2.1 ⟨none, "socket hang up"⟩ (by decide) (by decide)⟩

set_option maxRecDepth 4000 in
/-- C10: in offline mode the patient direction uses the single shared
Chinese-to-English object, so the response is independent of the dialect
except for the echoed `targetLanguage` field. -/
theorem c10_patient_dialect_independence (text : String) :
    offlineTranslate ⟨text, "mandarin", "patient"⟩ =
      { offlineTranslate ⟨text, "cantonese", "patient"⟩ with targetLanguage := "mandarin" } ∧
    (offlineTranslate ⟨text, "mandarin", "patient"⟩).translation =
      (offlineTranslate ⟨text, "cantonese", "patient"⟩).translation := by
  constructor
  · rw [offlineTranslate_nondoctor text "mandarin" "patient" (by decide),
        offlineTranslate_nondoctor text "cantonese" "patient" (by decide)]
  · rw [offlineTranslate_nondoctor text "mandarin" "patient" (by decide),
        offlineTranslate_nondoctor text "cantonese" "patient" (by decide)]

set_option maxRecDepth 4000 in
/-- C1 counterexample: the unrecognized speaker value `nurse` is not
rejected — validation passes and the request is processed in the patient
(to-English) direction. -/
theorem c1_unrecognized_speaker_processed :
    validateTranslate ⟨"hello", "mandarin", "nurse"⟩ = none ∧
    handleTranslateDemo ⟨"hello", "mandarin", "nurse"⟩ =
      .ok { translation := "\"hello\" (Please provide proper English translation)",
            originalText := "hello", targetLanguage := "mandarin",
            translationDirection := "to_english", demoMode := true } := by
  refine ⟨by decide, ?_⟩
  have htr : offlinePatientTranslation "hello" =
      "\"hello\" (Please provide proper English translation)" := by
    rw [offlinePatientTranslation_eq]
    have h := patientLookup_miss chineseEntries "hello" (by decide)
      (by rw [scanChinese_chinese]; decide)
    exact h.trans rfl
  have hresp : offlineTranslate ⟨"hello", "mandarin", "nurse"⟩ =
      { translation := offlinePatientTranslation "hello", originalText := "hello",
        targetLanguage := "mandarin", translationDirection := "to_english",
        demoMode := true } :=
    offlineTranslate_nondoctor "hello" "mandarin" "nurse" (by decide)
  unfold handleTranslateDemo
  rw [show validateTranslate ⟨"hello", "mandarin", "nurse"⟩ = none from by decide,
      hresp, htr]

set_option maxRecDepth 4000 in
/-- C5 counterexample: a patient request with `targetLanguage = mandarin`
retrieves the Traditional-character phrase 頭痛, an entry of the Cantonese
section of the single shared table — the translation is the table hit, not
the no-match placeholder, and coincides with the cantonese-dialect result. -/
theorem c5_mandarin_hits_cantonese_entry :
    (offlineTranslate ⟨"頭痛", "mandarin", "patient"⟩).translation = "I have a headache" ∧
    (offlineTranslate ⟨"頭痛", "mandarin", "patient"⟩).translation =
      (offlineTranslate ⟨"頭痛", "cantonese", "patient"⟩).translation := by
  have ht : ∀ lang : String,
      (offlineTranslate ⟨"頭痛", lang, "patient"⟩).translation =
        offlinePatientTranslation "頭痛" := by
    intro lang
    rw [offlineTranslate_nondoctor "頭痛" lang "patient" (by decide)]
  refine ⟨?_, (ht "mandarin").trans (ht "cantonese").symm⟩
  rw [ht "mandarin", offlinePatientTranslation_eq]
  exact patientLookup_exact chineseEntries "頭痛" "I have a headache" (by decide)

set_option maxRecDepth 4000 in
/-- C5 (amended): the offline patient direction looks up a single shared
Chinese-keyed object for both dialects — exact match on the trimmed text,
then the longest-first containment scan — so the translation is independent
of the dialect; the cited example (patient, cantonese, 頭痛) does hold. -/
theorem c5_amended_shared_table :
    (∀ (text l l' : String),
        (offlineTranslate ⟨text, l, "patient"⟩).translation =
        (offlineTranslate ⟨text, l', "patient"⟩).translation) ∧
    offlineTranslate ⟨"頭痛", "cantonese", "patient"⟩ =
      { translation := "I have a headache", originalText := "頭痛",
        targetLanguage := "cantonese", translationDirection := "to_english",
        demoMode := true } := by
  constructor
  · intro text l l'
    rw [offlineTranslate_nondoctor text l "patient" (by decide),
        offlineTranslate_nondoctor text l' "patient" (by decide)]
  · rw [offlineTranslate_nondoctor "頭痛" "cantonese" "patient" (by decide),
        offlinePatientTranslation_eq,
        patientLookup_exact chineseEntries "頭痛" "I have a headache" (by decide)]

set_option maxRecDepth 4000 in
/-- C8 counterexample: the doctor input Constructor lower-cases to
`constructor`, which is no phrase-table key and is matched by no
word-boundary scan entry, yet the JS bracket read returns the truthy
inherited `Object.prototype.constructor`, so the computed translation is
that inherited member and not the placeholder around the original text. -/
theorem c8_constructor_no_placeholder :
    ((objOfList (mockTranslations "mandarin")).find?
        (fun p => p.1 == jsTrim (jsToLower "Constructor"))).map Prod.snd = none ∧
    scanEnglish (objOfList (mockTranslations "mandarin"))
      (jsTrim (jsToLower "Constructor")) = none ∧
    doctorTranslationJs "Constructor" "mandarin" = .inherited "constructor" ∧
    doctorTranslationJs "Constructor" "mandarin" ≠
      .str ("Constructor" ++ "（请提供更详细的翻译）") := by
  refine ⟨by decide, by decide, by decide, ?_⟩
  intro hs
  rw [(by decide : doctorTranslationJs "Constructor" "mandarin" =
    .inherited "constructor")] at hs
  exact JsValue.noConfusion hs

/-- C8 (amended): whenever the lower-cased trimmed text is not an inherited
`Object.prototype` property name and neither the exact lookup nor the
word-boundary scan of the dialect's English-keyed object matches, the doctor
translation — under the full JS property-read semantics — is the original,
untransformed text embedded in the dialect-appropriate placeholder. At an
inherited name the bracket read instead yields the truthy inherited member,
which skips the placeholder. -/
theorem c8_doctor_placeholder (text lang : String)
    (hk : jsTrim (jsToLower text) ∉ objectPrototypeKeys)
    (hexact : ((objOfList (mockTranslations lang)).find?
        (fun p => p.1 == jsTrim (jsToLower text))).map Prod.snd = none)
    (hscan : scanEnglish (objOfList (mockTranslations lang)) (jsTrim (jsToLower text)) = none) :
    doctorTranslationJs text lang =
      .str (if lang = "mandarin"
            then text ++ "（请提供更详细的翻译）"
            else text ++ "（請提供更詳細嘅翻譯）") ∧
    offlineDoctorTranslation text lang =
      (if lang = "mandarin"
       then text ++ "（请提供更详细的翻译）"
       else text ++ "（請提供更詳細嘅翻譯）") := by
  constructor
  · unfold doctorTranslationJs
    exact doctorLookupJs_miss (objOfList (mockTranslations lang)) text lang hk hexact hscan
  · unfold offlineDoctorTranslation
    exact doctorLookup_miss (objOfList (mockTranslations lang)) text lang hexact hscan

set_option maxRecDepth 4000 in
/-- Witness for C8 (amended): the unmatched input xyz123 in mandarin yields
exactly the Simplified-Chinese placeholder around the original text, under
both the full JS semantics and the response-level lookup. -/
theorem c8_doctor_placeholder_witness :
    jsTrim (jsToLower "xyz123") ∉ objectPrototypeKeys ∧
    ((objOfList (mockTranslations "mandarin")).find?
        (fun p => p.1 == jsTrim (jsToLower "xyz123"))).map Prod.snd = none ∧
    scanEnglish (objOfList (mockTranslations "mandarin")) (jsTrim (jsToLower "xyz123")) = none ∧
    doctorTranslationJs "xyz123" "mandarin" = .str "xyz123（请提供更详细的翻译）" ∧
    offlineDoctorTranslation "xyz123" "mandarin" = "xyz123（请提供更详细的翻译）" := by
  refine ⟨by decide, by decide, by decide, ?_, ?_⟩
  · have h := (c8_doctor_placeholder "xyz123" "mandarin" (by decide) (by decide) (by decide)).1
    exact h.trans (by rfl)
  · have h := (c8_doctor_placeholder "xyz123" "mandarin" (by decide) (by decide) (by decide)).2
    exact h.trans rfl

end MediTranslator
